import Mathlib

/-!
Snowflake connector: nanoarrow row/table converters.

A shallow embedding of the C++ converters under
`snowflake/connector/nanoarrow_cpp/ArrowIterator` and the properties proved
about them.

Conventions of the embedding

* `int64_t` / `int32_t` values are `Int`; where the C++ arithmetic can leave
  the range the result is reduced with `wrapInt64` / `wrapInt32`
  (two's-complement wrap-around).
* C++ `/` and `%` on signed integers truncate toward zero: `Int.tdiv`,
  `Int.tmod`.
* Row indices, lengths and offsets are `Nat` (the C++ passes non-negative
  `int64_t`).
* A read through a pointer that the C++ never initialised, or outside the
  bounds of a constant table, is `undefined` / `none`.

Part I holds the definitions, Part II the theorems.
-/

namespace sf

/-! ## Part I. Definitions -/

/-! ### Machine integers -/

def INT64_MAX : Int := 9223372036854775807

def INT64_MIN : Int := -9223372036854775808

def INT32_MAX : Int := 2147483647

def INT32_MIN : Int := -2147483648

/-- Reduce to the signed 64-bit range (two's complement). -/
def wrapInt64 (x : Int) : Int := (x + 9223372036854775808) % 18446744073709551616 - 9223372036854775808

/-- Reduce to the signed 32-bit range (two's complement), the effect of
narrowing an `int64_t` to `int32_t` / `int`. -/
def wrapInt32 (x : Int) : Int := (x + 2147483648) % 4294967296 - 2147483648

/-! ### The nanoarrow capability set

`nanoarrow.h` is consumed, not implemented, by the converters.  The array view
is modelled by the fields the converters read. -/

/-- Physical storage kinds (`enum ArrowType`), restricted to the ones the
dispatchers name plus a few others that fall in their `default:` branches. -/
inductive ArrowType where
  | NANOARROW_TYPE_NA
  | NANOARROW_TYPE_BOOL
  | NANOARROW_TYPE_INT8
  | NANOARROW_TYPE_INT16
  | NANOARROW_TYPE_INT32
  | NANOARROW_TYPE_INT64
  | NANOARROW_TYPE_HALF_FLOAT
  | NANOARROW_TYPE_FLOAT
  | NANOARROW_TYPE_DOUBLE
  | NANOARROW_TYPE_STRING
  | NANOARROW_TYPE_BINARY
  | NANOARROW_TYPE_LIST
  | NANOARROW_TYPE_STRUCT
  | NANOARROW_TYPE_MAP
  | NANOARROW_TYPE_DECIMAL128
  | NANOARROW_TYPE_FIXED_SIZE_LIST
  | NANOARROW_TYPE_TIMESTAMP
  | NANOARROW_TYPE_TIME64
  | NANOARROW_TYPE_TIME32
deriving DecidableEq, Repr

open ArrowType

/-- Model of `struct ArrowSchema`: the fields the converters read: `name`,
the physical type that `ArrowSchemaViewInit` reports, `metadata` (`none` is
the null pointer, otherwise the key/value entries in order) and `children`. -/
structure ArrowSchema where
  name : String
  type : ArrowType
  metadata : Option (List (String × String))
  children : List ArrowSchema

/-- Number of children, the field `n_children`. -/
def ArrowSchema.n_children (s : ArrowSchema) : Nat := s.children.length

/-- A byte of a buffer. -/
abbrev Byte := Fin 256

/-- Model of `struct ArrowArrayView`.

* `validity` is `buffer_views[0]` (`none`: no validity bitmap), one flag per
  slot, `true` meaning valid;
* `data` is `buffer_views[1]` seen as elements of the storage type
  (`as_int8` .. `as_int64`, and `as_int32` for list offsets);
* `bytes` is the same buffer seen as raw bytes (`as_char` / `as_uint8`);
* `children` are the child views;
* `buffer2` is `buffer_views[2]` seen as raw bytes, the character data of a
  string or binary array. -/
structure ArrowArrayView where
  storage_type : ArrowType
  length : Nat
  offset : Nat
  validity : Option (List Bool)
  data : List Int
  bytes : List Byte
  children : List ArrowArrayView
  buffer2 : List Byte := []

/-- Number of children, the field `n_children`. -/
def ArrowArrayView.n_children (a : ArrowArrayView) : Nat := a.children.length

/-- Modelled from the spec: `ArrowArrayViewIsNull` of nanoarrow.h (capability
`isNull(row)`): a row is null when the array has a validity bitmap whose bit at
`offset + i` is clear; an array of type NA is all null. -/
def ArrowArrayViewIsNull (a : ArrowArrayView) (i : Nat) : Bool :=
  match a.storage_type with
  | NANOARROW_TYPE_NA => true
  | _ =>
    match a.validity with
    | none => false
    | some bits => !(bits.getD (a.offset + i) true)

/-- Modelled from the spec: `ArrowArrayViewGetIntUnsafe` of nanoarrow.h
(capability `getInt(row)`): the element at `offset + i` of the data buffer,
read at the width of the storage type and widened to `int64_t`; for a storage
type without an integer reading nanoarrow returns `INT64_MAX`. -/
def ArrowArrayViewGetIntUnsafe (a : ArrowArrayView) (i : Nat) : Int :=
  match a.storage_type with
  | NANOARROW_TYPE_INT8 => a.data.getD (a.offset + i) 0
  | NANOARROW_TYPE_INT16 => a.data.getD (a.offset + i) 0
  | NANOARROW_TYPE_INT32 => a.data.getD (a.offset + i) 0
  | NANOARROW_TYPE_INT64 => a.data.getD (a.offset + i) 0
  | NANOARROW_TYPE_BOOL => a.data.getD (a.offset + i) 0
  | _ => INT64_MAX

/-- A C `double` produced by a typed read of a data buffer, identified by the
storage type it was read at and the stored element (for a floating-point
storage type the stored element is the bit pattern).  The conversion of the
stored element to binary64 is left symbolic. -/
structure CDouble where
  storage : ArrowType
  raw : Int
deriving DecidableEq, Repr

/-- Modelled from the spec: `ArrowArrayViewGetDoubleUnsafe` of nanoarrow.h
(capability `getDouble(row)`): the element at `offset + i` of the data buffer,
read at the storage type and converted to `double`. -/
def ArrowArrayViewGetDoubleUnsafe (a : ArrowArrayView) (i : Nat) : CDouble :=
  { storage := a.storage_type, raw := a.data.getD (a.offset + i) 0 }

/-- Modelled from the spec: `ArrowArrayViewGetStringUnsafe` /
`ArrowArrayViewGetBytesUnsafe` of nanoarrow.h (capability `getBytes(row)`):
the span of the character data delimited by the int32 offsets at `offset + i`
and `offset + i + 1`; `none` when the delimited size is negative. -/
def ArrowArrayViewGetStringUnsafe (a : ArrowArrayView) (i : Nat) : Option (List Byte) :=
  let start := a.data.getD (a.offset + i) 0
  let stop := a.data.getD (a.offset + i + 1) 0
  if stop - start < 0 ∨ start < 0 then none
  else some ((a.buffer2.drop start.toNat).take (stop - start).toNat)

/-! ### Util/time.hpp, Util/time.cpp -/

namespace internal

def SECONDS_PER_MINUTE : Int := 60

def MINUTES_PER_HOUR : Int := 60

def HOURS_PER_DAY : Int := 24

def SECONDS_PER_HOUR : Int := MINUTES_PER_HOUR * SECONDS_PER_MINUTE

def PYTHON_DATETIME_TIME_MICROSEC_DIGIT : Int := 6

def NANOSEC_DIGIT : Int := 9

/-- The ten entries of `constexpr int powTenSB4[]`. -/
def powTenSB4Table : List Int :=
  [1, 10, 100, 1000, 10000, 100000, 1000000, 10000000, 100000000, 1000000000]

/-- The subscript `powTenSB4[i]`; `none` when `i` is outside the table. -/
def powTenSB4 (i : Int) : Option Int :=
  if i < 0 then none else powTenSB4Table.get? i.toNat

def FIELD_NAME_EPOCH : String := "epoch"

def FIELD_NAME_TIME_ZONE : String := "timezone"

def FIELD_NAME_FRACTION : String := "fraction"

end internal

/-! ### CArrowTableIterator.cpp: timestamp column rewrite -/

/-- The constants `NANOARROW_TIME_UNIT_*`. -/
inductive ArrowTimeUnit where
  | NANOARROW_TIME_UNIT_SECOND
  | NANOARROW_TIME_UNIT_MILLI
  | NANOARROW_TIME_UNIT_MICRO
  | NANOARROW_TIME_UNIT_NANO
deriving DecidableEq, Repr

open ArrowTimeUnit

/-- How a column rewrite ends: it returns, it throws `std::overflow_error`, or
it reads something the C++ leaves undefined (an uninitialised child pointer,
a table subscript out of bounds, an array that was never initialised). -/
inductive Outcome (α : Type) where
  | ok (a : α)
  | overflow_error
  | undefined
deriving DecidableEq, Repr

/-- The rewritten column: what `ArrowSchemaSetTypeDateTime`,
`ArrowSchemaSetName` and the `ArrowArrayAppend*` calls build.  A row is
`none` for `ArrowArrayAppendNull` and `some v` for `ArrowArrayAppendInt(v)`. -/
structure TimestampColumn where
  unit : ArrowTimeUnit
  timezone : Option String
  name : String
  values : List (Option Int)
deriving DecidableEq, Repr

/-- The loop over `field->schema->children` that binds `epochArray` and
`fractionArray`: every child named "epoch" rebinds the first, every child
named "fraction" the second, so the last match wins; a pointer never bound
stays `none`. -/
def bindEpochFraction : List ArrowSchema → List ArrowArrayView →
    Option ArrowArrayView × Option ArrowArrayView →
    Option ArrowArrayView × Option ArrowArrayView
  | c_schema :: cs, child :: as, (epochArray, fractionArray) =>
    if c_schema.name = internal.FIELD_NAME_EPOCH then
      bindEpochFraction cs as (some child, fractionArray)
    else if c_schema.name = internal.FIELD_NAME_FRACTION then
      bindEpochFraction cs as (epochArray, some child)
    else
      bindEpochFraction cs as (epochArray, fractionArray)
  | _, _, acc => acc

/-- The scan `for (rowIdx ...)` of lines 640-661 over the row indices still
to visit, carrying `has_overflow_to_downscale`. -/
def overflowScan (columnArray epochArray fractionArray : ArrowArrayView) (powTenSB4 : Int) :
    List Nat → Bool → Outcome Bool
  | [], has_overflow_to_downscale => Outcome.ok has_overflow_to_downscale
  | rowIdx :: rest, has_overflow_to_downscale =>
    if !ArrowArrayViewIsNull columnArray rowIdx then
      let epoch := ArrowArrayViewGetIntUnsafe epochArray rowIdx
      let fraction := ArrowArrayViewGetIntUnsafe fractionArray rowIdx
      if epoch > Int.tdiv INT64_MAX powTenSB4 || epoch < Int.tdiv INT64_MIN powTenSB4 then
        if Int.tmod fraction 1000 != 0 then
          Outcome.overflow_error
        else
          overflowScan columnArray epochArray fractionArray powTenSB4 rest true
      else
        overflowScan columnArray epochArray fractionArray powTenSB4 rest has_overflow_to_downscale
    else
      overflowScan columnArray epochArray fractionArray powTenSB4 rest has_overflow_to_downscale

/-- Lines 621-662: the computation of `has_overflow_to_downscale`. -/
def computeHasOverflowToDownscale (field : ArrowSchema) (columnArray : ArrowArrayView)
    (scale : Int) : Outcome Bool :=
  if scale > 6 ∧ field.type = NANOARROW_TYPE_STRUCT then
    match bindEpochFraction field.children columnArray.children (none, none),
        internal.powTenSB4 9 with
    | (some epochArray, some fractionArray), some powTenSB4 =>
      overflowScan columnArray epochArray fractionArray powTenSB4
        (List.range columnArray.length) false
    | _, _ =>
      -- the scan reads through an unbound pointer as soon as a row is non-null
      if (List.range columnArray.length).all (fun rowIdx => ArrowArrayViewIsNull columnArray rowIdx) then
        Outcome.ok false
      else
        Outcome.undefined
  else
    Outcome.ok false

/-- The row loop of the `scale <= 6` branch (lines 703-719). -/
def appendScaledRows (columnArray : ArrowArrayView) (powTenSB4Val : Int) : List (Option Int) :=
  (List.range columnArray.length).map fun rowIdx =>
    if ArrowArrayViewIsNull columnArray rowIdx then none
    else some (wrapInt64 (ArrowArrayViewGetIntUnsafe columnArray rowIdx * powTenSB4Val))

/-- The row loop of the struct branch (lines 767-788). -/
def appendStructRows (columnArray epochArray fractionArray : ArrowArrayView)
    (has_overflow_to_downscale : Bool) (p6 p9 : Int) : List (Option Int) :=
  (List.range columnArray.length).map fun rowIdx =>
    if !ArrowArrayViewIsNull columnArray rowIdx then
      let epoch := ArrowArrayViewGetIntUnsafe epochArray rowIdx
      let fraction := ArrowArrayViewGetIntUnsafe fractionArray rowIdx
      if has_overflow_to_downscale then
        some (wrapInt64 (wrapInt64 (epoch * p6) + Int.tdiv fraction 1000))
      else
        some (wrapInt64 (wrapInt64 (epoch * p9) + fraction))
    else none

/-- The function `CArrowTableIterator::convertTimestampColumn_nanoarrow`
(lines 607-848).  `timezone` is the C++ string (empty: no zone attached).
Calls into nanoarrow that only allocate are taken to succeed. -/
def convertTimestampColumn_nanoarrow (field : ArrowSchema) (columnArray : ArrowArrayView)
    (scale : Int) (timezone : String) : Outcome TimestampColumn :=
  let tz : Option String := if timezone.isEmpty then none else some timezone
  match computeHasOverflowToDownscale field columnArray scale with
  | Outcome.overflow_error => Outcome.overflow_error
  | Outcome.undefined => Outcome.undefined
  | Outcome.ok has_overflow_to_downscale =>
    if scale ≤ 6 then
      let unitAndPow : ArrowTimeUnit × Option Int :=
        if scale = 0 then (NANOARROW_TIME_UNIT_SECOND, some 1)
        else if scale ≤ 3 then (NANOARROW_TIME_UNIT_MILLI, internal.powTenSB4 (3 - scale))
        else (NANOARROW_TIME_UNIT_MICRO, internal.powTenSB4 (6 - scale))
      match unitAndPow with
      | (timeunit, some powTenSB4Val) =>
        Outcome.ok
          { unit := timeunit, timezone := tz, name := field.name,
            values := appendScaledRows columnArray powTenSB4Val }
      | (_, none) => Outcome.undefined
    else if field.type = NANOARROW_TYPE_STRUCT then
      let timeunit :=
        if has_overflow_to_downscale then NANOARROW_TIME_UNIT_MICRO else NANOARROW_TIME_UNIT_NANO
      match bindEpochFraction field.children columnArray.children (none, none),
          internal.powTenSB4 6, internal.powTenSB4 9 with
      | (some epochArray, some fractionArray), some p6, some p9 =>
        Outcome.ok
          { unit := timeunit, timezone := tz, name := field.name,
            values := appendStructRows columnArray epochArray fractionArray
              has_overflow_to_downscale p6 p9 }
      | _, _, _ =>
        if (List.range columnArray.length).all (fun rowIdx => ArrowArrayViewIsNull columnArray rowIdx) then
          Outcome.ok
            { unit := timeunit, timezone := tz, name := field.name,
              values := (List.range columnArray.length).map fun _ => none }
        else
          Outcome.undefined
    else if field.type = NANOARROW_TYPE_INT64 then
      let timeunit :=
        if has_overflow_to_downscale then NANOARROW_TIME_UNIT_MICRO else NANOARROW_TIME_UNIT_NANO
      match internal.powTenSB4 (9 - scale) with
      | some p =>
        Outcome.ok
          { unit := timeunit, timezone := tz, name := field.name,
            values := appendScaledRows columnArray p }
      | none =>
        if (List.range columnArray.length).all (fun rowIdx => ArrowArrayViewIsNull columnArray rowIdx) then
          Outcome.ok
            { unit := timeunit, timezone := tz, name := field.name,
              values := (List.range columnArray.length).map fun _ => none }
        else
          Outcome.undefined
    else
      -- neither branch runs: `ArrowArrayFinishBuildingDefault` is called on an array
      -- that `ArrowArrayInitFromSchema` never initialised
      Outcome.undefined

/-! ### SnowflakeType.hpp, SnowflakeType.cpp -/

/-- What a C++ call can throw in the code modelled here. -/
inductive CppException where
  | out_of_range
  | invalid_argument
deriving DecidableEq, Repr

/-- The enumeration `SnowflakeType::Type` (`Type` is reserved in Lean, so the
enumeration takes the name of its class). -/
inductive SnowflakeType where
  | ANY
  | ARRAY
  | BINARY
  | BOOLEAN
  | CHAR
  | DATE
  | FIXED
  | OBJECT
  | REAL
  | TEXT
  | TIME
  | TIMESTAMP
  | TIMESTAMP_LTZ
  | TIMESTAMP_NTZ
  | TIMESTAMP_TZ
  | VARIANT
  | VECTOR
  | MAP
deriving DecidableEq, Repr

namespace SnowflakeType

/-- The initialiser list of `SnowflakeType::m_strEnumIndex`, in source order.
The keys are pairwise distinct, so the map holds exactly these 23 entries. -/
def m_strEnumIndex : List (String × SnowflakeType) :=
  [("ANY", SnowflakeType.ANY),
   ("ARRAY", SnowflakeType.ARRAY),
   ("BINARY", SnowflakeType.BINARY),
   ("BOOLEAN", SnowflakeType.BOOLEAN),
   ("CHAR", SnowflakeType.CHAR),
   ("DATE", SnowflakeType.DATE),
   ("DOUBLE PRECISION", SnowflakeType.REAL),
   ("DOUBLE", SnowflakeType.REAL),
   ("FIXED", SnowflakeType.FIXED),
   ("FLOAT", SnowflakeType.REAL),
   ("MAP", SnowflakeType.MAP),
   ("OBJECT", SnowflakeType.OBJECT),
   ("REAL", SnowflakeType.REAL),
   ("STRING", SnowflakeType.TEXT),
   ("TEXT", SnowflakeType.TEXT),
   ("TIME", SnowflakeType.TIME),
   ("TIMESTAMP", SnowflakeType.TIMESTAMP),
   ("TIMESTAMP_LTZ", SnowflakeType.TIMESTAMP_LTZ),
   ("TIMESTAMP_NTZ", SnowflakeType.TIMESTAMP_NTZ),
   ("TIMESTAMP_TZ", SnowflakeType.TIMESTAMP_TZ),
   ("VARCHAR", SnowflakeType.TEXT),
   ("VARIANT", SnowflakeType.VARIANT),
   ("VECTOR", SnowflakeType.VECTOR)]

/-- The C function `::toupper` in the "C" locale: the 26 letters a-z are
mapped to A-Z, every other character is left alone. -/
def toupper (c : Char) : Char :=
  if 97 ≤ c.toNat ∧ c.toNat ≤ 122 then Char.ofNat (c.toNat - 32) else c

/-- The call `std::transform(str.begin(), str.end(), str.begin(), ::toupper)`. -/
def transformToUpper (str : String) : String := String.mk (str.data.map toupper)

/-- The call `std::unordered_map::at`: the mapped value, or `std::out_of_range`. -/
def mapAt (m : List (String × SnowflakeType)) (key : String) : Except CppException SnowflakeType :=
  match m.find? (fun kv => kv.1 == key) with
  | some kv => Except.ok kv.2
  | none => Except.error CppException.out_of_range

/-- The function `SnowflakeType::snowflakeTypeFromString`. -/
def snowflakeTypeFromString (str : String) : Except CppException SnowflakeType :=
  mapAt m_strEnumIndex (transformToUpper str)

end SnowflakeType

/-! ### Schema metadata and `std::stoi` -/

/-- Modelled from the spec: `ArrowMetadataGetValue` of nanoarrow
(`getMetadataValue(node, key) -> string | absent`): the value of the first
entry with that key; when the key is absent (or the metadata pointer is null)
the output view is left as it was initialised, `ArrowCharView(nullptr)`, which
is `none` here.  The return code is always `NANOARROW_OK`. -/
def ArrowMetadataGetValue (metadata : Option (List (String × String))) (key : String) :
    Option String :=
  match metadata with
  | none => none
  | some entries => (entries.find? (fun kv => kv.1 == key)).map (fun kv => kv.2)

/-- The expression `std::string(view.data, view.size_bytes)`: a view that was
never filled has size 0 and gives the empty string. -/
def stringOfView (view : Option String) : String := view.getD ""

/-- The six characters for which `isspace` holds in the "C" locale. -/
def isspace (c : Char) : Bool :=
  c.toNat = 32 || (9 ≤ c.toNat && c.toNat ≤ 13)

/-- Value of a run of decimal digits. -/
def digitsValue (ds : List Char) : Int :=
  ds.foldl (fun acc c => acc * 10 + ((c.toNat : Int) - 48)) 0

/-- The standard function `std::stoi(str)` (base 10): skips leading white
space, reads an optional sign and the longest run of digits, ignores what
follows; `std::invalid_argument` when there is no digit, `std::out_of_range`
when the value does not fit an `int`. -/
def stoi (str : String) : Except CppException Int :=
  let cs := str.data.dropWhile isspace
  let signed : Bool × List Char :=
    match cs with
    | c :: rest => if c = '-' then (true, rest) else if c = '+' then (false, rest) else (false, cs)
    | [] => (false, [])
  let ds := signed.2.takeWhile Char.isDigit
  if ds.isEmpty then Except.error CppException.invalid_argument
  else
    let v := if signed.1 then -(digitsValue ds) else digitsValue ds
    if v < INT32_MIN ∨ v > INT32_MAX then Except.error CppException.out_of_range
    else Except.ok v

/-! ### The converter classes (IColumnConverter and its subclasses) -/

/-- One constructor per converter class, carrying the members the class
stores.  A member pointer that the constructor leaves unbound is `none`; a
`shared_ptr` member may be null, again `none`. -/
inductive Converter where
  | IntConverter (m_array : ArrowArrayView)
  | NumpyIntConverter (m_array : ArrowArrayView)
  | DecimalFromIntConverter (m_array : ArrowArrayView) (m_precision m_scale : Int)
  | NumpyDecimalConverter (m_array : ArrowArrayView) (m_precision m_scale : Int)
  | DecimalFromDecimalConverter (m_array : ArrowArrayView) (m_scale : Int)
  | StringConverter (m_array : ArrowArrayView)
  | BooleanConverter (m_array : ArrowArrayView)
  | FloatConverter (m_array : ArrowArrayView)
  | NumpyFloat64Converter (m_array : ArrowArrayView)
  | DateConverter (m_array : ArrowArrayView)
  | NumpyDateConverter (m_array : ArrowArrayView)
  | BinaryConverter (m_array : ArrowArrayView)
  | TimeConverter (m_array : ArrowArrayView) (m_scale : Int)
  | OneFieldTimeStampNTZConverter (m_array : ArrowArrayView) (m_scale : Int)
  | NumpyOneFieldTimeStampNTZConverter (m_array : ArrowArrayView) (m_scale : Int)
  | TwoFieldTimeStampNTZConverter (m_array : ArrowArrayView) (m_scale : Int)
      (m_epoch m_fraction : Option ArrowArrayView)
  | NumpyTwoFieldTimeStampNTZConverter (m_array : ArrowArrayView) (m_scale : Int)
      (m_epoch m_fraction : Option ArrowArrayView)
  | OneFieldTimeStampLTZConverter (m_array : ArrowArrayView) (m_scale : Int)
  | TwoFieldTimeStampLTZConverter (m_array : ArrowArrayView) (m_scale : Int)
      (m_epoch m_fraction : Option ArrowArrayView)
  | TwoFieldTimeStampTZConverter (m_array : ArrowArrayView) (m_scale : Int)
      (m_epoch m_timezone : Option ArrowArrayView)
  | ThreeFieldTimeStampTZConverter (m_array : ArrowArrayView) (m_scale : Int)
      (m_epoch m_timezone m_fraction : Option ArrowArrayView)
  | ArrayConverter (m_array : ArrowArrayView) (m_item_converter : Option Converter)
  | MapConverter (m_array : ArrowArrayView) (m_key_converter m_value_converter : Option Converter)
  | ObjectConverter (m_array : ArrowArrayView) (m_property_names : List String)
      (m_converters : List (Option Converter))
  | FixedSizeListConverter (m_array : ArrowArrayView)

/-- How a converter build ends: it returns a (possibly null) converter and
leaves the Python error indicator set (`some message`) or clear; or a C++
exception leaves the call; or the build reads a child that does not exist. -/
inductive Built where
  | returned (converter : Option Converter) (pyErr : Option String)
  | thrown (e : CppException)
  | undefined

/-- The error indicator after two operations in sequence: a later
`PyErr_SetString` replaces an earlier one. -/
def laterErr (first second : Option String) : Option String :=
  match second with
  | some e => some e
  | none => first

/-- The loop of the `TwoFieldTimeStampTZConverter` constructor binding
`m_epoch` and `m_timezone` by child name. -/
def bindEpochTimezone : List ArrowSchema → List ArrowArrayView →
    Option ArrowArrayView × Option ArrowArrayView →
    Option ArrowArrayView × Option ArrowArrayView
  | c_schema :: cs, child :: as, (m_epoch, m_timezone) =>
    if c_schema.name = internal.FIELD_NAME_EPOCH then
      bindEpochTimezone cs as (some child, m_timezone)
    else if c_schema.name = internal.FIELD_NAME_TIME_ZONE then
      bindEpochTimezone cs as (m_epoch, some child)
    else
      bindEpochTimezone cs as (m_epoch, m_timezone)
  | _, _, acc => acc

/-- The loop of the `ThreeFieldTimeStampTZConverter` constructor binding
`m_epoch`, `m_timezone` and `m_fraction` by child name. -/
def bindEpochTimezoneFraction : List ArrowSchema → List ArrowArrayView →
    Option ArrowArrayView × Option ArrowArrayView × Option ArrowArrayView →
    Option ArrowArrayView × Option ArrowArrayView × Option ArrowArrayView
  | c_schema :: cs, child :: as, (m_epoch, m_timezone, m_fraction) =>
    if c_schema.name = internal.FIELD_NAME_EPOCH then
      bindEpochTimezoneFraction cs as (some child, m_timezone, m_fraction)
    else if c_schema.name = internal.FIELD_NAME_TIME_ZONE then
      bindEpochTimezoneFraction cs as (m_epoch, some child, m_fraction)
    else if c_schema.name = internal.FIELD_NAME_FRACTION then
      bindEpochTimezoneFraction cs as (m_epoch, m_timezone, some child)
    else
      bindEpochTimezoneFraction cs as (m_epoch, m_timezone, m_fraction)
  | _, _, acc => acc

def fieldNumberMismatch2 : String :=
  "[Snowflake Exception] arrow schema field number does not match, expected 2 but got %d instead"

def fieldNumberMismatch3 : String :=
  "[Snowflake Exception] arrow schema field number does not match, expected 3 but got %d instead"

/-- Constructors of `TwoFieldTimeStampNTZConverter`,
`NumpyTwoFieldTimeStampNTZConverter` and `TwoFieldTimeStampLTZConverter`
(the three bodies are the same): the members bound and the error set. -/
def twoFieldEpochFractionCtor (array : ArrowArrayView) (schema : ArrowSchema) :
    (Option ArrowArrayView × Option ArrowArrayView) × Option String :=
  if schema.n_children ≠ 2 then ((none, none), some fieldNumberMismatch2)
  else (bindEpochFraction schema.children array.children (none, none), none)

/-- Constructor of `TwoFieldTimeStampTZConverter`. -/
def twoFieldEpochTimezoneCtor (array : ArrowArrayView) (schema : ArrowSchema) :
    (Option ArrowArrayView × Option ArrowArrayView) × Option String :=
  if schema.n_children ≠ 2 then ((none, none), some fieldNumberMismatch2)
  else (bindEpochTimezone schema.children array.children (none, none), none)

/-- Constructor of `ThreeFieldTimeStampTZConverter`. -/
def threeFieldCtor (array : ArrowArrayView) (schema : ArrowSchema) :
    (Option ArrowArrayView × Option ArrowArrayView × Option ArrowArrayView) × Option String :=
  if schema.n_children ≠ 3 then ((none, none, none), some fieldNumberMismatch3)
  else (bindEpochTimezoneFraction schema.children array.children (none, none, none), none)

/-! ### CArrowChunkIterator.cpp: `getConverterFromSchema` -/

/-- The read `std::stoi(std::string(view.data, view.size_bytes))` of the
metadata entry `key`. -/
def stoiMetadata (metadata : Option (List (String × String))) (key : String) :
    Except CppException Int :=
  stoi (stringOfView (ArrowMetadataGetValue metadata key))

/-- Lines 128-151: `scale` and `precision` of a FIXED column. -/
def fixedScalePrecision (metadata : Option (List (String × String))) :
    Except CppException (Int × Int) :=
  match metadata with
  | none => Except.ok (0, 38)
  | some _ =>
    match stoiMetadata metadata "scale" with
    | Except.error e => Except.error e
    | Except.ok scale =>
      match stoiMetadata metadata "precision" with
      | Except.error e => Except.error e
      | Except.ok precision => Except.ok (scale, precision)

/-- The macro `_SF_INIT_FIXED_CONVERTER` (lines 154-172), one expansion. -/
def SF_INIT_FIXED_CONVERTER (array : ArrowArrayView) (precision scale : Int) (useNumpy : Bool) :
    Converter :=
  if scale > 0 then
    if useNumpy then Converter.NumpyDecimalConverter array precision scale
    else Converter.DecimalFromIntConverter array precision scale
  else
    if useNumpy then Converter.NumpyIntConverter array
    else Converter.IntConverter array

/-- Lines 127-196: `case SnowflakeType::Type::FIXED`. -/
def fixedCase (schema : ArrowSchema) (array : ArrowArrayView) (useNumpy : Bool) : Built :=
  match fixedScalePrecision schema.metadata with
  | Except.error e => Built.thrown e
  | Except.ok (scale, precision) =>
    match schema.type with
    | NANOARROW_TYPE_INT8 =>
      Built.returned (some (SF_INIT_FIXED_CONVERTER array precision scale useNumpy)) none
    | NANOARROW_TYPE_INT16 =>
      Built.returned (some (SF_INIT_FIXED_CONVERTER array precision scale useNumpy)) none
    | NANOARROW_TYPE_INT32 =>
      Built.returned (some (SF_INIT_FIXED_CONVERTER array precision scale useNumpy)) none
    | NANOARROW_TYPE_INT64 =>
      Built.returned (some (SF_INIT_FIXED_CONVERTER array precision scale useNumpy)) none
    | NANOARROW_TYPE_DECIMAL128 =>
      Built.returned (some (Converter.DecimalFromDecimalConverter array scale)) none
    | _ =>
      Built.returned none
        (some "[Snowflake Exception] unknown arrow internal data type(%d) for FIXED data")

/-- The scale of a TIME / TIMESTAMP_NTZ / TIMESTAMP_LTZ column (for instance
lines 235-247). -/
def timeScale (metadata : Option (List (String × String))) : Except CppException Int :=
  match metadata with
  | none => Except.ok 9
  | some _ => stoiMetadata metadata "scale"

/-- Lines 234-266: `case SnowflakeType::Type::TIME`. -/
def timeCase (schema : ArrowSchema) (array : ArrowArrayView) : Built :=
  match timeScale schema.metadata with
  | Except.error e => Built.thrown e
  | Except.ok scale =>
    match schema.type with
    | NANOARROW_TYPE_INT32 => Built.returned (some (Converter.TimeConverter array scale)) none
    | NANOARROW_TYPE_INT64 => Built.returned (some (Converter.TimeConverter array scale)) none
    | _ =>
      Built.returned none
        (some "[Snowflake Exception] unknown arrow internal data type(%d) for TIME data")

/-- Lines 268-318: `case SnowflakeType::Type::TIMESTAMP_NTZ`. -/
def timestampNTZCase (schema : ArrowSchema) (array : ArrowArrayView) (useNumpy : Bool) : Built :=
  match timeScale schema.metadata with
  | Except.error e => Built.thrown e
  | Except.ok scale =>
    match schema.type with
    | NANOARROW_TYPE_INT64 =>
      if useNumpy then
        Built.returned (some (Converter.NumpyOneFieldTimeStampNTZConverter array scale)) none
      else
        Built.returned (some (Converter.OneFieldTimeStampNTZConverter array scale)) none
    | NANOARROW_TYPE_STRUCT =>
      let bound := twoFieldEpochFractionCtor array schema
      if useNumpy then
        Built.returned
          (some (Converter.NumpyTwoFieldTimeStampNTZConverter array scale bound.1.1 bound.1.2))
          bound.2
      else
        Built.returned
          (some (Converter.TwoFieldTimeStampNTZConverter array scale bound.1.1 bound.1.2))
          bound.2
    | _ =>
      Built.returned none
        (some "[Snowflake Exception] unknown arrow internal data type(%d) for TIMESTAMP_NTZ data")

/-- Lines 320-358: `case SnowflakeType::Type::TIMESTAMP_LTZ`. -/
def timestampLTZCase (schema : ArrowSchema) (array : ArrowArrayView) : Built :=
  match timeScale schema.metadata with
  | Except.error e => Built.thrown e
  | Except.ok scale =>
    match schema.type with
    | NANOARROW_TYPE_INT64 =>
      Built.returned (some (Converter.OneFieldTimeStampLTZConverter array scale)) none
    | NANOARROW_TYPE_STRUCT =>
      let bound := twoFieldEpochFractionCtor array schema
      Built.returned
        (some (Converter.TwoFieldTimeStampLTZConverter array scale bound.1.1 bound.1.2)) bound.2
    | _ =>
      Built.returned none
        (some "[Snowflake Exception] unknown arrow internal data type(%d) for TIMESTAMP_LTZ data")

/-- Lines 361-389: `scale` and `byteLength` of a TIMESTAMP_TZ column. -/
def timestampTZParams (metadata : Option (List (String × String))) :
    Except CppException (Int × Int) :=
  match metadata with
  | none => Except.ok (9, 16)
  | some _ =>
    match stoiMetadata metadata "scale" with
    | Except.error e => Except.error e
    | Except.ok scale =>
      match ArrowMetadataGetValue metadata "byteLength" with
      | none => Except.ok (scale, 16)
      | some byteLengthString =>
        match stoi byteLengthString with
        | Except.error e => Except.error e
        | Except.ok byteLength => Except.ok (scale, byteLength)

/-- Lines 360-415: `case SnowflakeType::Type::TIMESTAMP_TZ`. -/
def timestampTZCase (schema : ArrowSchema) (array : ArrowArrayView) : Built :=
  match timestampTZParams schema.metadata with
  | Except.error e => Built.thrown e
  | Except.ok (scale, byteLength) =>
    if byteLength = 8 then
      let bound := twoFieldEpochTimezoneCtor array schema
      Built.returned
        (some (Converter.TwoFieldTimeStampTZConverter array scale bound.1.1 bound.1.2)) bound.2
    else if byteLength = 16 then
      let bound := threeFieldCtor array schema
      Built.returned
        (some (Converter.ThreeFieldTimeStampTZConverter array scale bound.1.1 bound.1.2.1
          bound.1.2.2)) bound.2
    else
      Built.returned none
        (some "[Snowflake Exception] unknown arrow internal data type(%d) for TIMESTAMP_TZ data")

def invalidArrayItems : String :=
  "[Snowflake Exception] invalid arrow schema for array items expected 1 schema child, but got %d"

def invalidMapEntries : String :=
  "[Snowflake Exception] invalid arrow schema for map entries expected 1 schema child, but got %d"

def invalidMapPair : String :=
  "[Snowflake Exception] invalid arrow schema for map key/value pair expected 2 entries, but got %d"

/-- How the loop of the `ObjectConverter` constructor ends: the converters
pushed and the error indicator, or a C++ exception, or an undefined read. -/
inductive BuiltList where
  | returned (converters : List (Option Converter)) (pyErr : Option String)
  | thrown (e : CppException)
  | undefined

/-- One iteration of the loop followed by the remaining iterations: the
remaining ones run only when this one returned. -/
def BuiltList.ofBuilt (first : Built) (rest : BuiltList) : BuiltList :=
  match first with
  | Built.returned c err =>
    match rest with
    | BuiltList.returned cs errs => BuiltList.returned (c :: cs) (laterErr err errs)
    | BuiltList.thrown e => BuiltList.thrown e
    | BuiltList.undefined => BuiltList.undefined
  | Built.thrown e => BuiltList.thrown e
  | Built.undefined => BuiltList.undefined

/-- What follows the loop of the `ObjectConverter` constructor. -/
def BuiltList.andThenList (b : BuiltList) (k : List (Option Converter) → Option String → Built) :
    Built :=
  match b with
  | BuiltList.returned cs err => k cs err
  | BuiltList.thrown e => Built.thrown e
  | BuiltList.undefined => Built.undefined

/-- The member initialisation of a constructor that stores the converter of
one child: the build of the child decides how the constructor ends. -/
def Built.andThen (b : Built) (k : Option Converter → Option String → Built) : Built :=
  match b with
  | Built.returned c err => k c err
  | Built.thrown e => Built.thrown e
  | Built.undefined => Built.undefined

/-- The access `array->children[i]`, handed to what uses the child; the
access is undefined when the view has no such child. -/
def withChild (array : ArrowArrayView) (i : Nat) (k : ArrowArrayView → Built) : Built :=
  match array.children.get? i with
  | some child => k child
  | none => Built.undefined

mutual

/-- The function `getConverterFromSchema` (lines 98-483) on a schema that
`ArrowSchemaViewInit` accepts: the call of lines 106-110 is taken to succeed
and to report `schema.type`.  On a schema it rejects the C++ returns the null
converter with an error recorded; nanoarrow.h is not among the sources, so
which schemas it rejects is not modelled; no theorem of this file is about the
build of a list or map schema with a wrong number of children. -/
def getConverterFromSchema (schema : ArrowSchema) (array : ArrowArrayView) (useNumpy : Bool) :
    Built :=
  match schema with
  | ⟨name, type, metadata, children⟩ =>
    match SnowflakeType.snowflakeTypeFromString
        (stringOfView (ArrowMetadataGetValue metadata "logicalType")) with
    | Except.error e => Built.thrown e
    | Except.ok SnowflakeType.FIXED => fixedCase ⟨name, type, metadata, children⟩ array useNumpy
    | Except.ok SnowflakeType.ANY => Built.returned (some (Converter.StringConverter array)) none
    | Except.ok SnowflakeType.CHAR => Built.returned (some (Converter.StringConverter array)) none
    | Except.ok SnowflakeType.TEXT => Built.returned (some (Converter.StringConverter array)) none
    | Except.ok SnowflakeType.VARIANT =>
      Built.returned (some (Converter.StringConverter array)) none
    | Except.ok SnowflakeType.BOOLEAN =>
      Built.returned (some (Converter.BooleanConverter array)) none
    | Except.ok SnowflakeType.REAL =>
      if useNumpy then Built.returned (some (Converter.NumpyFloat64Converter array)) none
      else Built.returned (some (Converter.FloatConverter array)) none
    | Except.ok SnowflakeType.DATE =>
      if useNumpy then Built.returned (some (Converter.NumpyDateConverter array)) none
      else Built.returned (some (Converter.DateConverter array)) none
    | Except.ok SnowflakeType.BINARY =>
      Built.returned (some (Converter.BinaryConverter array)) none
    | Except.ok SnowflakeType.TIME => timeCase ⟨name, type, metadata, children⟩ array
    | Except.ok SnowflakeType.TIMESTAMP_NTZ =>
      timestampNTZCase ⟨name, type, metadata, children⟩ array useNumpy
    | Except.ok SnowflakeType.TIMESTAMP_LTZ =>
      timestampLTZCase ⟨name, type, metadata, children⟩ array
    | Except.ok SnowflakeType.TIMESTAMP_TZ =>
      timestampTZCase ⟨name, type, metadata, children⟩ array
    | Except.ok SnowflakeType.ARRAY =>
      if type = NANOARROW_TYPE_STRING then
        Built.returned (some (Converter.StringConverter array)) none
      else if type = NANOARROW_TYPE_LIST then
        ArrayConverter.ctor children array useNumpy
      else
        Built.returned none
          (some "[Snowflake Exception] unknown arrow internal data type(%d) for ARRAY data in %s")
    | Except.ok SnowflakeType.MAP => MapConverter.ctor children array useNumpy
    | Except.ok SnowflakeType.OBJECT =>
      if type = NANOARROW_TYPE_STRING then
        Built.returned (some (Converter.StringConverter array)) none
      else if type = NANOARROW_TYPE_STRUCT then
        (ObjectConverter.ctorLoop children array 0 useNumpy).andThenList
          (fun m_converters err =>
            Built.returned
              (some (Converter.ObjectConverter array (children.map (fun c => c.name))
                m_converters)) err)
      else
        Built.returned none
          (some "[Snowflake Exception] unknown arrow internal data type(%d) for OBJECT data in %s")
    | Except.ok SnowflakeType.VECTOR =>
      Built.returned (some (Converter.FixedSizeListConverter array)) none
    | Except.ok SnowflakeType.TIMESTAMP =>
      Built.returned none (some "[Snowflake Exception] unknown snowflake data type : %d")

/-- The constructor `ArrayConverter::ArrayConverter` (ArrayConverter.cpp,
lines 22-40), on the children of the schema. -/
def ArrayConverter.ctor (children : List ArrowSchema) (array : ArrowArrayView) (useNumpy : Bool) :
    Built :=
  match children with
  | [item_schema] =>
    withChild array 0 fun item_array =>
      (getConverterFromSchema item_schema item_array useNumpy).andThen fun m_item_converter err =>
        Built.returned (some (Converter.ArrayConverter array m_item_converter)) err
  | _ => Built.returned (some (Converter.ArrayConverter array none)) (some invalidArrayItems)

/-- The constructor `MapConverter::MapConverter` (MapConverter.cpp, lines
86-119), on the children of the schema. -/
def MapConverter.ctor (children : List ArrowSchema) (array : ArrowArrayView) (useNumpy : Bool) :
    Built :=
  match children with
  | [entries] => MapConverter.ctorEntries entries array useNumpy
  | _ => Built.returned (some (Converter.MapConverter array none none)) (some invalidMapEntries)

/-- The second half of the `MapConverter` constructor, on the schema child
`entries`. -/
def MapConverter.ctorEntries (entries : ArrowSchema) (array : ArrowArrayView) (useNumpy : Bool) :
    Built :=
  match entries with
  | ⟨_, _, _, [key_schema, value_schema]⟩ =>
    withChild array 0 fun entries_array =>
      withChild entries_array 0 fun key_array =>
        (getConverterFromSchema key_schema key_array useNumpy).andThen
          fun m_key_converter keyErr =>
            withChild entries_array 1 fun value_array =>
              (getConverterFromSchema value_schema value_array useNumpy).andThen
                fun m_value_converter valueErr =>
                  Built.returned
                    (some (Converter.MapConverter array m_key_converter m_value_converter))
                    (laterErr keyErr valueErr)
  | _ => Built.returned (some (Converter.MapConverter array none none)) (some invalidMapPair)

/-- The loop of the constructor `ObjectConverter::ObjectConverter`
(ObjectConverter.cpp, lines 17-35) from child index `i` on: one converter per
schema child, built on the array child of the same index. -/
def ObjectConverter.ctorLoop (schemas : List ArrowSchema) (array : ArrowArrayView) (i : Nat)
    (useNumpy : Bool) : BuiltList :=
  match schemas with
  | [] => BuiltList.returned [] none
  | property_schema :: rest =>
    BuiltList.ofBuilt
      (withChild array i fun child_array =>
        getConverterFromSchema property_schema child_array useNumpy)
      (ObjectConverter.ctorLoop rest array (i + 1) useNumpy)

end


/-! ### The Python side

Values the converters hand back to the interpreter.  The methods of the
Python `context` object (`TIMESTAMP_NTZ_to_python`, `DECIMAL128_to_decimal`,
...) are not part of the C++; a call to one of them is recorded with its
arguments. -/

/-- Python values built by the converters.  A `Float` carries the C `double`
it was made from; `Str` is a `str` given by its text, `Unicode` the `str` that
`PyUnicode_FromStringAndSize` decodes from the given UTF-8 bytes (a decoding
failure is not modelled); `ByteArray` is a `bytearray`.  A slot of a `List` or
a `Tuple` holds what was stored into it, `none` for the null pointer.  A `Dict`
is given by the insertions that built it, oldest first. -/
inductive PyObject where
  | None
  | Bool (b : Bool)
  | Long (v : Int)
  | Float (value : CDouble)
  | Str (s : String)
  | Unicode (utf8 : List Byte)
  | Bytes (bs : List Byte)
  | ByteArray (bs : List Byte)
  | Decimal (coefficient exponent : Int)
  | Date (year month day : Nat)
  | Time (hour minute second microsecond : Int)
  | ContextCall (method : String) (args : List PyObject)
  | List (items : List (Option PyObject))
  | Dict (items : List (PyObject × PyObject))
  | Tuple (items : List (Option PyObject))

/-- What `toPyObject` returns: an object (Python error indicator clear), an
object while the error indicator is set (a nested call failed and its result
was stored or dropped without a check), the null pointer (with a Python
exception set), or a read that the C++ leaves undefined. -/
inductive PyReturn where
  | object (o : PyObject)
  | objectWithError (o : PyObject)
  | null
  | undefined

/-- The exact rational value of a decimal: coefficient × 10^exponent. -/
def decimalValue (coefficient exponent : Int) : ℚ :=
  if 0 ≤ exponent then (coefficient : ℚ) * (10 : ℚ) ^ exponent.toNat
  else (coefficient : ℚ) / (10 : ℚ) ^ (-exponent).toNat

/-- Modelled from the spec: the host operation "shift the decimal point",
`decimal.Decimal.scaleb(other)` of the Python runtime, under the default context
(precision 28, Emax 999999, Emin -999999), applied to a finite decimal: an
operand outside ±2·(Emax + precision) signals InvalidOperation; otherwise the
exponent is increased by `other`, and the result is exact when the coefficient
has at most 28 digits (its absolute value is below 10^28) and the new exponent
stays within the context's range.
Outside that region the host rounds or signals, which is not modelled. -/
def decimalScaleb (coefficient exponent other : Int) : PyReturn :=
  if other < -2000054 ∨ other > 2000054 then PyReturn.null
  else if coefficient.natAbs < 10 ^ 28 ∧ -1000026 ≤ exponent + other ∧
      exponent + other + 28 ≤ 999999 then
    PyReturn.object (PyObject.Decimal coefficient (exponent + other))
  else PyReturn.undefined

/-! ### IntConverter.cpp -/

/-- The function `IntConverter::toPyObject`. -/
def IntConverter.toPyObject (m_array : ArrowArrayView) (rowIndex : Nat) : PyReturn :=
  if ArrowArrayViewIsNull m_array rowIndex then PyReturn.object PyObject.None
  else
    let val := ArrowArrayViewGetIntUnsafe m_array rowIndex
    PyReturn.object (PyObject.Long val)

/-! ### DecimalConverter.cpp -/

/-- The function `DecimalFromIntConverter::toPyObject`: `decimal.Decimal(val)`
is the decimal with coefficient `val` and exponent 0, on which
`scaleb(-m_scale)` is called. -/
def DecimalFromIntConverter.toPyObject (m_array : ArrowArrayView) (m_scale : Int)
    (rowIndex : Nat) : PyReturn :=
  if ArrowArrayViewIsNull m_array rowIndex then PyReturn.object PyObject.None
  else
    let val := ArrowArrayViewGetIntUnsafe m_array rowIndex
    decimalScaleb val 0 (wrapInt32 (-m_scale))

/-- The 16 bytes `&(ptr_start[bytes_start])` .. `+ 16` that
`PyBytes_FromStringAndSize` copies (lines 70-73); `none` when the buffer ends
before them. -/
def decimalBytesDirect (m_array : ArrowArrayView) (rowIndex : Nat) : Option (List Byte) :=
  let bytes_start := 16 * (m_array.offset + rowIndex)
  let int128_bytes := (m_array.bytes.drop bytes_start).take 16
  if int128_bytes.length = 16 then some int128_bytes else none

/-- The function `DecimalFromDecimalConverter::toPyObject`. -/
def DecimalFromDecimalConverter.toPyObject (m_array : ArrowArrayView) (m_scale : Int)
    (rowIndex : Nat) : PyReturn :=
  if ArrowArrayViewIsNull m_array rowIndex then PyReturn.object PyObject.None
  else
    match decimalBytesDirect m_array rowIndex with
    | some int128_bytes =>
      PyReturn.object
        (PyObject.ContextCall "DECIMAL128_to_decimal"
          [PyObject.Bytes int128_bytes, PyObject.Long m_scale])
    | none => PyReturn.undefined

/-- Little-endian value of a run of bytes (a `memcpy` into an unsigned word on
a little-endian machine). -/
def wordOfBytes : List Byte → Nat
  | [] => 0
  | b :: rest => b.val + 256 * wordOfBytes rest

/-- The `n` little-endian bytes of a word (a `memcpy` out of it). -/
def bytesOfWord : Nat → Nat → List Byte
  | 0, _ => []
  | n + 1, w => ⟨w % 256, Nat.mod_lt w (by decide)⟩ :: bytesOfWord n (w / 256)

/-- Modelled from the spec: `struct ArrowDecimal` of nanoarrow for a 128-bit
decimal: the value as two 64-bit words, low word first. -/
structure ArrowDecimal where
  words : List Nat
  precision : Int
  scale : Int

/-- Modelled from the spec: `ArrowArrayViewGetDecimalUnsafe` of nanoarrow, the
generic decimal extraction of the reference snippet (lines 80-85): the
decimal's 16-byte little-endian two's-complement representation lives at
stride `16 × (arrayOffset + rowIndex)` in the second buffer and is copied into
the two 64-bit words of the `ArrowDecimal`. -/
def ArrowArrayViewGetDecimalUnsafe (m_array : ArrowArrayView) (i : Nat) (out : ArrowDecimal) :
    Option ArrowDecimal :=
  let j := i + m_array.offset
  let src := (m_array.bytes.drop (j * 16)).take 16
  if src.length = 16 then
    some { out with words := [wordOfBytes (src.take 8), wordOfBytes (src.drop 8)] }
  else none

/-- Modelled from the spec: `ArrowDecimalGetBytes` of nanoarrow: the words
copied out as bytes. -/
def ArrowDecimalGetBytes (decimal : ArrowDecimal) : List Byte :=
  (decimal.words.map (bytesOfWord 8)).flatten

/-- The reference snippet of lines 80-85: the bytes the generic path would
pass to `PyBytes_FromStringAndSize`. -/
def decimalBytesGeneric (m_array : ArrowArrayView) (precision scale : Int) (rowIndex : Nat) :
    Option (List Byte) :=
  let arrowDecimal : ArrowDecimal := { words := [0, 0], precision := precision, scale := scale }
  (ArrowArrayViewGetDecimalUnsafe m_array rowIndex arrowDecimal).map ArrowDecimalGetBytes

/-! ### Util/time.cpp: time-of-day helpers and `TimeSpec` -/

namespace internal

/-- The function `getHourFromSeconds(int64_t seconds, int32_t scale)`; the
result is narrowed to `int32_t`. -/
def getHourFromSeconds (seconds scale : Int) : Option Int :=
  match powTenSB4 scale with
  | some p => some (wrapInt32 (Int.tdiv (Int.tdiv seconds p) SECONDS_PER_HOUR))
  | none => none

/-- The function `getMinuteFromSeconds(int64_t seconds, int32_t scale)`. -/
def getMinuteFromSeconds (seconds scale : Int) : Option Int :=
  match powTenSB4 scale with
  | some p =>
    some (wrapInt32 (Int.tdiv (Int.tmod (Int.tdiv seconds p) SECONDS_PER_HOUR) SECONDS_PER_MINUTE))
  | none => none

/-- The function `getSecondFromSeconds(int64_t seconds, int32_t scale)`. -/
def getSecondFromSeconds (seconds scale : Int) : Option Int :=
  match powTenSB4 scale with
  | some p => some (wrapInt32 (Int.tmod (Int.tdiv seconds p) SECONDS_PER_MINUTE))
  | none => none

/-- The function `getMicrosecondFromSeconds(int64_t seconds, int32_t scale)`:
`microsec` is an `int32_t`, and so are the compound assignments on it. -/
def getMicrosecondFromSeconds (seconds scale : Int) : Option Int :=
  match powTenSB4 scale with
  | some p =>
    let microsec := wrapInt32 (Int.tmod seconds p)
    if scale > PYTHON_DATETIME_TIME_MICROSEC_DIGIT then
      match powTenSB4 (scale - PYTHON_DATETIME_TIME_MICROSEC_DIGIT) with
      | some q => some (wrapInt32 (Int.tdiv microsec q))
      | none => none
    else
      match powTenSB4 (PYTHON_DATETIME_TIME_MICROSEC_DIGIT - scale) with
      | some q => some (wrapInt32 (microsec * q))
      | none => none
  | none => none

/-- The struct `TimeSpec`. -/
structure TimeSpec where
  seconds : Int
  microseconds : Int
deriving DecidableEq, Repr

/-- The constructor `TimeSpec::TimeSpec(int64_t units, int32_t scale)`;
`none` when it subscripts `powTenSB4` outside the table. -/
def TimeSpec.TimeSpec (units scale : Int) : Option TimeSpec :=
  if scale = 0 then
    some { seconds := units, microseconds := 0 }
  else if scale = 6 then
    some { seconds := 0, microseconds := units }
  else if scale > 6 then
    match powTenSB4 (scale - 6) with
    | some divider =>
      let units1 := if units < 0 then wrapInt64 (units - (divider - 1)) else units
      some { seconds := 0, microseconds := Int.tdiv units1 divider }
    | none => none
  else
    match powTenSB4 scale, powTenSB4 (6 - scale) with
    | some p, some q =>
      let seconds := Int.tdiv units p
      let fractions := wrapInt64 (Int.natAbs (Int.tmod units p))
      let microseconds := wrapInt64 (fractions * q)
      some { seconds := seconds,
             microseconds := if units < 0 then wrapInt64 (-microseconds) else microseconds }
    | _, _ => none

end internal

/-! ### TimeConverter.cpp -/

/-- Modelled from the spec: the host operation "construct time value",
`datetime.time(hour, minute, second, microsecond)` of the Python runtime: the
constructor raises `ValueError` unless every field is in its range. -/
def pyDatetimeTime (hour minute second microsecond : Int) : PyReturn :=
  if 0 ≤ hour ∧ hour < 24 ∧ 0 ≤ minute ∧ minute < 60 ∧ 0 ≤ second ∧ second < 60 ∧
      0 ≤ microsecond ∧ microsecond < 1000000 then
    PyReturn.object (PyObject.Time hour minute second microsecond)
  else PyReturn.null

/-- The function `TimeConverter::toPyObject`. -/
def TimeConverter.toPyObject (m_array : ArrowArrayView) (m_scale : Int) (rowIndex : Nat) :
    PyReturn :=
  if ArrowArrayViewIsNull m_array rowIndex then PyReturn.object PyObject.None
  else
    let seconds := ArrowArrayViewGetIntUnsafe m_array rowIndex
    match internal.getHourFromSeconds seconds m_scale,
        internal.getMinuteFromSeconds seconds m_scale,
        internal.getSecondFromSeconds seconds m_scale,
        internal.getMicrosecondFromSeconds seconds m_scale with
    | some h, some m, some sec, some us => pyDatetimeTime h m sec us
    | _, _, _, _ => PyReturn.undefined

/-! ### TimeStampConverter.cpp

The method names are those of the build without `_WIN32`. -/

/-- The function `OneFieldTimeStampNTZConverter::toPyObject`. -/
def OneFieldTimeStampNTZConverter.toPyObject (m_array : ArrowArrayView) (m_scale : Int)
    (rowIndex : Nat) : PyReturn :=
  if ArrowArrayViewIsNull m_array rowIndex then PyReturn.object PyObject.None
  else
    let val := ArrowArrayViewGetIntUnsafe m_array rowIndex
    match internal.TimeSpec.TimeSpec val m_scale with
    | some ts =>
      PyReturn.object
        (PyObject.ContextCall "TIMESTAMP_NTZ_to_python"
          [PyObject.Long ts.seconds, PyObject.Long ts.microseconds])
    | none => PyReturn.undefined

/-- The function `OneFieldTimeStampLTZConverter::toPyObject`. -/
def OneFieldTimeStampLTZConverter.toPyObject (m_array : ArrowArrayView) (m_scale : Int)
    (rowIndex : Nat) : PyReturn :=
  if ArrowArrayViewIsNull m_array rowIndex then PyReturn.object PyObject.None
  else
    let val := ArrowArrayViewGetIntUnsafe m_array rowIndex
    match internal.TimeSpec.TimeSpec val m_scale with
    | some ts =>
      PyReturn.object
        (PyObject.ContextCall "TIMESTAMP_LTZ_to_python"
          [PyObject.Long ts.seconds, PyObject.Long ts.microseconds])
    | none => PyReturn.undefined

/-- The function `TwoFieldTimeStampNTZConverter::toPyObject`. -/
def TwoFieldTimeStampNTZConverter.toPyObject (m_array : ArrowArrayView)
    (m_epoch m_fraction : Option ArrowArrayView) (rowIndex : Nat) : PyReturn :=
  if ArrowArrayViewIsNull m_array rowIndex then PyReturn.object PyObject.None
  else
    match m_epoch, m_fraction with
    | some epochArray, some fractionArray =>
      let seconds := ArrowArrayViewGetIntUnsafe epochArray rowIndex
      let microseconds := Int.tdiv (ArrowArrayViewGetIntUnsafe fractionArray rowIndex) 1000
      PyReturn.object
        (PyObject.ContextCall "TIMESTAMP_NTZ_to_python"
          [PyObject.Long seconds, PyObject.Long microseconds])
    | _, _ => PyReturn.undefined

/-- The function `TwoFieldTimeStampLTZConverter::toPyObject`. -/
def TwoFieldTimeStampLTZConverter.toPyObject (m_array : ArrowArrayView)
    (m_epoch m_fraction : Option ArrowArrayView) (rowIndex : Nat) : PyReturn :=
  if ArrowArrayViewIsNull m_array rowIndex then PyReturn.object PyObject.None
  else
    match m_epoch, m_fraction with
    | some epochArray, some fractionArray =>
      let seconds := ArrowArrayViewGetIntUnsafe epochArray rowIndex
      let microseconds := Int.tdiv (ArrowArrayViewGetIntUnsafe fractionArray rowIndex) 1000
      PyReturn.object
        (PyObject.ContextCall "TIMESTAMP_LTZ_to_python"
          [PyObject.Long seconds, PyObject.Long microseconds])
    | _, _ => PyReturn.undefined

/-- The function `TwoFieldTimeStampTZConverter::toPyObject`. -/
def TwoFieldTimeStampTZConverter.toPyObject (m_array : ArrowArrayView) (m_scale : Int)
    (m_epoch m_timezone : Option ArrowArrayView) (rowIndex : Nat) : PyReturn :=
  if ArrowArrayViewIsNull m_array rowIndex then PyReturn.object PyObject.None
  else
    match m_epoch, m_timezone with
    | some epochArray, some timezoneArray =>
      let timezone := wrapInt32 (ArrowArrayViewGetIntUnsafe timezoneArray rowIndex)
      match internal.TimeSpec.TimeSpec (ArrowArrayViewGetIntUnsafe epochArray rowIndex) m_scale with
      | some ts =>
        PyReturn.object
          (PyObject.ContextCall "TIMESTAMP_TZ_to_python"
            [PyObject.Long ts.seconds, PyObject.Long ts.microseconds, PyObject.Long timezone])
      | none => PyReturn.undefined
    | _, _ => PyReturn.undefined

/-- The function `ThreeFieldTimeStampTZConverter::toPyObject`; `timezone` is
an `int32_t`. -/
def ThreeFieldTimeStampTZConverter.toPyObject (m_array : ArrowArrayView)
    (m_epoch m_timezone m_fraction : Option ArrowArrayView) (rowIndex : Nat) : PyReturn :=
  if ArrowArrayViewIsNull m_array rowIndex then PyReturn.object PyObject.None
  else
    match m_epoch, m_timezone, m_fraction with
    | some epochArray, some timezoneArray, some fractionArray =>
      let timezone := wrapInt32 (ArrowArrayViewGetIntUnsafe timezoneArray rowIndex)
      let seconds := ArrowArrayViewGetIntUnsafe epochArray rowIndex
      let microseconds := Int.tdiv (ArrowArrayViewGetIntUnsafe fractionArray rowIndex) 1000
      PyReturn.object
        (PyObject.ContextCall "TIMESTAMP_TZ_to_python"
          [PyObject.Long seconds, PyObject.Long microseconds, PyObject.Long timezone])
    | _, _, _ => PyReturn.undefined

/-- Row `rowIdx` of a struct-encoded timestamp column is a non-null row whose
`epoch` lies outside `[INT64_MIN div 10^9, INT64_MAX div 10^9]` (division
truncating toward zero, as in the C++). -/
def EpochOutOfRange (columnArray epochArray : ArrowArrayView) (rowIdx : Nat) : Prop :=
  rowIdx < columnArray.length ∧ ArrowArrayViewIsNull columnArray rowIdx = false ∧
    (ArrowArrayViewGetIntUnsafe epochArray rowIdx > Int.tdiv INT64_MAX (10 ^ 9) ∨
      ArrowArrayViewGetIntUnsafe epochArray rowIdx < Int.tdiv INT64_MIN (10 ^ 9))

/-! ### DateConverter.cpp and the host calendar -/

/-- Modelled from the spec: the host calendar (proleptic Gregorian, as in the
Python runtime's datetime): days per month of a common year, index 0 unused. -/
def DAYS_IN_MONTH : List Nat := [0, 31, 28, 31, 30, 31, 30, 31, 31, 30, 31, 30, 31]

/-- Modelled from the spec: the host calendar: days of a common year before
the first of each month, index 0 unused. -/
def DAYS_BEFORE_MONTH : List Nat := [0, 0, 31, 59, 90, 120, 151, 181, 212, 243, 273, 304, 334]

/-- Modelled from the spec: the host calendar: `year` is a leap year. -/
def is_leap (year : Nat) : Bool := year % 4 = 0 && (year % 100 ≠ 0 || year % 400 = 0)

/-- Modelled from the spec: the host calendar: number of days before January
1st of `year`. -/
def days_before_year (year : Nat) : Nat :=
  let y := year - 1
  y * 365 + y / 4 - y / 100 + y / 400

/-- Modelled from the spec: the host calendar: number of days in `month` of
`year`. -/
def days_in_month (year month : Nat) : Nat :=
  if month = 2 ∧ is_leap year then 29 else DAYS_IN_MONTH.getD month 0

/-- Modelled from the spec: the host calendar: number of days in `year`
before the first of `month`. -/
def days_before_month (year month : Nat) : Nat :=
  DAYS_BEFORE_MONTH.getD month 0 + (if month > 2 ∧ is_leap year then 1 else 0)

/-- Modelled from the spec: the host calendar, `date.toordinal`: the
proleptic-Gregorian ordinal of a date, day 1 being 0001-01-01. -/
def ymd2ord (year month day : Nat) : Nat :=
  days_before_year year + days_before_month year month + day

/-- A calendar date of the years 1 to 9999. -/
def ValidDate (year month day : Nat) : Prop :=
  1 ≤ year ∧ year ≤ 9999 ∧ 1 ≤ month ∧ month ≤ 12 ∧ 1 ≤ day ∧ day ≤ days_in_month year month

/-- Modelled from the spec: the host calendar, "date from ordinal day number":
the algorithm of `date.fromordinal` in the Python runtime (`_ord2ymd`), giving
the (year, month, day) of ordinal `n`, `n ≥ 1`. -/
def ord2ymd (n : Nat) : Nat × Nat × Nat :=
  let n0 := n - 1
  let n400 := n0 / 146097
  let r400 := n0 % 146097
  let n100 := r400 / 36524
  let r100 := r400 % 36524
  let n4 := r100 / 1461
  let r4 := r100 % 1461
  let n1 := r4 / 365
  let r1 := r4 % 365
  let year := n400 * 400 + 1 + n100 * 100 + n4 * 4 + n1
  if n1 = 4 ∨ n100 = 4 then (year - 1, 12, 31)
  else
    let leapyear : Bool := n1 = 3 && (n4 ≠ 24 || n100 = 3)
    let month := (r1 + 50) / 32
    let preceding := DAYS_BEFORE_MONTH.getD month 0 + (if month > 2 ∧ leapyear then 1 else 0)
    if preceding > r1 then
      let month1 := month - 1
      let preceding1 :=
        preceding - (DAYS_IN_MONTH.getD month1 0 + (if month1 = 2 ∧ leapyear then 1 else 0))
      (year, month1, r1 - preceding1 + 1)
    else (year, month, r1 - preceding + 1)

/-- Modelled from the spec: the largest ordinal of the host calendar, that of
9999-12-31. -/
def MAX_ORDINAL : Int := 3652059

/-- Modelled from the spec: the host operation `datetime.date.fromordinal(n)`:
`ValueError` unless `1 ≤ n ≤ 3652059`. -/
def pyDateFromOrdinal (n : Int) : PyReturn :=
  if 1 ≤ n ∧ n ≤ MAX_ORDINAL then
    let ymd := ord2ymd n.toNat
    PyReturn.object (PyObject.Date ymd.1 ymd.2.1 ymd.2.2)
  else PyReturn.null

/-- The constant `DateConverter::epochDay`. -/
def DateConverter.epochDay : Int := 719163

/-- The function `DateConverter::toPyObject`.  The sum is an `int64_t` passed
under the format "i", which reads an `int`. -/
def DateConverter.toPyObject (m_array : ArrowArrayView) (rowIndex : Nat) : PyReturn :=
  if ArrowArrayViewIsNull m_array rowIndex then PyReturn.object PyObject.None
  else
    let deltaDays := ArrowArrayViewGetIntUnsafe m_array rowIndex
    pyDateFromOrdinal (wrapInt32 (wrapInt64 (DateConverter.epochDay + deltaDays)))

/-! ### Sample columns -/

/-- A column of integers of storage type `t`, without offset; `validity` as in
`ArrowArrayView`. -/
def intColumn (t : ArrowType) (validity : Option (List Bool)) (xs : List Int) : ArrowArrayView :=
  { storage_type := t, length := xs.length, offset := 0, validity := validity, data := xs,
    bytes := [], children := [] }

/-- The schema of a struct-encoded timestamp column with children "epoch" and
"fraction". -/
def sampleTimestampField : ArrowSchema :=
  { name := "ts", type := NANOARROW_TYPE_STRUCT, metadata := some [("logicalType", "TIMESTAMP_NTZ"), ("scale", "9")],
    children := [
      { name := "epoch", type := NANOARROW_TYPE_INT64, metadata := none, children := [] },
      { name := "fraction", type := NANOARROW_TYPE_INT32, metadata := none, children := [] }] }

/-- A struct-encoded timestamp column with the given epochs and fractions. -/
def sampleTimestampColumn (validity : Option (List Bool)) (epochs fractions : List Int) :
    ArrowArrayView :=
  { storage_type := NANOARROW_TYPE_STRUCT, length := epochs.length, offset := 0,
    validity := validity, data := [], bytes := [],
    children := [intColumn NANOARROW_TYPE_INT64 none epochs,
                 intColumn NANOARROW_TYPE_INT32 none fractions] }

/-- Boolean form of the test of line 644-645 on one row. -/
def rowOutOfRange (columnArray epochArray : ArrowArrayView) (powTenSB4 : Int) (rowIdx : Nat) : Bool :=
  !ArrowArrayViewIsNull columnArray rowIdx &&
    (decide (ArrowArrayViewGetIntUnsafe epochArray rowIdx > Int.tdiv INT64_MAX powTenSB4) ||
      decide (ArrowArrayViewGetIntUnsafe epochArray rowIdx < Int.tdiv INT64_MIN powTenSB4))

/-- Boolean form of the fatal test of line 646 on one row. -/
def rowFatal (columnArray epochArray fractionArray : ArrowArrayView) (powTenSB4 : Int)
    (rowIdx : Nat) : Bool :=
  rowOutOfRange columnArray epochArray powTenSB4 rowIdx &&
    (Int.tmod (ArrowArrayViewGetIntUnsafe fractionArray rowIdx) 1000 != 0)

/-- The reference implementation that the comment of lines 74-86 describes:
`DecimalFromDecimalConverter::toPyObject` with the direct byte read replaced by
the generic decimal extraction. -/
def DecimalFromDecimalConverter.toPyObjectReference (m_array : ArrowArrayView)
    (precision m_scale : Int) (rowIndex : Nat) : PyReturn :=
  if ArrowArrayViewIsNull m_array rowIndex then PyReturn.object PyObject.None
  else
    match decimalBytesGeneric m_array precision m_scale rowIndex with
    | some int128_bytes =>
      PyReturn.object
        (PyObject.ContextCall "DECIMAL128_to_decimal"
          [PyObject.Bytes int128_bytes, PyObject.Long m_scale])
    | none => PyReturn.undefined

/-! ### Case variants of the tag names -/

namespace SnowflakeType

/-- Lower-case counterpart of `toupper`: A-Z are mapped to a-z. -/
def tolower (c : Char) : Char :=
  if 65 ≤ c.toNat ∧ c.toNat ≤ 90 then Char.ofNat (c.toNat + 32) else c

/-- `str` is `name` written in some mix of upper and lower case: same length,
and every character is the one of `name` or its lower-case form. -/
def CaseVariant (str name : String) : Prop :=
  List.Forall₂ (fun c d => c = d ∨ c = tolower d) str.data name.data

/-- The 18 tags of the enumeration with their own names. -/
def tagNames : List (String × SnowflakeType) :=
  [("ANY", ANY), ("ARRAY", ARRAY), ("BINARY", BINARY), ("BOOLEAN", BOOLEAN), ("CHAR", CHAR),
   ("DATE", DATE), ("FIXED", FIXED), ("OBJECT", OBJECT), ("REAL", REAL), ("TEXT", TEXT),
   ("TIME", TIME), ("TIMESTAMP", TIMESTAMP), ("TIMESTAMP_LTZ", TIMESTAMP_LTZ),
   ("TIMESTAMP_NTZ", TIMESTAMP_NTZ), ("TIMESTAMP_TZ", TIMESTAMP_TZ), ("VARIANT", VARIANT),
   ("VECTOR", VECTOR), ("MAP", MAP)]

/-- The characters the registered tag names are written with. -/
def nameChars : List Char := "ABCDEFGHIJKLMNOPQRSTUVWXYZ_".data

end SnowflakeType

/-! ### Sample FIXED columns -/

/-- The schema of a column with the given physical type and the metadata
entries `logicalType`, `precision` and `scale`. -/
def sampleSchema (type : ArrowType) (logicalType precision scale : String) : ArrowSchema :=
  { name := "c", type := type,
    metadata := some [("logicalType", logicalType), ("precision", precision), ("scale", scale)],
    children := [] }

/-- A decimal128 column of one row made of the given 16 bytes. -/
def sampleDecimalColumn (bs : List Byte) : ArrowArrayView :=
  { storage_type := NANOARROW_TYPE_DECIMAL128, length := 1, offset := 0, validity := none,
    data := [], bytes := bs, children := [] }

/-! ### Calendar helpers -/

/-- The tail of `ord2ymd`: month and day from the zero-based day of the year. -/
def monthDayOfYearDay (leapyear : Bool) (r1 : Nat) : Nat × Nat :=
  let month := (r1 + 50) / 32
  let preceding := DAYS_BEFORE_MONTH.getD month 0 + (if month > 2 ∧ leapyear then 1 else 0)
  if preceding > r1 then
    let month1 := month - 1
    let preceding1 :=
      preceding - (DAYS_IN_MONTH.getD month1 0 + (if month1 = 2 ∧ leapyear then 1 else 0))
    (month1, r1 - preceding1 + 1)
  else (month, r1 - preceding + 1)

/-- Days before the first of `month` in a year that is leap or not. -/
def daysBeforeMonthOf (leap : Bool) (month : Nat) : Nat :=
  DAYS_BEFORE_MONTH.getD month 0 + (if month > 2 ∧ leap then 1 else 0)

/-- Days in `month` of a year that is leap or not. -/
def daysInMonthOf (leap : Bool) (month : Nat) : Nat :=
  if month = 2 ∧ leap then 29 else DAYS_IN_MONTH.getD month 0

/-! ### Dispatch on the logical type -/

/-- Lines 110-117 of `getConverterFromSchema`: the tag that the metadata entry
`logicalType` resolves to. -/
def logicalTypeOf (schema : ArrowSchema) : Except CppException SnowflakeType :=
  SnowflakeType.snowflakeTypeFromString
    (stringOfView (ArrowMetadataGetValue schema.metadata "logicalType"))

/-- A schema of physical type `type` with the given metadata entries and
children without metadata named `names` (all of type int64). -/
def sampleNestedSchema (type : ArrowType) (metadata : List (String × String))
    (names : List String) : ArrowSchema :=
  { name := "c", type := type, metadata := some metadata,
    children := names.map fun n =>
      { name := n, type := NANOARROW_TYPE_INT64, metadata := none, children := [] } }

/-- A struct column of `length` rows over the given children. -/
def sampleStructColumn (length : Nat) (children : List ArrowArrayView) : ArrowArrayView :=
  { storage_type := NANOARROW_TYPE_STRUCT, length := length, offset := 0, validity := none,
    data := [], bytes := [], children := children }

/-- CArrowTableIterator.cpp, lines 43-55: the `scale` that `convertIfNeeded`
reads for a FIXED column. -/
def convertIfNeeded_fixedScale (metadata : Option (List (String × String))) :
    Except CppException Int :=
  match metadata with
  | none => Except.ok 0
  | some _ => stoiMetadata metadata "scale"

/-! ### StringConverter.cpp, BinaryConverter.cpp, BooleanConverter.cpp, FloatConverter.cpp -/

/-- The function `StringConverter::toPyObject`; offsets that do not delimit a
span are outside the model. -/
def StringConverter.toPyObject (m_array : ArrowArrayView) (rowIndex : Nat) : PyReturn :=
  if ArrowArrayViewIsNull m_array rowIndex then PyReturn.object PyObject.None
  else
    match ArrowArrayViewGetStringUnsafe m_array rowIndex with
    | some stringView => PyReturn.object (PyObject.Unicode stringView)
    | none => PyReturn.undefined

/-- The function `BinaryConverter::toPyObject`. -/
def BinaryConverter.toPyObject (m_array : ArrowArrayView) (rowIndex : Nat) : PyReturn :=
  if ArrowArrayViewIsNull m_array rowIndex then PyReturn.object PyObject.None
  else
    match ArrowArrayViewGetStringUnsafe m_array rowIndex with
    | some stringView => PyReturn.object (PyObject.ByteArray stringView)
    | none => PyReturn.undefined

/-- The function `BooleanConverter::toPyObject`. -/
def BooleanConverter.toPyObject (m_array : ArrowArrayView) (rowIndex : Nat) : PyReturn :=
  if ArrowArrayViewIsNull m_array rowIndex then PyReturn.object PyObject.None
  else if ArrowArrayViewGetIntUnsafe m_array rowIndex ≠ 0 then
    PyReturn.object (PyObject.Bool true)
  else PyReturn.object (PyObject.Bool false)

/-- The function `FloatConverter::toPyObject`. -/
def FloatConverter.toPyObject (m_array : ArrowArrayView) (rowIndex : Nat) : PyReturn :=
  if ArrowArrayViewIsNull m_array rowIndex then PyReturn.object PyObject.None
  else PyReturn.object (PyObject.Float (ArrowArrayViewGetDoubleUnsafe m_array rowIndex))

/-- The function `NumpyFloat64Converter::toPyObject`. -/
def NumpyFloat64Converter.toPyObject (m_array : ArrowArrayView) (rowIndex : Nat) : PyReturn :=
  if ArrowArrayViewIsNull m_array rowIndex then PyReturn.object PyObject.None
  else
    let val := ArrowArrayViewGetDoubleUnsafe m_array rowIndex
    PyReturn.object (PyObject.ContextCall "REAL_to_numpy_float64" [PyObject.Float val])

/-! ### The numpy variants of the integer, decimal, date and timestamp converters -/

/-- The function `NumpyIntConverter::toPyObject` (IntConverter.cpp). -/
def NumpyIntConverter.toPyObject (m_array : ArrowArrayView) (rowIndex : Nat) : PyReturn :=
  if ArrowArrayViewIsNull m_array rowIndex then PyReturn.object PyObject.None
  else
    let val := ArrowArrayViewGetIntUnsafe m_array rowIndex
    PyReturn.object (PyObject.ContextCall "FIXED_to_numpy_int64" [PyObject.Long val])

/-- The function `NumpyDecimalConverter::toPyObject` (DecimalConverter.cpp). -/
def NumpyDecimalConverter.toPyObject (m_array : ArrowArrayView) (m_scale : Int)
    (rowIndex : Nat) : PyReturn :=
  if ArrowArrayViewIsNull m_array rowIndex then PyReturn.object PyObject.None
  else
    let val := ArrowArrayViewGetIntUnsafe m_array rowIndex
    PyReturn.object
      (PyObject.ContextCall "FIXED_to_numpy_float64" [PyObject.Long val, PyObject.Long m_scale])

/-- The function `NumpyDateConverter::toPyObject` (DateConverter.cpp); the
format "i" takes the argument as a C `int`. -/
def NumpyDateConverter.toPyObject (m_array : ArrowArrayView) (rowIndex : Nat) : PyReturn :=
  if ArrowArrayViewIsNull m_array rowIndex then PyReturn.object PyObject.None
  else
    let deltaDays := ArrowArrayViewGetIntUnsafe m_array rowIndex
    PyReturn.object
      (PyObject.ContextCall "DATE_to_numpy_datetime64" [PyObject.Long (wrapInt32 deltaDays)])

/-- The function `NumpyOneFieldTimeStampNTZConverter::toPyObject`. -/
def NumpyOneFieldTimeStampNTZConverter.toPyObject (m_array : ArrowArrayView) (m_scale : Int)
    (rowIndex : Nat) : PyReturn :=
  if ArrowArrayViewIsNull m_array rowIndex then PyReturn.object PyObject.None
  else
    let val := ArrowArrayViewGetIntUnsafe m_array rowIndex
    PyReturn.object
      (PyObject.ContextCall "TIMESTAMP_NTZ_ONE_FIELD_to_numpy_datetime64"
        [PyObject.Long val, PyObject.Long m_scale])

/-- The function `NumpyTwoFieldTimeStampNTZConverter::toPyObject`; `frac` is an
`int32_t`. -/
def NumpyTwoFieldTimeStampNTZConverter.toPyObject (m_array : ArrowArrayView)
    (m_epoch m_fraction : Option ArrowArrayView) (rowIndex : Nat) : PyReturn :=
  if ArrowArrayViewIsNull m_array rowIndex then PyReturn.object PyObject.None
  else
    match m_epoch, m_fraction with
    | some epochArray, some fractionArray =>
      let epoch := ArrowArrayViewGetIntUnsafe epochArray rowIndex
      let frac := wrapInt32 (ArrowArrayViewGetIntUnsafe fractionArray rowIndex)
      PyReturn.object
        (PyObject.ContextCall "TIMESTAMP_NTZ_TWO_FIELD_to_numpy_datetime64"
          [PyObject.Long epoch, PyObject.Long frac])
    | _, _ => PyReturn.undefined

/-! ### ArrayConverter.cpp, MapConverter.cpp, ObjectConverter.cpp, FixedSizeListConverter.cpp

The call `m_item_converter->toPyObject(i)` through the base class is a
parameter of the class-level functions (`item`, `key`, `value`, `values`);
`Converter.toPyObject` below ties the knot. -/

mutual

/-- Modelled from the spec: whether the host accepts the value as a key of its
associative container (`PyDict_SetItem` hashes the key): lists, dictionaries
and byte arrays are unhashable, a tuple is hashable when its items are; what a
`context` method returns (dates, times, numpy scalars, decimals) is hashable. -/
def pyHashable : PyObject → Bool
  | PyObject.ByteArray _ => false
  | PyObject.List _ => false
  | PyObject.Dict _ => false
  | PyObject.Tuple items => pyHashableSlots items
  | _ => true

/-- All the items of a tuple are hashable. -/
def pyHashableSlots : List (Option PyObject) → Bool
  | [] => true
  | none :: rest => pyHashableSlots rest
  | some o :: rest => pyHashable o && pyHashableSlots rest

end

/-- The results of the nested `toPyObject` calls of one loop, stored without
a check into the slots of a container (`PyList_SetItem`, `PyTuple_SET_ITEM`):
the slots (a null result leaves the null pointer in its slot) and whether the
Python error indicator is set afterwards; `none` when a nested call is
undefined. -/
def collectSlots : List PyReturn → Option (List (Option PyObject) × Bool)
  | [] => some ([], false)
  | r :: rest =>
    match collectSlots rest with
    | none => none
    | some (slots, err) =>
      match r with
      | PyReturn.object o => some (some o :: slots, err)
      | PyReturn.objectWithError o => some (some o :: slots, true)
      | PyReturn.null => some (none :: slots, true)
      | PyReturn.undefined => none

/-- A container returned by a loop over nested calls. -/
def returnContainer (o : PyObject) (err : Bool) : PyReturn :=
  if err then PyReturn.objectWithError o else PyReturn.object o

/-- Lines 53-57 of ArrayConverter.cpp (lines 65-69 of MapConverter.cpp):
`start` is the int32 offset at `rowIndex` (the array offset is not added) and
`end` the offset at `rowIndex + 1` when `rowIndex + 1 < m_array->length`,
otherwise the length of the first child narrowed to `int`.  `none` when the
offset is read beyond the offsets buffer or the view has no child. -/
def sliceBounds (m_array : ArrowArrayView) (rowIndex : Nat) : Option (Int × Int) :=
  match m_array.data.get? rowIndex, m_array.children.get? 0 with
  | some start, some child0 =>
    if rowIndex + 1 < m_array.length then
      match m_array.data.get? (rowIndex + 1) with
      | some stop => some (start, stop)
      | none => none
    else some (start, wrapInt32 child0.length)
  | _, _ => none

/-- The indices `start, start + 1, ..., end - 1` visited by
`for (int i = start; i < end; i++)`. -/
def sliceIndices (start stop : Int) : List Nat :=
  (List.range (stop - start).toNat).map fun k => start.toNat + k

/-- The function `ArrayConverter::toPyObject`.  `PyList_New` of a negative
size returns the null pointer, which is then returned; a loop that runs from a
negative index is undefined. -/
def ArrayConverter.toPyObject (m_array : ArrowArrayView) (item : Nat → PyReturn)
    (rowIndex : Nat) : PyReturn :=
  if ArrowArrayViewIsNull m_array rowIndex then PyReturn.object PyObject.None
  else
    match sliceBounds m_array rowIndex with
    | none => PyReturn.undefined
    | some (start, stop) =>
      if stop - start < 0 then PyReturn.null
      else if start < 0 ∧ start < stop then PyReturn.undefined
      else
        match collectSlots ((sliceIndices start stop).map item) with
        | none => PyReturn.undefined
        | some (slots, err) => returnContainer (PyObject.List slots) err

/-- The call `PyDict_SetItem(dict, key, value)` whose return code is ignored:
a null key or value is undefined; an unhashable key leaves the dictionary as
it was and sets the error indicator. -/
def insertPairs : List (PyReturn × PyReturn) → Option (List (PyObject × PyObject) × Bool)
  | [] => some ([], false)
  | (k, v) :: rest =>
    match insertPairs rest with
    | none => none
    | some (items, err) =>
      match collectSlots [k, v] with
      | some ([some key, some value], callErr) =>
        if pyHashable key then some ((key, value) :: items, err || callErr)
        else some (items, true)
      | _ => none

/-- The function `MapConverter::toPyObject`. -/
def MapConverter.toPyObject (m_array : ArrowArrayView) (key value : Nat → PyReturn)
    (rowIndex : Nat) : PyReturn :=
  if ArrowArrayViewIsNull m_array rowIndex then PyReturn.object PyObject.None
  else
    match sliceBounds m_array rowIndex with
    | none => PyReturn.undefined
    | some (start, stop) =>
      if start < 0 ∧ start < stop then PyReturn.undefined
      else
        match insertPairs ((sliceIndices start stop).map fun i => (key i, value i)) with
        | none => PyReturn.undefined
        | some (items, err) => returnContainer (PyObject.Dict items) err

/-- The loop of `ObjectConverter::toPyObject`: `PyDict_SetItemString` of each
property name with the value of the converter of the same index; a missing
converter or a null value is undefined. -/
def insertProperties : List String → List PyReturn → Option (List (PyObject × PyObject) × Bool)
  | [], _ => some ([], false)
  | _ :: _, [] => none
  | name :: names, v :: values =>
    match insertProperties names values with
    | none => none
    | some (items, err) =>
      match v with
      | PyReturn.object value => some ((PyObject.Str name, value) :: items, err)
      | PyReturn.objectWithError value => some ((PyObject.Str name, value) :: items, true)
      | _ => none

/-- The function `ObjectConverter::toPyObject`; `values` are the results of
`m_converters[i]->toPyObject(rowIndex)`, `m_propertyCount` is the number of
names. -/
def ObjectConverter.toPyObject (m_array : ArrowArrayView) (m_property_names : List String)
    (values : List PyReturn) (rowIndex : Nat) : PyReturn :=
  if ArrowArrayViewIsNull m_array rowIndex then PyReturn.object PyObject.None
  else
    match insertProperties m_property_names values with
    | none => PyReturn.undefined
    | some (items, err) => returnContainer (PyObject.Dict items) err

/-- The body of the loop of `FixedSizeListConverter::toPyObject` at buffer
index `i`: the item stored, or `none` in the `default:` branch. -/
def FixedSizeListConverter.element (elements : ArrowArrayView) (i : Nat) : Option PyObject :=
  match elements.storage_type with
  | NANOARROW_TYPE_INT8 => some (PyObject.Long (ArrowArrayViewGetIntUnsafe elements i))
  | NANOARROW_TYPE_INT16 => some (PyObject.Long (ArrowArrayViewGetIntUnsafe elements i))
  | NANOARROW_TYPE_INT32 => some (PyObject.Long (ArrowArrayViewGetIntUnsafe elements i))
  | NANOARROW_TYPE_INT64 => some (PyObject.Long (ArrowArrayViewGetIntUnsafe elements i))
  | NANOARROW_TYPE_HALF_FLOAT => some (PyObject.Float (ArrowArrayViewGetDoubleUnsafe elements i))
  | NANOARROW_TYPE_FLOAT => some (PyObject.Float (ArrowArrayViewGetDoubleUnsafe elements i))
  | NANOARROW_TYPE_DOUBLE => some (PyObject.Float (ArrowArrayViewGetDoubleUnsafe elements i))
  | _ => none

/-- The loop of `FixedSizeListConverter::toPyObject` over the buffer indices
still to visit: the items stored, or `none` when the `default:` branch returns
the null pointer. -/
def FixedSizeListConverter.loop (elements : ArrowArrayView) : List Nat →
    Option (List (Option PyObject))
  | [] => some []
  | i :: rest =>
    match FixedSizeListConverter.element elements i with
    | none => none
    | some o =>
      match FixedSizeListConverter.loop elements rest with
      | none => none
      | some slots => some (some o :: slots)

/-- The function `FixedSizeListConverter::toPyObject`.  The division
`elements->length / m_array->length` by zero is undefined. -/
def FixedSizeListConverter.toPyObject (m_array : ArrowArrayView) (rowIndex : Nat) : PyReturn :=
  if ArrowArrayViewIsNull m_array rowIndex then PyReturn.object PyObject.None
  else
    match m_array.children with
    | [elements] =>
      if m_array.length = 0 then PyReturn.undefined
      else
        let fixedSizeArrayLength := elements.length / m_array.length
        let startIndexWithoutOffset := rowIndex * fixedSizeArrayLength
        match FixedSizeListConverter.loop elements
            ((List.range fixedSizeArrayLength).map fun i => startIndexWithoutOffset + i) with
        | some slots => PyReturn.object (PyObject.List slots)
        | none => PyReturn.null
    | _ => PyReturn.null

/-! ### IColumnConverter.hpp: the virtual call `toPyObject` -/

mutual

/-- The virtual function `IColumnConverter::toPyObject`, dispatched on the
class of the converter. -/
def Converter.toPyObject : Converter → Nat → PyReturn
  | Converter.IntConverter m_array, rowIndex => IntConverter.toPyObject m_array rowIndex
  | Converter.NumpyIntConverter m_array, rowIndex => NumpyIntConverter.toPyObject m_array rowIndex
  | Converter.DecimalFromIntConverter m_array _ m_scale, rowIndex =>
    DecimalFromIntConverter.toPyObject m_array m_scale rowIndex
  | Converter.NumpyDecimalConverter m_array _ m_scale, rowIndex =>
    NumpyDecimalConverter.toPyObject m_array m_scale rowIndex
  | Converter.DecimalFromDecimalConverter m_array m_scale, rowIndex =>
    DecimalFromDecimalConverter.toPyObject m_array m_scale rowIndex
  | Converter.StringConverter m_array, rowIndex => StringConverter.toPyObject m_array rowIndex
  | Converter.BooleanConverter m_array, rowIndex => BooleanConverter.toPyObject m_array rowIndex
  | Converter.FloatConverter m_array, rowIndex => FloatConverter.toPyObject m_array rowIndex
  | Converter.NumpyFloat64Converter m_array, rowIndex =>
    NumpyFloat64Converter.toPyObject m_array rowIndex
  | Converter.DateConverter m_array, rowIndex => DateConverter.toPyObject m_array rowIndex
  | Converter.NumpyDateConverter m_array, rowIndex => NumpyDateConverter.toPyObject m_array rowIndex
  | Converter.BinaryConverter m_array, rowIndex => BinaryConverter.toPyObject m_array rowIndex
  | Converter.TimeConverter m_array m_scale, rowIndex =>
    TimeConverter.toPyObject m_array m_scale rowIndex
  | Converter.OneFieldTimeStampNTZConverter m_array m_scale, rowIndex =>
    OneFieldTimeStampNTZConverter.toPyObject m_array m_scale rowIndex
  | Converter.NumpyOneFieldTimeStampNTZConverter m_array m_scale, rowIndex =>
    NumpyOneFieldTimeStampNTZConverter.toPyObject m_array m_scale rowIndex
  | Converter.TwoFieldTimeStampNTZConverter m_array _ m_epoch m_fraction, rowIndex =>
    TwoFieldTimeStampNTZConverter.toPyObject m_array m_epoch m_fraction rowIndex
  | Converter.NumpyTwoFieldTimeStampNTZConverter m_array _ m_epoch m_fraction, rowIndex =>
    NumpyTwoFieldTimeStampNTZConverter.toPyObject m_array m_epoch m_fraction rowIndex
  | Converter.OneFieldTimeStampLTZConverter m_array m_scale, rowIndex =>
    OneFieldTimeStampLTZConverter.toPyObject m_array m_scale rowIndex
  | Converter.TwoFieldTimeStampLTZConverter m_array _ m_epoch m_fraction, rowIndex =>
    TwoFieldTimeStampLTZConverter.toPyObject m_array m_epoch m_fraction rowIndex
  | Converter.TwoFieldTimeStampTZConverter m_array m_scale m_epoch m_timezone, rowIndex =>
    TwoFieldTimeStampTZConverter.toPyObject m_array m_scale m_epoch m_timezone rowIndex
  | Converter.ThreeFieldTimeStampTZConverter m_array _ m_epoch m_timezone m_fraction, rowIndex =>
    ThreeFieldTimeStampTZConverter.toPyObject m_array m_epoch m_timezone m_fraction rowIndex
  | Converter.ArrayConverter m_array m_item_converter, rowIndex =>
    ArrayConverter.toPyObject m_array (fun i => Converter.callToPyObject m_item_converter i)
      rowIndex
  | Converter.MapConverter m_array m_key_converter m_value_converter, rowIndex =>
    MapConverter.toPyObject m_array (fun i => Converter.callToPyObject m_key_converter i)
      (fun i => Converter.callToPyObject m_value_converter i) rowIndex
  | Converter.ObjectConverter m_array m_property_names m_converters, rowIndex =>
    ObjectConverter.toPyObject m_array m_property_names
      (Converter.callAll m_converters rowIndex) rowIndex
  | Converter.FixedSizeListConverter m_array, rowIndex =>
    FixedSizeListConverter.toPyObject m_array rowIndex

/-- The call `converter->toPyObject(i)` through a `shared_ptr`: undefined on
the null pointer. -/
def Converter.callToPyObject : Option Converter → Nat → PyReturn
  | none, _ => PyReturn.undefined
  | some converter, i => Converter.toPyObject converter i

/-- The calls `m_converters[i]->toPyObject(rowIndex)` for every `i`. -/
def Converter.callAll : List (Option Converter) → Nat → List PyReturn
  | [], _ => []
  | converter :: rest, rowIndex =>
    Converter.callToPyObject converter rowIndex :: Converter.callAll rest rowIndex

end

/-! ### Sample nested columns -/

/-- A list (or map) column of `length` rows with the given int32 offsets over
the given children, all rows valid. -/
def sampleListColumn (type : ArrowType) (length : Nat) (offsets : List Int)
    (children : List ArrowArrayView) : ArrowArrayView :=
  { storage_type := type, length := length, offset := 0, validity := none, data := offsets,
    bytes := [], children := children }

/-! ### Reading a dictionary -/

/-- Modelled from the spec: the read of the host's associative container,
given the equality `eqv` the host uses on keys: the value of the last
insertion whose key equals `k` (a later insertion under an equal key
overwrites), `none` when no inserted key equals `k`. -/
def dictLookup (eqv : PyObject → PyObject → Bool) (items : List (PyObject × PyObject))
    (k : PyObject) : Option PyObject :=
  (items.reverse.find? fun kv => eqv kv.1 k).map Prod.snd

/-- Equality of two `str` keys given by their text. -/
def pyStrKeyEq : PyObject → PyObject → Bool
  | PyObject.Str s, PyObject.Str t => s == t
  | _, _ => false

/-- The entries struct of a map column over a key column and a value column. -/
def sampleEntries (length : Nat) (keys values : ArrowArrayView) : ArrowArrayView :=
  { storage_type := NANOARROW_TYPE_STRUCT, length := length, offset := 0, validity := none,
    data := [], bytes := [], children := [keys, values] }

/-- Equality of two `int` keys. -/
def pyLongKeyEq : PyObject → PyObject → Bool
  | PyObject.Long a, PyObject.Long b => a == b
  | _, _ => false

/-! ### CArrowChunkIterator.cpp: the row iterator

The base-class constructor decodes the byte stream into one schema and a list
of record batches; the model starts from the decoded batches.  The Python
error indicator, a global of the interpreter, is carried in the state. -/

/-- The members of `CArrowChunkIterator` (and of its base `CArrowIterator`)
that `next` reads or writes, and the Python error indicator `pyErr`. -/
structure CArrowChunkIterator where
  m_ipcArrowSchema : ArrowSchema
  m_ipcArrowArrayViewVec : List ArrowArrayView
  m_useNumpy : Bool
  m_batchCount : Int
  m_columnCount : Int
  m_currentBatchIndex : Int
  m_rowIndexInBatch : Int
  m_rowCountInBatch : Int
  m_currentBatchConverters : List (Option Converter)
  m_latestReturnedRow : Option PyObject
  pyErr : Option String

/-- The class `ReturnVal`: `successObj` and `exception`, `none` for the null
pointer. -/
structure ReturnVal where
  successObj : Option PyObject
  exception : Option String

/-- How a call of `next` ends: it returns a `ReturnVal` and leaves the
iterator in a new state, or a C++ exception leaves the call, or the call is
undefined. -/
inductive NextOutcome where
  | returned (val : ReturnVal) (it : CArrowChunkIterator)
  | thrown (e : CppException)
  | undefined

/-- The text standing for a Python exception raised inside a converter call
(the exception itself is not tracked). -/
def converterError : String := "exception raised in toPyObject"

/-- The loop of `CArrowChunkIterator::initColumnConverters` (lines 484-494)
from column `i` on: one converter per schema child, built on the child of the
current batch of the same index. -/
def initColumnConvertersLoop (schemas : List ArrowSchema) (batch : ArrowArrayView) (i : Nat)
    (useNumpy : Bool) : BuiltList :=
  match schemas with
  | [] => BuiltList.returned [] none
  | columnSchema :: rest =>
    BuiltList.ofBuilt
      (withChild batch i fun array => getConverterFromSchema columnSchema array useNumpy)
      (initColumnConvertersLoop rest batch (i + 1) useNumpy)

/-- The function `CArrowChunkIterator::initColumnConverters`. -/
def CArrowChunkIterator.initColumnConverters (it : CArrowChunkIterator) : BuiltList :=
  if it.m_currentBatchIndex < 0 then BuiltList.undefined
  else
    match it.m_ipcArrowArrayViewVec.get? it.m_currentBatchIndex.toNat with
    | none => BuiltList.undefined
    | some batch =>
      initColumnConvertersLoop it.m_ipcArrowSchema.children batch 0 it.m_useNumpy

/-- The function `CArrowChunkIterator::createRowPyObject` (lines 86-96): the
tuple of `m_columnCount` items, item `i` being what
`m_currentBatchConverters[i]->toPyObject(m_rowIndexInBatch)` returns, and
whether the error indicator is set afterwards.  `none` when a call is
undefined (no such converter, null converter, negative row index). -/
def CArrowChunkIterator.createRowPyObject (it : CArrowChunkIterator) : Option (PyObject × Bool) :=
  if it.m_rowIndexInBatch < 0 then none
  else
    match collectSlots ((List.range it.m_columnCount.toNat).map fun i =>
        match it.m_currentBatchConverters.get? i with
        | some converter => Converter.callToPyObject converter it.m_rowIndexInBatch.toNat
        | none => PyReturn.undefined) with
    | none => none
    | some (slots, err) => some (PyObject.Tuple slots, err)

/-- The statements `this->createRowPyObject(); SF_CHECK_PYTHON_ERR() return
ReturnVal(m_latestReturnedRow.get(), nullptr);` of `next`. -/
def CArrowChunkIterator.createRowAndReturn (it : CArrowChunkIterator) : NextOutcome :=
  match it.createRowPyObject with
  | none => NextOutcome.undefined
  | some (row, err) =>
    match (if err then some converterError else it.pyErr) with
    | some e =>
      NextOutcome.returned { successObj := none, exception := some e }
        { it with m_latestReturnedRow := some row, pyErr := none }
    | none =>
      NextOutcome.returned { successObj := some row, exception := none }
        { it with m_latestReturnedRow := some row }

/-- The function `CArrowChunkIterator::next` (lines 51-84).  The counters
`m_rowIndexInBatch` and `m_currentBatchIndex` are C `int`s; the access
`m_ipcArrowArrayVec[m_currentBatchIndex]` outside the vector is undefined. -/
def CArrowChunkIterator.next (it : CArrowChunkIterator) : NextOutcome :=
  let it1 := { it with m_rowIndexInBatch := wrapInt32 (it.m_rowIndexInBatch + 1) }
  if it1.m_rowIndexInBatch < it1.m_rowCountInBatch then
    it1.createRowAndReturn
  else
    match it1.pyErr with
    | some e =>
      NextOutcome.returned { successObj := none, exception := some e } { it1 with pyErr := none }
    | none =>
      let it2 := { it1 with m_currentBatchIndex := wrapInt32 (it1.m_currentBatchIndex + 1) }
      if it2.m_currentBatchIndex < it2.m_batchCount then
        match (if it2.m_currentBatchIndex < 0 then none
          else it2.m_ipcArrowArrayViewVec.get? it2.m_currentBatchIndex.toNat) with
        | none => NextOutcome.undefined
        | some batch =>
          let it3 := { it2 with m_rowIndexInBatch := 0, m_rowCountInBatch := batch.length }
          match it3.initColumnConverters with
          | BuiltList.thrown e => NextOutcome.thrown e
          | BuiltList.undefined => NextOutcome.undefined
          | BuiltList.returned converters err =>
            let it4 := { it3 with m_currentBatchConverters := converters, pyErr := err }
            match it4.pyErr with
            | some e =>
              NextOutcome.returned { successObj := none, exception := some e }
                { it4 with pyErr := none }
            | none => it4.createRowAndReturn
      else
        NextOutcome.returned { successObj := some PyObject.None, exception := none } it2

/-- The constructor `CArrowChunkIterator::CArrowChunkIterator` (lines 27-49)
after a base-class constructor that decoded `batches` under `schema` without
error. -/
def CArrowChunkIterator.CArrowChunkIterator (schema : ArrowSchema) (batches : List ArrowArrayView)
    (use_numpy : Bool) : CArrowChunkIterator :=
  let m_batchCount := wrapInt32 batches.length
  { m_ipcArrowSchema := schema
    m_ipcArrowArrayViewVec := batches
    m_useNumpy := use_numpy
    m_batchCount := m_batchCount
    m_columnCount := if m_batchCount > 0 then wrapInt32 schema.n_children else 0
    m_currentBatchIndex := -1
    m_rowIndexInBatch := -1
    m_rowCountInBatch := 0
    m_currentBatchConverters := []
    m_latestReturnedRow := none
    pyErr := none }

/-- The values returned by `n` successive calls of `next`, oldest first; the
list ends with `none` at a call that does not return. -/
def nextCalls : Nat → CArrowChunkIterator → List (Option ReturnVal)
  | 0, _ => []
  | n + 1, it =>
    match it.next with
    | NextOutcome.returned val it1 => some val :: nextCalls n it1
    | NextOutcome.thrown _ => [none]
    | NextOutcome.undefined => [none]

/-- The schema of a record batch with one FIXED column "c" of scale 0 stored
as int64. -/
def sampleBatchSchema : ArrowSchema :=
  { name := "", type := NANOARROW_TYPE_STRUCT, metadata := none,
    children := [sampleSchema NANOARROW_TYPE_INT64 "FIXED" "38" "0"] }

/-- A record batch under `sampleBatchSchema` holding the given values. -/
def sampleBatch (xs : List Int) : ArrowArrayView :=
  sampleStructColumn xs.length [intColumn NANOARROW_TYPE_INT64 none xs]

/-! ### CArrowTableIterator.cpp: materialising the table

The column rewrite `convertIfNeeded(columnSchema, columnArray)` replaces the
schema and the array of one column in place; here it is a parameter of the
functions that call it, from the column before to the column after, `none`
when the call does not return (a C++ exception leaves it, or it is
undefined).  `ArrowSchemaDeepCopy` is taken to succeed. -/

/-- The members of `CArrowTableIterator` (and of its base `CArrowIterator`)
that the materialisation reads or writes: the batches (`m_ipcArrowArrayVec`
and `m_ipcArrowArrayViewVec`, one entry each per batch), the schema of the
stream, the per-batch schema copies, and the flag. -/
structure CArrowTableIterator where
  m_ipcArrowSchema : ArrowSchema
  m_ipcArrowArrayViewVec : List ArrowArrayView
  m_ipcSchemaArrayVec : List ArrowSchema
  m_tableConverted : Bool

/-- The inner loop of `reconstructRecordBatches_nanoarrow` (lines 309-316) over
the columns still to visit: `convertIfNeeded` on each schema child and the
array child of the same index.  `none` when a call does not return or the
batch has no such child. -/
def convertColumns (convertIfNeeded : ArrowSchema → ArrowArrayView →
    Option (ArrowSchema × ArrowArrayView)) :
    List ArrowSchema → List ArrowArrayView → Option (List ArrowSchema × List ArrowArrayView)
  | [], arrays => some ([], arrays)
  | _ :: _, [] => none
  | columnSchema :: schemas, columnArray :: arrays =>
    match convertIfNeeded columnSchema columnArray with
    | none => none
    | some (newSchema, newArray) =>
      match convertColumns convertIfNeeded schemas arrays with
      | none => none
      | some (newSchemas, newArrays) => some (newSchema :: newSchemas, newArray :: newArrays)

/-- The outer loop of `reconstructRecordBatches_nanoarrow` (lines 298-318) from
batch `batchIdx` on, `remaining` batches to go: the schema is copied and
pushed, the columns of `m_ipcSchemaArrayVec[batchIdx]` and of the batch are
rewritten, and the flag is set. -/
def reconstructFrom (convertIfNeeded : ArrowSchema → ArrowArrayView →
    Option (ArrowSchema × ArrowArrayView)) (it : CArrowTableIterator) (batchIdx : Nat) :
    Nat → Option CArrowTableIterator
  | 0 => some it
  | remaining + 1 =>
    let pushed := it.m_ipcSchemaArrayVec ++ [it.m_ipcArrowSchema]
    match pushed.get? batchIdx, it.m_ipcArrowArrayViewVec.get? batchIdx with
    | some schema, some batch =>
      match convertColumns convertIfNeeded schema.children batch.children with
      | none => none
      | some (newSchemas, newArrays) =>
        reconstructFrom convertIfNeeded
          { it with
            m_ipcSchemaArrayVec := pushed.set batchIdx { schema with children := newSchemas }
            m_ipcArrowArrayViewVec :=
              it.m_ipcArrowArrayViewVec.set batchIdx { batch with children := newArrays }
            m_tableConverted := true }
          (batchIdx + 1) remaining
    | _, _ => none

/-- The function `CArrowTableIterator::reconstructRecordBatches_nanoarrow`. -/
def reconstructRecordBatches_nanoarrow (convertIfNeeded : ArrowSchema → ArrowArrayView →
    Option (ArrowSchema × ArrowArrayView)) (it : CArrowTableIterator) :
    Option CArrowTableIterator :=
  reconstructFrom convertIfNeeded it 0 it.m_ipcArrowArrayViewVec.length

/-- The function `CArrowTableIterator::convertRecordBatchesToTable_nanoarrow`
(lines 984-991): the value returned and the state left. -/
def convertRecordBatchesToTable_nanoarrow (convertIfNeeded : ArrowSchema → ArrowArrayView →
    Option (ArrowSchema × ArrowArrayView)) (it : CArrowTableIterator) :
    Option (Bool × CArrowTableIterator) :=
  if !it.m_tableConverted && decide (it.m_ipcArrowArrayViewVec.length > 0) then
    match reconstructRecordBatches_nanoarrow convertIfNeeded it with
    | none => none
    | some it1 => some (true, it1)
  else some (false, it)

/-- The function `CArrowTableIterator::next` (lines 334-341). -/
def CArrowTableIterator.next (convertIfNeeded : ArrowSchema → ArrowArrayView →
    Option (ArrowSchema × ArrowArrayView)) (it : CArrowTableIterator) :
    Option (ReturnVal × CArrowTableIterator) :=
  match convertRecordBatchesToTable_nanoarrow convertIfNeeded it with
  | none => none
  | some (firstDone, it1) =>
    if firstDone && !it1.m_ipcArrowArrayViewVec.isEmpty then
      some ({ successObj := some (PyObject.Bool true), exception := none }, it1)
    else some ({ successObj := some PyObject.None, exception := none }, it1)

/-! ### CArrowTableIterator.cpp: the TIME, TIMESTAMP_TZ and fixed-number rewrites -/

/-- How a column rewrite ends: it returns the new column; or a check fails,
the Python error indicator is set to `message` and the function returns before
the column is replaced; or a C++ exception leaves it; or it reads something the
C++ leaves undefined (an unbound child pointer, a table subscript out of
bounds). -/
inductive Rewritten (α : Type) where
  | ok (a : α)
  | error (message : String)
  | thrown
  | undefined

/-- What one iteration of a row loop does: it appends a row (`none` for
`ArrowArrayAppendNull`), or ends the rewrite. -/
inductive Appended (α : Type) where
  | value (v : Option α)
  | error (message : String)
  | thrown
  | undefined

/-- A row loop `for (rowIdx ...)` over the row indices still to visit: the
rows appended, unless an iteration ends the rewrite. -/
def appendRows {α : Type} (body : Nat → Appended α) : List Nat → Rewritten (List (Option α))
  | [] => Rewritten.ok []
  | rowIdx :: rest =>
    match body rowIdx with
    | Appended.value v =>
      match appendRows body rest with
      | Rewritten.ok values => Rewritten.ok (v :: values)
      | Rewritten.error message => Rewritten.error message
      | Rewritten.thrown => Rewritten.thrown
      | Rewritten.undefined => Rewritten.undefined
    | Appended.error message => Rewritten.error message
    | Appended.thrown => Rewritten.thrown
    | Appended.undefined => Rewritten.undefined

def errorAppendingInt : String :=
  "[Snowflake Exception] error appending int to arrow array, error code: %d"

/-- Modelled from the spec: `ArrowArrayAppendInt` of nanoarrow.h (capability
"append one value per row") followed by `SF_CHECK_ARROW_RC`: a column stored
in 32 bits (TIME32) refuses a value outside the `int32_t` range, a column
stored in 64 bits takes every `int64_t`. -/
def ArrowArrayAppendInt (storage : ArrowType) (value : Int) : Appended Int :=
  if storage = NANOARROW_TYPE_TIME32 ∧ (value < INT32_MIN ∨ value > INT32_MAX) then
    Appended.error errorAppendingInt
  else Appended.value (some value)

/-- The column that `convertTimeColumn_nanoarrow` builds: the type given to
`ArrowSchemaSetTypeDateTime` (TIME32 or TIME64), its unit, the name and the
rows. -/
structure TimeColumn where
  type : ArrowType
  unit : ArrowTimeUnit
  name : String
  values : List (Option Int)
deriving DecidableEq, Repr

/-- Lines 521-554 of `convertTimeColumn_nanoarrow`: the type, the unit and
`powTenSB4Val`; `none` when `powTenSB4` is subscripted outside the table. -/
def timeColumnLayout (scale : Int) : Option (ArrowType × ArrowTimeUnit × Int) :=
  if scale = 0 then some (NANOARROW_TYPE_TIME32, NANOARROW_TIME_UNIT_SECOND, 1)
  else if scale ≤ 3 then
    (internal.powTenSB4 (3 - scale)).map fun p =>
      (NANOARROW_TYPE_TIME32, NANOARROW_TIME_UNIT_MILLI, p)
  else if scale ≤ 6 then
    (internal.powTenSB4 (6 - scale)).map fun p =>
      (NANOARROW_TYPE_TIME64, NANOARROW_TIME_UNIT_MICRO, p)
  else
    (internal.powTenSB4 (scale - 6)).map fun p =>
      (NANOARROW_TYPE_TIME64, NANOARROW_TIME_UNIT_MICRO, p)

/-- The body of the row loop of `convertTimeColumn_nanoarrow` (lines 573-590). -/
def timeColumnRow (columnArray : ArrowArrayView) (scale : Int) (type : ArrowType)
    (powTenSB4Val : Int) (rowIdx : Nat) : Appended Int :=
  if ArrowArrayViewIsNull columnArray rowIdx then Appended.value none
  else
    let originalVal := ArrowArrayViewGetIntUnsafe columnArray rowIdx
    let scaled :=
      if scale ≤ 6 then wrapInt64 (originalVal * powTenSB4Val)
      else Int.tdiv originalVal powTenSB4Val
    ArrowArrayAppendInt type scaled

/-- The function `CArrowTableIterator::convertTimeColumn_nanoarrow` (lines
510-605).  Calls into nanoarrow that only allocate are taken to succeed. -/
def convertTimeColumn_nanoarrow (field : ArrowSchema) (columnArray : ArrowArrayView)
    (scale : Int) : Rewritten TimeColumn :=
  match timeColumnLayout scale with
  | none => Rewritten.undefined
  | some (type, unit, powTenSB4Val) =>
    match appendRows (timeColumnRow columnArray scale type powTenSB4Val)
        (List.range columnArray.length) with
    | Rewritten.ok values =>
      Rewritten.ok { type := type, unit := unit, name := field.name, values := values }
    | Rewritten.error message => Rewritten.error message
    | Rewritten.thrown => Rewritten.thrown
    | Rewritten.undefined => Rewritten.undefined

/-- Lines 181-197 of `convertIfNeeded`: `case SnowflakeType::Type::TIME`. -/
def convertIfNeeded_TIME (columnSchema : ArrowSchema) (columnArray : ArrowArrayView) :
    Except CppException (Rewritten TimeColumn) :=
  match timeScale columnSchema.metadata with
  | Except.error e => Except.error e
  | Except.ok scale => Except.ok (convertTimeColumn_nanoarrow columnSchema columnArray scale)

/-- The body of the row loop of `convertTimestampTZColumn_nanoarrow` (lines
914-971).  `epochArray` and `fractionArray` are the pointers as the binding
loop left them. -/
def timestampTZRow (columnArray : ArrowArrayView)
    (epochArray fractionArray : Option ArrowArrayView) (scale byteLength : Int)
    (rowIdx : Nat) : Appended Int :=
  if !ArrowArrayViewIsNull columnArray rowIdx then
    if byteLength = 8 then
      match epochArray with
      | none => Appended.undefined
      | some epochArray =>
        let epoch := ArrowArrayViewGetIntUnsafe epochArray rowIdx
        if scale = 0 then ArrowArrayAppendInt NANOARROW_TYPE_TIMESTAMP epoch
        else if scale ≤ 3 then
          match internal.powTenSB4 (3 - scale) with
          | some p => ArrowArrayAppendInt NANOARROW_TYPE_TIMESTAMP (wrapInt64 (epoch * p))
          | none => Appended.undefined
        else if scale ≤ 6 then
          match internal.powTenSB4 (6 - scale) with
          | some p => ArrowArrayAppendInt NANOARROW_TYPE_TIMESTAMP (wrapInt64 (epoch * p))
          | none => Appended.undefined
        else
          match internal.powTenSB4 (9 - scale) with
          | some p => ArrowArrayAppendInt NANOARROW_TYPE_TIMESTAMP (wrapInt64 (epoch * p))
          | none => Appended.undefined
    else if byteLength = 16 then
      match epochArray, fractionArray with
      | some epochArray, some fractionArray =>
        let epoch := ArrowArrayViewGetIntUnsafe epochArray rowIdx
        let fraction := ArrowArrayViewGetIntUnsafe fractionArray rowIdx
        if scale = 0 then ArrowArrayAppendInt NANOARROW_TYPE_TIMESTAMP epoch
        else if scale ≤ 3 then
          match internal.powTenSB4 (3 - scale), internal.powTenSB4 6 with
          | some p, some p6 =>
            ArrowArrayAppendInt NANOARROW_TYPE_TIMESTAMP
              (wrapInt64 (wrapInt64 (epoch * p) + Int.tdiv fraction p6))
          | _, _ => Appended.undefined
        else if scale ≤ 6 then
          match internal.powTenSB4 6, internal.powTenSB4 3 with
          | some p6, some p3 =>
            ArrowArrayAppendInt NANOARROW_TYPE_TIMESTAMP
              (wrapInt64 (wrapInt64 (epoch * p6) + Int.tdiv fraction p3))
          | _, _ => Appended.undefined
        else
          match internal.powTenSB4 9 with
          | some p9 =>
            ArrowArrayAppendInt NANOARROW_TYPE_TIMESTAMP (wrapInt64 (wrapInt64 (epoch * p9) + fraction))
          | none => Appended.undefined
      | _, _ => Appended.undefined
    else
      Appended.error
        "[Snowflake Exception] unknown arrow internal data type(%d) for TIMESTAMP_TZ data"
  else Appended.value none

/-- The function `CArrowTableIterator::convertTimestampTZColumn_nanoarrow`
(lines 850-982).  Calls into nanoarrow that only allocate are taken to
succeed. -/
def convertTimestampTZColumn_nanoarrow (field : ArrowSchema) (columnArray : ArrowArrayView)
    (scale byteLength : Int) (timezone : String) : Rewritten TimestampColumn :=
  let timeunit :=
    if scale = 0 then NANOARROW_TIME_UNIT_SECOND
    else if scale ≤ 3 then NANOARROW_TIME_UNIT_MILLI
    else if scale ≤ 6 then NANOARROW_TIME_UNIT_MICRO
    else NANOARROW_TIME_UNIT_NANO
  let tz : Option String := if timezone.isEmpty then none else some timezone
  let bound := bindEpochFraction field.children columnArray.children (none, none)
  match appendRows (timestampTZRow columnArray bound.1 bound.2 scale byteLength)
      (List.range columnArray.length) with
  | Rewritten.ok values =>
    Rewritten.ok { unit := timeunit, timezone := tz, name := field.name, values := values }
  | Rewritten.error message => Rewritten.error message
  | Rewritten.thrown => Rewritten.thrown
  | Rewritten.undefined => Rewritten.undefined

/-- The column that `convertScaledFixedNumberColumnToDecimalColumn_nanoarrow`
builds: precision and scale given to `ArrowSchemaSetTypeDecimal`, the name, and
per row the integer given to `ArrowDecimalSetInt`. -/
structure DecimalColumn where
  precision : Int
  scale : Nat
  name : String
  values : List (Option Int)
deriving DecidableEq, Repr

/-- The function
`CArrowTableIterator::convertScaledFixedNumberColumnToDecimalColumn_nanoarrow`
(lines 378-446).  Calls into nanoarrow that only allocate are taken to
succeed. -/
def convertScaledFixedNumberColumnToDecimalColumn_nanoarrow (field : ArrowSchema)
    (columnArray : ArrowArrayView) (scale : Nat) : Rewritten DecimalColumn :=
  match appendRows
      (fun rowIdx =>
        if ArrowArrayViewIsNull columnArray rowIdx then Appended.value none
        else Appended.value (some (ArrowArrayViewGetIntUnsafe columnArray rowIdx)))
      (List.range columnArray.length) with
  | Rewritten.ok values =>
    Rewritten.ok { precision := 38, scale := scale, name := field.name, values := values }
  | Rewritten.error message => Rewritten.error message
  | Rewritten.thrown => Rewritten.thrown
  | Rewritten.undefined => Rewritten.undefined

/-- The decimal digit `d` as a character. -/
def digitChar (d : Nat) : Char := Char.ofNat (48 + d)

/-- The decimal digits of `n`, most significant first, put in front of `acc`;
`fuel` bounds the number of digits. -/
def decimalDigits : Nat → Nat → List Char → List Char
  | 0, _, acc => acc
  | fuel + 1, n, acc =>
    if n / 10 = 0 then digitChar (n % 10) :: acc
    else decimalDigits fuel (n / 10) (digitChar (n % 10) :: acc)

/-- The standard function `std::to_string(long long)`: a '-' for a negative
value, then the decimal digits of the magnitude without leading zeros. -/
def to_string (value : Int) : List Char :=
  if value < 0 then '-' :: decimalDigits (value.natAbs + 1) value.natAbs []
  else decimalDigits (value.natAbs + 1) value.natAbs []

/-- The member `std::string::insert(pos, str)`; `none` when `pos` is past the
end (`std::out_of_range`). -/
def string_insert (valStr : List Char) (pos : Int) (str : List Char) : Option (List Char) :=
  if pos < 0 ∨ pos > valStr.length then none
  else some (valStr.take pos.toNat ++ str ++ valStr.drop pos.toNat)

/-- Lines 351-360 of `convertScaledFixedNumberToDouble`: the text handed to
`std::stod`.  `numOfZeroes` is an `int`; a negative count makes the
constructor `std::string(count, ch)` throw `std::length_error`.  The
subtraction `valStr.length() - scale` is unsigned: a negative difference wraps
to a position past the end. -/
def scaledFixedNumberText (scale : Nat) (originalValue : Int) : Rewritten String :=
  let valStr := to_string originalValue
  let negative : Int := if valStr.head? = some '-' then 1 else 0
  let digits : Int := valStr.length - negative
  let padded : Option (List Char) :=
    if digits ≤ scale then
      let numOfZeroes := wrapInt32 (scale - digits + 1)
      if numOfZeroes < 0 then none
      else string_insert valStr negative (List.replicate numOfZeroes.toNat '0')
    else some valStr
  match padded with
  | none => Rewritten.thrown
  | some valStr =>
    match string_insert valStr (valStr.length - scale) ['.'] with
    | none => Rewritten.thrown
    | some valStr => Rewritten.ok (String.mk valStr)

/-- A C `double` that `convertScaledFixedNumberToDouble` returns, kept as the
expression that computes it: the quotient `(double)originalValue / divisor`,
or `std::stod` of a text. -/
inductive DoubleExpr where
  | quotient (originalValue divisor : Int)
  | stod (valStr : String)
deriving DecidableEq, Repr

/-- The function `CArrowTableIterator::convertScaledFixedNumberToDouble`
(lines 343-363) at `T = int64_t`; `scale` is an `unsigned int`.  The parse of
`std::stod` is left symbolic. -/
def convertScaledFixedNumberToDouble (scale : Nat) (originalValue : Int) : Rewritten DoubleExpr :=
  if scale < 9 then
    match internal.powTenSB4 scale with
    | some p => Rewritten.ok (DoubleExpr.quotient originalValue p)
    | none => Rewritten.undefined
  else
    match scaledFixedNumberText scale originalValue with
    | Rewritten.ok valStr => Rewritten.ok (DoubleExpr.stod valStr)
    | Rewritten.error message => Rewritten.error message
    | Rewritten.thrown => Rewritten.thrown
    | Rewritten.undefined => Rewritten.undefined

/-- The column that `convertScaledFixedNumberColumnToDoubleColumn_nanoarrow`
builds: a float64 column with the name and the rows. -/
structure DoubleColumn where
  name : String
  values : List (Option DoubleExpr)
deriving DecidableEq, Repr

/-- The body of the row loop of
`convertScaledFixedNumberColumnToDoubleColumn_nanoarrow` (lines 481-497). -/
def doubleColumnRow (columnArray : ArrowArrayView) (scale : Nat) (rowIdx : Nat) :
    Appended DoubleExpr :=
  if ArrowArrayViewIsNull columnArray rowIdx then Appended.value none
  else
    match convertScaledFixedNumberToDouble scale
        (ArrowArrayViewGetIntUnsafe columnArray rowIdx) with
    | Rewritten.ok val => Appended.value (some val)
    | Rewritten.error message => Appended.error message
    | Rewritten.thrown => Appended.thrown
    | Rewritten.undefined => Appended.undefined

/-- The function
`CArrowTableIterator::convertScaledFixedNumberColumnToDoubleColumn_nanoarrow`
(lines 448-508).  Calls into nanoarrow that only allocate are taken to
succeed. -/
def convertScaledFixedNumberColumnToDoubleColumn_nanoarrow (field : ArrowSchema)
    (columnArray : ArrowArrayView) (scale : Nat) : Rewritten DoubleColumn :=
  match appendRows (doubleColumnRow columnArray scale) (List.range columnArray.length) with
  | Rewritten.ok values => Rewritten.ok { name := field.name, values := values }
  | Rewritten.error message => Rewritten.error message
  | Rewritten.thrown => Rewritten.thrown
  | Rewritten.undefined => Rewritten.undefined

/-- Modelled from the spec: the schema node that `ArrowSchemaInit`,
`ArrowSchemaSetTypeDateTime` and `ArrowSchemaSetName` build for a rewritten
TIME column ("build a new schema node with the target type"): the new type
and the name of the column; `ArrowSchemaInit` leaves it without metadata and
without children. -/
def TimeColumn.newSchema (col : TimeColumn) : ArrowSchema :=
  { name := col.name, type := col.type, metadata := none, children := [] }

/-- Modelled from the spec: the array that the `ArrowArrayAppend*` calls and
`ArrowArrayFinishBuildingDefault` build ("append one value per row
(propagating nulls), finish construction"): one element per row, stored in 32
bits for TIME32 and in 64 bits for TIME64, a null row storing 0; a validity
bitmap exists once a null was appended. -/
def TimeColumn.newArray (col : TimeColumn) : ArrowArrayView :=
  { storage_type :=
      if col.type = NANOARROW_TYPE_TIME32 then NANOARROW_TYPE_INT32 else NANOARROW_TYPE_INT64,
    length := col.values.length, offset := 0,
    validity := if col.values.all Option.isSome then none else some (col.values.map Option.isSome),
    data := col.values.map fun v => v.getD 0, bytes := [], children := [] }

theorem overflowScan_eq (columnArray epochArray fractionArray : ArrowArrayView) (p : Int)
    (rows : List Nat) (flag : Bool) :
    overflowScan columnArray epochArray fractionArray p rows flag =
      if rows.any (rowFatal columnArray epochArray fractionArray p) then Outcome.overflow_error
      else Outcome.ok (flag || rows.any (rowOutOfRange columnArray epochArray p)) := by
  induction rows generalizing flag with
  | nil => simp [overflowScan]
  | cons r rest ih =>
    rw [overflowScan, List.any_cons, List.any_cons]
    cases hnull : ArrowArrayViewIsNull columnArray r
    · cases hd : (decide (ArrowArrayViewGetIntUnsafe epochArray r > Int.tdiv INT64_MAX p) ||
          decide (ArrowArrayViewGetIntUnsafe epochArray r < Int.tdiv INT64_MIN p))
      · simp [rowFatal, rowOutOfRange, hnull, hd, ih]
      · cases hf : (Int.tmod (ArrowArrayViewGetIntUnsafe fractionArray r) 1000 != 0)
        · simp [rowFatal, rowOutOfRange, hnull, hd, hf, ih]
        · simp [rowFatal, rowOutOfRange, hnull, hd, hf, ih]
    · simp [rowFatal, rowOutOfRange, hnull, ih]

/-- C++ division by a positive divisor, in terms of floor division. -/
theorem tdiv_eq_ite (x n : Int) (hn : 0 < n) :
    Int.tdiv x n = if 0 ≤ x then x / n else -((-x) / n) := by
  split
  · next h => exact Int.tdiv_eq_ediv h (Int.le_of_lt hn)
  · next h =>
    have h1 : Int.tdiv (-(-x)) n = -(Int.tdiv (-x) n) := Int.neg_tdiv (-x) n
    rw [Int.neg_neg] at h1
    rw [h1, Int.tdiv_eq_ediv (by omega) (Int.le_of_lt hn)]

/-- C++ remainder by a positive divisor, in terms of the floor remainder. -/
theorem tmod_eq_ite (x n : Int) (hn : 0 < n) :
    Int.tmod x n = if 0 ≤ x then x % n else -((-x) % n) := by
  rw [Int.tmod_def, tdiv_eq_ite x n hn]
  split
  · rw [Int.emod_def]
  · rw [Int.emod_def, Int.mul_neg]; omega

theorem tmod_thousand_ne_zero_iff (x : Int) : Int.tmod x 1000 ≠ 0 ↔ x % 1000 ≠ 0 := by
  rw [tmod_eq_ite x 1000 (by decide)]
  split <;> omega

theorem powTenSB4_nine : internal.powTenSB4 9 = some 1000000000 := by decide

theorem powTenSB4_six : internal.powTenSB4 6 = some 1000000 := by decide

theorem any_rowOutOfRange_iff (columnArray epochArray : ArrowArrayView) :
    (List.range columnArray.length).any (rowOutOfRange columnArray epochArray 1000000000) = true ↔
      ∃ rowIdx, EpochOutOfRange columnArray epochArray rowIdx := by
  simp only [List.any_eq_true, List.mem_range, rowOutOfRange, EpochOutOfRange, Bool.and_eq_true,
    Bool.not_eq_true', Bool.or_eq_true, decide_eq_true_eq]
  norm_num

theorem any_rowFatal_iff (columnArray epochArray fractionArray : ArrowArrayView) :
    (List.range columnArray.length).any
        (rowFatal columnArray epochArray fractionArray 1000000000) = true ↔
      ∃ rowIdx, EpochOutOfRange columnArray epochArray rowIdx ∧
        ArrowArrayViewGetIntUnsafe fractionArray rowIdx % 1000 ≠ 0 := by
  simp only [List.any_eq_true, List.mem_range, rowFatal, rowOutOfRange, EpochOutOfRange,
    Bool.and_eq_true, Bool.not_eq_true', Bool.or_eq_true, decide_eq_true_eq, bne_iff_ne,
    tmod_thousand_ne_zero_iff]
  norm_num
  constructor
  · rintro ⟨r, h1, ⟨h2, h3⟩, h4⟩
    exact ⟨r, ⟨h1, h2, h3⟩, h4⟩
  · rintro ⟨r, ⟨h1, h2, h3⟩, h4⟩
    exact ⟨r, h1, ⟨h2, h3⟩, h4⟩

theorem convertTimestampColumn_struct_eq (field : ArrowSchema)
    (columnArray epochArray fractionArray : ArrowArrayView) (scale : Int) (timezone : String)
    (hscale : scale > 6) (htype : field.type = NANOARROW_TYPE_STRUCT)
    (hbind : bindEpochFraction field.children columnArray.children (none, none) =
      (some epochArray, some fractionArray)) :
    convertTimestampColumn_nanoarrow field columnArray scale timezone =
      if (List.range columnArray.length).any
          (rowFatal columnArray epochArray fractionArray 1000000000) then
        Outcome.overflow_error
      else
        Outcome.ok
          { unit := (if (List.range columnArray.length).any
                (rowOutOfRange columnArray epochArray 1000000000)
              then NANOARROW_TIME_UNIT_MICRO else NANOARROW_TIME_UNIT_NANO),
            timezone := if timezone.isEmpty then none else some timezone,
            name := field.name,
            values := appendStructRows columnArray epochArray fractionArray
              ((List.range columnArray.length).any
                (rowOutOfRange columnArray epochArray 1000000000)) 1000000 1000000000 } := by
  have hns : ¬ scale ≤ 6 := by omega
  unfold convertTimestampColumn_nanoarrow computeHasOverflowToDownscale
  simp only [hscale, htype, hbind, powTenSB4_nine, powTenSB4_six, overflowScan_eq, and_self,
    if_true, Bool.false_or, hns, if_false]
  by_cases hf : (List.range columnArray.length).any
      (rowFatal columnArray epochArray fractionArray 1000000000) = true
  · simp [hf]
  · simp [hf]

/-- C1. Overflow policy of `convertTimestampColumn_nanoarrow` on a
struct-encoded column with scale > 6 whose children "epoch" and "fraction" are
bound: the rewrite throws the overflow error exactly when some non-null row has
an epoch outside `[INT64_MIN div 10^9, INT64_MAX div 10^9]` together with a
fraction that is not a multiple of 1000; otherwise it returns a column whose
unit is microseconds when some non-null row has such an epoch and nanoseconds
when none has.  Only non-null rows occur in the two conditions. -/
theorem convertTimestampColumn_overflow_policy (field : ArrowSchema)
    (columnArray epochArray fractionArray : ArrowArrayView) (scale : Int) (timezone : String)
    (hscale : scale > 6) (htype : field.type = NANOARROW_TYPE_STRUCT)
    (hbind : bindEpochFraction field.children columnArray.children (none, none) =
      (some epochArray, some fractionArray)) :
    (convertTimestampColumn_nanoarrow field columnArray scale timezone = Outcome.overflow_error ↔
      ∃ rowIdx, EpochOutOfRange columnArray epochArray rowIdx ∧
        ArrowArrayViewGetIntUnsafe fractionArray rowIdx % 1000 ≠ 0) ∧
    ((¬ ∃ rowIdx, EpochOutOfRange columnArray epochArray rowIdx ∧
        ArrowArrayViewGetIntUnsafe fractionArray rowIdx % 1000 ≠ 0) →
      ∃ col, convertTimestampColumn_nanoarrow field columnArray scale timezone = Outcome.ok col ∧
        ((∃ rowIdx, EpochOutOfRange columnArray epochArray rowIdx) →
          col.unit = NANOARROW_TIME_UNIT_MICRO) ∧
        ((¬ ∃ rowIdx, EpochOutOfRange columnArray epochArray rowIdx) →
          col.unit = NANOARROW_TIME_UNIT_NANO)) := by
  rw [convertTimestampColumn_struct_eq field columnArray epochArray fractionArray scale timezone
    hscale htype hbind, ← any_rowFatal_iff, ← any_rowOutOfRange_iff]
  by_cases hf : (List.range columnArray.length).any
      (rowFatal columnArray epochArray fractionArray 1000000000) = true
  · simp [hf]
  · rw [if_neg hf]
    refine ⟨by simp [hf], fun _ => ⟨_, rfl, ?_, ?_⟩⟩
    · intro h; simp [h]
    · intro h; simp [h]

/-- An instance of `convertTimestampColumn_overflow_policy`: scale 9, a row in
range with fraction 5 and a row beyond `INT64_MAX div 10^9` with fraction
123456000. -/
theorem convertTimestampColumn_overflow_policy_witness :
    ((9 : Int) > 6 ∧ sampleTimestampField.type = NANOARROW_TYPE_STRUCT) ∧
    ((convertTimestampColumn_nanoarrow sampleTimestampField
        (sampleTimestampColumn none [1700000000, 9223372037] [5, 123456000]) 9 "" =
          Outcome.overflow_error ↔
      ∃ rowIdx, EpochOutOfRange (sampleTimestampColumn none [1700000000, 9223372037] [5, 123456000])
          (intColumn NANOARROW_TYPE_INT64 none [1700000000, 9223372037]) rowIdx ∧
        ArrowArrayViewGetIntUnsafe (intColumn NANOARROW_TYPE_INT32 none [5, 123456000]) rowIdx
          % 1000 ≠ 0) ∧
    ((¬ ∃ rowIdx, EpochOutOfRange (sampleTimestampColumn none [1700000000, 9223372037] [5, 123456000])
          (intColumn NANOARROW_TYPE_INT64 none [1700000000, 9223372037]) rowIdx ∧
        ArrowArrayViewGetIntUnsafe (intColumn NANOARROW_TYPE_INT32 none [5, 123456000]) rowIdx
          % 1000 ≠ 0) →
      ∃ col, convertTimestampColumn_nanoarrow sampleTimestampField
          (sampleTimestampColumn none [1700000000, 9223372037] [5, 123456000]) 9 "" =
            Outcome.ok col ∧
        ((∃ rowIdx, EpochOutOfRange
            (sampleTimestampColumn none [1700000000, 9223372037] [5, 123456000])
            (intColumn NANOARROW_TYPE_INT64 none [1700000000, 9223372037]) rowIdx) →
          col.unit = NANOARROW_TIME_UNIT_MICRO) ∧
        ((¬ ∃ rowIdx, EpochOutOfRange
            (sampleTimestampColumn none [1700000000, 9223372037] [5, 123456000])
            (intColumn NANOARROW_TYPE_INT64 none [1700000000, 9223372037]) rowIdx) →
          col.unit = NANOARROW_TIME_UNIT_NANO))) :=
  ⟨⟨by decide, rfl⟩,
    convertTimestampColumn_overflow_policy sampleTimestampField
      (sampleTimestampColumn none [1700000000, 9223372037] [5, 123456000])
      (intColumn NANOARROW_TYPE_INT64 none [1700000000, 9223372037])
      (intColumn NANOARROW_TYPE_INT32 none [5, 123456000]) 9 "" (by decide) rfl rfl⟩

/-- The two cases of the spec's overflow policy, evaluated: an epoch beyond
`INT64_MAX div 10^9` with a fraction that is a multiple of 1000 downscales the
whole column to microseconds; the same epoch with fraction 123456001 is fatal;
and a null row with that epoch and fraction changes nothing. -/
theorem convertTimestampColumn_policy_examples :
    convertTimestampColumn_nanoarrow sampleTimestampField
        (sampleTimestampColumn none [1700000000, 9223372037] [5000, 123456000]) 9 "" =
      Outcome.ok { unit := NANOARROW_TIME_UNIT_MICRO, timezone := none, name := "ts",
                   values := [some 1700000000000005, some 9223372037123456] } ∧
    convertTimestampColumn_nanoarrow sampleTimestampField
        (sampleTimestampColumn none [1700000000, 9223372037] [5000, 123456001]) 9 "" =
      Outcome.overflow_error ∧
    convertTimestampColumn_nanoarrow sampleTimestampField
        (sampleTimestampColumn (some [true, false]) [1700000000, 9223372037] [5000, 123456001])
        9 "" =
      Outcome.ok { unit := NANOARROW_TIME_UNIT_NANO, timezone := none, name := "ts",
                   values := [some 1700000000000005000, none] } := by
  refine ⟨by decide, by decide, by decide⟩

/-! ### Decimal from scaled integer -/

theorem wrapInt32_of_mem (x : Int) (h1 : INT32_MIN ≤ x) (h2 : x ≤ INT32_MAX) : wrapInt32 x = x := by
  unfold INT32_MIN at h1
  unfold INT32_MAX at h2
  unfold wrapInt32
  omega

theorem wrapInt64_of_mem (x : Int) (h1 : INT64_MIN ≤ x) (h2 : x ≤ INT64_MAX) : wrapInt64 x = x := by
  unfold INT64_MIN at h1
  unfold INT64_MAX at h2
  unfold wrapInt64
  omega

theorem decimalValue_neg_scale (v s : Int) (hs : 0 ≤ s) :
    decimalValue v (-s) = (v : ℚ) * (10 : ℚ) ^ (-s) := by
  unfold decimalValue
  rcases eq_or_lt_of_le hs with h0 | hpos
  · subst h0; simp
  · have hneg : ¬ (0 ≤ -s) := by omega
    rw [if_neg hneg, neg_neg, zpow_neg, div_eq_mul_inv]
    congr 2
    have h := zpow_natCast (10 : ℚ) s.toNat
    rw [Int.toNat_of_nonneg hs] at h
    exact h.symm

/-- C2. For a non-null row of an integer column holding `v` (any signed
64-bit value) and a scale `s` in [1,9], `DecimalFromIntConverter` returns the
decimal with coefficient `v` and exponent `-s`, whose exact rational value is
`v × 10^-s`. -/
theorem DecimalFromIntConverter_exact (m_array : ArrowArrayView) (s v : Int) (rowIndex : Nat)
    (hs : 1 ≤ s ∧ s ≤ 9) (hv : INT64_MIN ≤ v ∧ v ≤ INT64_MAX)
    (hnn : ArrowArrayViewIsNull m_array rowIndex = false)
    (hval : ArrowArrayViewGetIntUnsafe m_array rowIndex = v) :
    DecimalFromIntConverter.toPyObject m_array s rowIndex =
        PyReturn.object (PyObject.Decimal v (-s)) ∧
      decimalValue v (-s) = (v : ℚ) * (10 : ℚ) ^ (-s) := by
  refine ⟨?_, decimalValue_neg_scale v s (by omega)⟩
  have hw : wrapInt32 (-s) = -s := by unfold wrapInt32; omega
  have habs : v.natAbs < 10 ^ 28 := by
    unfold INT64_MIN INT64_MAX at hv
    omega
  unfold DecimalFromIntConverter.toPyObject decimalScaleb
  rw [hnn, hval, hw]
  have h1 : ¬ (-s < -2000054 ∨ -s > 2000054) := by omega
  have h2 : v.natAbs < 10 ^ 28 ∧ -1000026 ≤ 0 + -s ∧ 0 + -s + 28 ≤ 999999 := ⟨habs, by omega, by omega⟩
  simp only [Bool.false_eq_true, if_false]
  rw [if_neg h1, if_pos h2, zero_add]

/-- An instance of `DecimalFromIntConverter_exact`: the smallest 64-bit value
at scale 9. -/
theorem DecimalFromIntConverter_exact_witness :
    ((1 : Int) ≤ 9 ∧ (9 : Int) ≤ 9) ∧
    (DecimalFromIntConverter.toPyObject
        (intColumn NANOARROW_TYPE_INT64 none [12345, -9223372036854775808]) 9 1 =
        PyReturn.object (PyObject.Decimal (-9223372036854775808) (-9)) ∧
      decimalValue (-9223372036854775808) (-9) =
        ((-9223372036854775808 : Int) : ℚ) * (10 : ℚ) ^ (-9 : Int)) :=
  ⟨by decide,
    DecimalFromIntConverter_exact (intColumn NANOARROW_TYPE_INT64 none [12345, -9223372036854775808])
      9 (-9223372036854775808) 1 (by decide) (by decide) rfl rfl⟩

/-! ### Decimal from 128-bit bytes -/

theorem bytesOfWord_wordOfBytes (l : List Byte) : bytesOfWord l.length (wordOfBytes l) = l := by
  induction l with
  | nil => rfl
  | cons b rest ih =>
    have hb : b.val < 256 := b.isLt
    have h1 : (b.val + 256 * wordOfBytes rest) % 256 = b.val := by omega
    have h2 : (b.val + 256 * wordOfBytes rest) / 256 = wordOfBytes rest := by omega
    simp only [List.length_cons, wordOfBytes, bytesOfWord, h1, h2, ih]

theorem getBytes_of_words (src : List Byte) (h : src.length = 16) (p sc : Int) :
    ArrowDecimalGetBytes
        { words := [wordOfBytes (src.take 8), wordOfBytes (src.drop 8)], precision := p,
          scale := sc } = src := by
  have h1 : (src.take 8).length = 8 := by simp [h]
  have h2 : (src.drop 8).length = 8 := by simp [h]
  have e1 := bytesOfWord_wordOfBytes (src.take 8)
  have e2 := bytesOfWord_wordOfBytes (src.drop 8)
  rw [h1] at e1
  rw [h2] at e2
  simp only [ArrowDecimalGetBytes, List.map_cons, List.map_nil, List.flatten_cons,
    List.flatten_nil, List.append_nil, e1, e2, List.take_append_drop]

theorem decimalBytesGeneric_eq_direct (m_array : ArrowArrayView) (precision scale : Int)
    (rowIndex : Nat) :
    decimalBytesGeneric m_array precision scale rowIndex = decimalBytesDirect m_array rowIndex := by
  unfold decimalBytesGeneric decimalBytesDirect ArrowArrayViewGetDecimalUnsafe
  have hidx : (rowIndex + m_array.offset) * 16 = 16 * (m_array.offset + rowIndex) := by omega
  simp only [hidx]
  by_cases h : ((m_array.bytes.drop (16 * (m_array.offset + rowIndex))).take 16).length = 16
  · simp only [h, if_true, Option.map_some']
    rw [getBytes_of_words _ h]
  · simp only [h, if_false, Option.map_none']

theorem take_drop_eq_map_getD (l : List Byte) (a n : Nat) (h : a + n ≤ l.length) :
    (l.drop a).take n = (List.range n).map (fun i => l.getD (a + i) 0) := by
  apply List.ext_getElem
  · simp; omega
  · intro i h1 h2
    simp only [List.length_map, List.length_range] at h2
    have h3 : a + i < l.length := by omega
    simp [List.getElem_take, List.getD_eq_getElem?_getD, List.getElem?_eq_getElem h3]

/-- C3. For every array view (any offset, any buffer content), row index,
precision and scale: the 16 bytes that `DecimalFromDecimalConverter` passes on
are the bytes at positions `16·(offset+row) + i`, `i < 16`, of the second
buffer (and there is no defined read when the buffer ends before them); the
generic extraction (`ArrowArrayViewGetDecimalUnsafe` then
`ArrowDecimalGetBytes`) yields the same bytes; and the converter returns
exactly what the reference implementation built on the generic extraction
returns. -/
theorem DecimalFromDecimalConverter_direct_eq_generic (m_array : ArrowArrayView)
    (precision scale : Int) (rowIndex : Nat) :
    decimalBytesDirect m_array rowIndex =
        (if 16 * (m_array.offset + rowIndex) + 16 ≤ m_array.bytes.length then
          some ((List.range 16).map
            (fun i => m_array.bytes.getD (16 * (m_array.offset + rowIndex) + i) 0))
        else none) ∧
      decimalBytesGeneric m_array precision scale rowIndex = decimalBytesDirect m_array rowIndex ∧
      DecimalFromDecimalConverter.toPyObject m_array scale rowIndex =
        DecimalFromDecimalConverter.toPyObjectReference m_array precision scale rowIndex := by
  refine ⟨?_, decimalBytesGeneric_eq_direct m_array precision scale rowIndex, ?_⟩
  · unfold decimalBytesDirect
    by_cases h : 16 * (m_array.offset + rowIndex) + 16 ≤ m_array.bytes.length
    · have hl : ((m_array.bytes.drop (16 * (m_array.offset + rowIndex))).take 16).length = 16 := by
        simp; omega
      simp only [hl, h, if_true]
      rw [take_drop_eq_map_getD _ _ _ h]
    · have hl : ¬ ((m_array.bytes.drop (16 * (m_array.offset + rowIndex))).take 16).length = 16 := by
        simp; omega
      simp only [hl, h, if_false]
  · unfold DecimalFromDecimalConverter.toPyObject DecimalFromDecimalConverter.toPyObjectReference
    rw [decimalBytesGeneric_eq_direct]

/-! ### Single-field timestamp split -/

/-- C4, as stated, fails: for scale 9 and value 1000000000123456789 the
constructor yields seconds = 0 and microseconds = 1000000000123456, not
seconds = 1000000000 and microseconds = 123456. -/
theorem TimeSpec_scale9_counterexample :
    internal.TimeSpec.TimeSpec 1000000000123456789 9 =
        some { seconds := 0, microseconds := 1000000000123456 } ∧
      internal.TimeSpec.TimeSpec 1000000000123456789 9 ≠
        some { seconds := 1000000000, microseconds := 123456 } := by
  decide

theorem TimeSpec_scale9_eq (v : Int) (hv : 0 ≤ v) :
    internal.TimeSpec.TimeSpec v 9 = some { seconds := 0, microseconds := v / 1000 } := by
  have h : ¬ v < 0 := by omega
  have hp : internal.powTenSB4 (9 - 6) = some 1000 := by decide
  simp only [internal.TimeSpec.TimeSpec, hp, h, if_false]
  rw [Int.tdiv_eq_ediv hv (by decide)]
  rfl

/-- C4, amended. For scale 9 and every non-negative value `v`, `TimeSpec`
yields seconds = 0 and microseconds = `v div 1000` (truncated); the pair
denotes the instant `(v div 10^9)` seconds plus `(v mod 10^9) div 1000`
microseconds; and the one-field NTZ converter passes exactly this pair to
`TIMESTAMP_NTZ_to_python` for a non-null row holding `v`. -/
theorem TimeSpec_scale9_nonneg (v : Int) (hv : 0 ≤ v) (m_array : ArrowArrayView) (rowIndex : Nat)
    (hnn : ArrowArrayViewIsNull m_array rowIndex = false)
    (hval : ArrowArrayViewGetIntUnsafe m_array rowIndex = v) :
    internal.TimeSpec.TimeSpec v 9 = some { seconds := 0, microseconds := v / 1000 } ∧
      (0 : Int) * 10 ^ 6 + v / 1000 = (v / 10 ^ 9) * 10 ^ 6 + (v % 10 ^ 9) / 1000 ∧
      OneFieldTimeStampNTZConverter.toPyObject m_array 9 rowIndex =
        PyReturn.object
          (PyObject.ContextCall "TIMESTAMP_NTZ_to_python" [PyObject.Long 0, PyObject.Long (v / 1000)]) := by
  refine ⟨TimeSpec_scale9_eq v hv, by omega, ?_⟩
  unfold OneFieldTimeStampNTZConverter.toPyObject
  rw [hnn, hval]
  simp only [Bool.false_eq_true, if_false, TimeSpec_scale9_eq v hv]

/-- An instance of `TimeSpec_scale9_nonneg` at the value of the spec's
example. -/
theorem TimeSpec_scale9_nonneg_witness :
    (0 : Int) ≤ 1000000000123456789 ∧
    (internal.TimeSpec.TimeSpec 1000000000123456789 9 =
        some { seconds := 0, microseconds := 1000000000123456789 / 1000 } ∧
      (0 : Int) * 10 ^ 6 + 1000000000123456789 / 1000 =
        (1000000000123456789 / 10 ^ 9) * 10 ^ 6 + (1000000000123456789 % 10 ^ 9) / 1000 ∧
      OneFieldTimeStampNTZConverter.toPyObject
          (intColumn NANOARROW_TYPE_INT64 none [1000000000123456789]) 9 0 =
        PyReturn.object
          (PyObject.ContextCall "TIMESTAMP_NTZ_to_python"
            [PyObject.Long 0, PyObject.Long (1000000000123456789 / 1000)])) :=
  ⟨by decide,
    TimeSpec_scale9_nonneg 1000000000123456789 (by decide)
      (intColumn NANOARROW_TYPE_INT64 none [1000000000123456789]) 0 rfl rfl⟩

/-! ### Two-field and three-field timestamps -/

/-- C5. For a non-null row, with the children bound: the two-field NTZ and
LTZ converters pass seconds = epoch and microseconds = fraction div 1000
(C++ division, truncating toward zero); the three-field TZ converter passes the
same two values and the timezone field, unchanged when the stored timezone fits
the `int32_t` it is read into.  None of these functions reads the scale.
Example: epoch 1700000000 and fraction 500000000 give microseconds 500000. -/
theorem multiField_seconds_microseconds (m_array epochArray fractionArray timezoneArray :
      ArrowArrayView) (rowIndex : Nat)
    (hnn : ArrowArrayViewIsNull m_array rowIndex = false)
    (htz : INT32_MIN ≤ ArrowArrayViewGetIntUnsafe timezoneArray rowIndex ∧
      ArrowArrayViewGetIntUnsafe timezoneArray rowIndex ≤ INT32_MAX) :
    TwoFieldTimeStampNTZConverter.toPyObject m_array (some epochArray) (some fractionArray)
        rowIndex =
      PyReturn.object (PyObject.ContextCall "TIMESTAMP_NTZ_to_python"
        [PyObject.Long (ArrowArrayViewGetIntUnsafe epochArray rowIndex),
         PyObject.Long (Int.tdiv (ArrowArrayViewGetIntUnsafe fractionArray rowIndex) 1000)]) ∧
    TwoFieldTimeStampLTZConverter.toPyObject m_array (some epochArray) (some fractionArray)
        rowIndex =
      PyReturn.object (PyObject.ContextCall "TIMESTAMP_LTZ_to_python"
        [PyObject.Long (ArrowArrayViewGetIntUnsafe epochArray rowIndex),
         PyObject.Long (Int.tdiv (ArrowArrayViewGetIntUnsafe fractionArray rowIndex) 1000)]) ∧
    ThreeFieldTimeStampTZConverter.toPyObject m_array (some epochArray) (some timezoneArray)
        (some fractionArray) rowIndex =
      PyReturn.object (PyObject.ContextCall "TIMESTAMP_TZ_to_python"
        [PyObject.Long (ArrowArrayViewGetIntUnsafe epochArray rowIndex),
         PyObject.Long (Int.tdiv (ArrowArrayViewGetIntUnsafe fractionArray rowIndex) 1000),
         PyObject.Long (ArrowArrayViewGetIntUnsafe timezoneArray rowIndex)]) ∧
    Int.tdiv 500000000 1000 = 500000 := by
  refine ⟨?_, ?_, ?_, by decide⟩
  · simp only [TwoFieldTimeStampNTZConverter.toPyObject, hnn, Bool.false_eq_true, if_false]
  · simp only [TwoFieldTimeStampLTZConverter.toPyObject, hnn, Bool.false_eq_true, if_false]
  · simp only [ThreeFieldTimeStampTZConverter.toPyObject, hnn, Bool.false_eq_true, if_false,
      wrapInt32_of_mem _ htz.1 htz.2]

/-- An instance of `multiField_seconds_microseconds`: epoch 1700000000,
fraction 500000000, timezone 1440, in a column whose first row is null. -/
theorem multiField_seconds_microseconds_witness :
    (ArrowArrayViewIsNull
        (sampleTimestampColumn (some [false, true]) [0, 1700000000] [0, 500000000]) 1 = false) ∧
    TwoFieldTimeStampNTZConverter.toPyObject
        (sampleTimestampColumn (some [false, true]) [0, 1700000000] [0, 500000000])
        (some (intColumn NANOARROW_TYPE_INT64 none [0, 1700000000]))
        (some (intColumn NANOARROW_TYPE_INT32 none [0, 500000000])) 1 =
      PyReturn.object (PyObject.ContextCall "TIMESTAMP_NTZ_to_python"
        [PyObject.Long 1700000000, PyObject.Long 500000]) ∧
    ThreeFieldTimeStampTZConverter.toPyObject
        (sampleTimestampColumn (some [false, true]) [0, 1700000000] [0, 500000000])
        (some (intColumn NANOARROW_TYPE_INT64 none [0, 1700000000]))
        (some (intColumn NANOARROW_TYPE_INT32 none [0, 1440]))
        (some (intColumn NANOARROW_TYPE_INT32 none [0, 500000000])) 1 =
      PyReturn.object (PyObject.ContextCall "TIMESTAMP_TZ_to_python"
        [PyObject.Long 1700000000, PyObject.Long 500000, PyObject.Long 1440]) := by
  have h := multiField_seconds_microseconds
    (sampleTimestampColumn (some [false, true]) [0, 1700000000] [0, 500000000])
    (intColumn NANOARROW_TYPE_INT64 none [0, 1700000000])
    (intColumn NANOARROW_TYPE_INT32 none [0, 500000000])
    (intColumn NANOARROW_TYPE_INT32 none [0, 1440]) 1 rfl (by decide)
  exact ⟨rfl, h.1, h.2.2.1⟩

/-! ### Time of day -/

theorem powTenSB4_of_le (s : Nat) (hs : s ≤ 9) : internal.powTenSB4 (s : Int) = some ((10 : Int) ^ s) := by
  interval_cases s <;> decide

theorem timeOfDay_parts (v p : Int) (hv0 : 0 ≤ v) (hp : 0 < p) (hv1 : v < 86400 * p) :
    wrapInt32 (Int.tdiv (Int.tdiv v p) internal.SECONDS_PER_HOUR) = v / p / 3600 ∧
    wrapInt32 (Int.tdiv (Int.tmod (Int.tdiv v p) internal.SECONDS_PER_HOUR)
      internal.SECONDS_PER_MINUTE) = v / p % 3600 / 60 ∧
    wrapInt32 (Int.tmod (Int.tdiv v p) internal.SECONDS_PER_MINUTE) = v / p % 60 := by
  have hq0 : 0 ≤ v / p := Int.ediv_nonneg hv0 (Int.le_of_lt hp)
  have hq1 : v / p < 86400 := Int.ediv_lt_of_lt_mul hp hv1
  have e1 : internal.SECONDS_PER_HOUR = 3600 := by decide
  have e2 : internal.SECONDS_PER_MINUTE = 60 := by decide
  rw [e1, e2, Int.tdiv_eq_ediv hv0 (Int.le_of_lt hp)]
  generalize v / p = q at hq0 hq1
  rw [Int.tdiv_eq_ediv hq0 (by decide), Int.tmod_eq_emod hq0 (by decide),
    Int.tmod_eq_emod hq0 (by decide), Int.tdiv_eq_ediv (by omega) (by decide)]
  unfold wrapInt32
  omega

theorem microsecond_eq (s : Nat) (hs : s ≤ 9) (r : Int) (hr0 : 0 ≤ r) (hr1 : r < 10 ^ s) :
    (if (s : Int) > internal.PYTHON_DATETIME_TIME_MICROSEC_DIGIT then
      match internal.powTenSB4 ((s : Int) - internal.PYTHON_DATETIME_TIME_MICROSEC_DIGIT) with
      | some q => some (wrapInt32 (Int.tdiv (wrapInt32 r) q))
      | none => none
    else
      match internal.powTenSB4 (internal.PYTHON_DATETIME_TIME_MICROSEC_DIGIT - (s : Int)) with
      | some q => some (wrapInt32 (wrapInt32 r * q))
      | none => none) =
      some (if s ≤ 6 then r * 10 ^ (6 - s) else r / 10 ^ (s - 6)) ∧
    0 ≤ (if s ≤ 6 then r * 10 ^ (6 - s) else r / 10 ^ (s - 6)) ∧
    (if s ≤ 6 then r * 10 ^ (6 - s) else r / 10 ^ (s - 6)) < 10 ^ 6 := by
  have e6 : internal.PYTHON_DATETIME_TIME_MICROSEC_DIGIT = 6 := rfl
  have hw : wrapInt32 r = r := by
    have : (10 : Int) ^ s ≤ 10 ^ 9 := pow_le_pow_right₀ (by decide) hs
    unfold wrapInt32; omega
  rw [e6, hw]
  interval_cases s
  all_goals norm_num at hr1 ⊢
  all_goals
    first
    | rw [show internal.powTenSB4 0 = some 1 by decide]
    | rw [show internal.powTenSB4 1 = some 10 by decide]
    | rw [show internal.powTenSB4 2 = some 100 by decide]
    | rw [show internal.powTenSB4 3 = some 1000 by decide]
    | rw [show internal.powTenSB4 4 = some 10000 by decide]
    | rw [show internal.powTenSB4 5 = some 100000 by decide]
    | rw [show internal.powTenSB4 6 = some 1000000 by decide]
  all_goals simp only [Option.some.injEq]
  all_goals try rw [Int.tdiv_eq_ediv hr0 (by decide)]
  all_goals unfold wrapInt32
  all_goals omega

/-- C6. For every scale `s` in [0,9] and every value `v` with
`0 ≤ v < 86400·10^s`, the four time-of-day helpers return (no table subscript
is out of bounds) values `h`, `m`, `sec`, `us` with `0 ≤ h < 24`,
`0 ≤ m < 60`, `0 ≤ sec < 60`, `h·3600 + m·60 + sec = v div 10^s`, and
`us = (v mod 10^s)·10^(6-s)` when `s ≤ 6`, `us = (v mod 10^s) div 10^(s-6)`
when `s > 6`, with `0 ≤ us < 10^6`. -/
theorem timeOfDay_decomposition (s : Nat) (v : Int) (hs : s ≤ 9) (hv0 : 0 ≤ v) (hv1 : v < 86400 * 10 ^ s) :
    ∃ h m sec us,
      internal.getHourFromSeconds v s = some h ∧ internal.getMinuteFromSeconds v s = some m ∧
      internal.getSecondFromSeconds v s = some sec ∧ internal.getMicrosecondFromSeconds v s = some us ∧
      0 ≤ h ∧ h < 24 ∧ 0 ≤ m ∧ m < 60 ∧ 0 ≤ sec ∧ sec < 60 ∧
      h * 3600 + m * 60 + sec = v / 10 ^ s ∧
      us = (if s ≤ 6 then (v % 10 ^ s) * 10 ^ (6 - s) else (v % 10 ^ s) / 10 ^ (s - 6)) ∧
      0 ≤ us ∧ us < 10 ^ 6 := by
  have hp := powTenSB4_of_le s hs
  have hpos : (0 : Int) < 10 ^ s := by positivity
  obtain ⟨eh, em, es⟩ := timeOfDay_parts v (10 ^ s) hv0 hpos hv1
  have hq0 : 0 ≤ v / 10 ^ s := Int.ediv_nonneg hv0 (Int.le_of_lt hpos)
  have hq1 : v / 10 ^ s < 86400 := Int.ediv_lt_of_lt_mul hpos hv1
  have hr0 : 0 ≤ v % 10 ^ s := Int.emod_nonneg v (by omega)
  have hr1 : v % 10 ^ s < 10 ^ s := Int.emod_lt_of_pos v hpos
  refine ⟨v / 10 ^ s / 3600, v / 10 ^ s % 3600 / 60, v / 10 ^ s % 60,
    (if s ≤ 6 then (v % 10 ^ s) * 10 ^ (6 - s) else (v % 10 ^ s) / 10 ^ (s - 6)),
    ?_, ?_, ?_, ?_, by omega, by omega, by omega, by omega, by omega, by omega, by omega, rfl, ?_, ?_⟩
  · simp only [internal.getHourFromSeconds, hp, eh]
  · simp only [internal.getMinuteFromSeconds, hp, em]
  · simp only [internal.getSecondFromSeconds, hp, es]
  · simp only [internal.getMicrosecondFromSeconds, hp]
    rw [Int.tmod_eq_emod hv0 (Int.le_of_lt hpos)]
    exact (microsecond_eq s hs _ hr0 hr1).1
  · exact (microsecond_eq s hs _ hr0 hr1).2.1
  · exact (microsecond_eq s hs _ hr0 hr1).2.2

/-- An instance of `timeOfDay_decomposition`: scale 9 and the value
12:34:56.789123456 of the spec's example. -/
theorem timeOfDay_decomposition_witness :
    ((9 : Nat) ≤ 9 ∧ (0 : Int) ≤ 45296789123456 ∧ (45296789123456 : Int) < 86400 * 10 ^ 9) ∧
    ∃ h m sec us,
      internal.getHourFromSeconds 45296789123456 (9 : Nat) = some h ∧
      internal.getMinuteFromSeconds 45296789123456 (9 : Nat) = some m ∧
      internal.getSecondFromSeconds 45296789123456 (9 : Nat) = some sec ∧
      internal.getMicrosecondFromSeconds 45296789123456 (9 : Nat) = some us ∧
      0 ≤ h ∧ h < 24 ∧ 0 ≤ m ∧ m < 60 ∧ 0 ≤ sec ∧ sec < 60 ∧
      h * 3600 + m * 60 + sec = 45296789123456 / 10 ^ 9 ∧
      us = (if 9 ≤ 6 then (45296789123456 % 10 ^ 9) * 10 ^ (6 - 9)
            else (45296789123456 % 10 ^ 9) / 10 ^ (9 - 6)) ∧
      0 ≤ us ∧ us < 10 ^ 6 :=
  ⟨by decide, timeOfDay_decomposition 9 45296789123456 (by decide) (by decide) (by decide)⟩

/-- The spec's example evaluated: scale 9, value 45296789123456 decodes to
12:34:56 and 789123 microseconds. -/
theorem timeOfDay_example :
    internal.getHourFromSeconds 45296789123456 9 = some 12 ∧
    internal.getMinuteFromSeconds 45296789123456 9 = some 34 ∧
    internal.getSecondFromSeconds 45296789123456 9 = some 56 ∧
    internal.getMicrosecondFromSeconds 45296789123456 9 = some 789123 := by
  decide

/-! ### Logical type resolution -/

namespace SnowflakeType

theorem keys_nodup : (m_strEnumIndex.map Prod.fst).Nodup := by decide

theorem mapAt_eq_ok_iff (m : List (String × SnowflakeType)) (hnd : (m.map Prod.fst).Nodup)
    (key : String) (t : SnowflakeType) : mapAt m key = Except.ok t ↔ (key, t) ∈ m := by
  induction m with
  | nil => simp [mapAt]
  | cons kv rest ih =>
    obtain ⟨k, v⟩ := kv
    simp only [List.map_cons, List.nodup_cons] at hnd
    have ih1 := ih hnd.2
    by_cases hk : k = key
    · subst hk
      have hnot : ∀ t1, (k, t1) ∉ rest := fun t1 hm => hnd.1 (List.mem_map_of_mem Prod.fst hm)
      simp [mapAt, List.find?, hnot]
      constructor
      · intro h; exact h.symm
      · intro h; exact h.symm
    · have hne : (k == key) = false := by simpa using hk
      have hk1 : ¬ key = k := fun h => hk h.symm
      unfold mapAt at ih1 ⊢
      simp only [List.find?, hne, List.mem_cons, Prod.mk.injEq, hk1, false_and, false_or]
      exact ih1

theorem nameChars_upper : ∀ d ∈ nameChars, toupper d = d ∧ toupper (tolower d) = d := by decide

theorem tagNames_chars : ∀ nt ∈ tagNames, ∀ d ∈ nt.1.data, d ∈ nameChars := by decide

theorem tagNames_registered : ∀ nt ∈ tagNames, nt ∈ m_strEnumIndex := by decide

theorem map_toupper_of_caseVariant (cs ds : List Char) (hds : ∀ d ∈ ds, d ∈ nameChars)
    (h : List.Forall₂ (fun c d => c = d ∨ c = tolower d) cs ds) : cs.map toupper = ds := by
  induction h with
  | nil => rfl
  | @cons c d cs1 ds1 hcd _ ih =>
    have hd := nameChars_upper d (hds d (List.mem_cons_self _ _))
    have ih1 := ih (fun x hx => hds x (List.mem_cons_of_mem _ hx))
    rcases hcd with rfl | rfl
    · simp [hd.1, ih1]
    · simp [hd.2, ih1]


/-- C9. `snowflakeTypeFromString` is case-insensitive and closed: the map has
23 entries; a string resolves to tag `t` exactly when its upper-cased form is
registered with `t`; a string whose upper-cased form is not registered (the
empty string among them) throws `std::out_of_range`; and each of the 18 tag
names, written in any mix of upper and lower case, resolves to its own tag. -/
theorem snowflakeTypeFromString_closed :
    m_strEnumIndex.length = 23 ∧
    (∀ str t, snowflakeTypeFromString str = Except.ok t ↔
      (transformToUpper str, t) ∈ m_strEnumIndex) ∧
    (∀ str, (∀ t, (transformToUpper str, t) ∉ m_strEnumIndex) →
      snowflakeTypeFromString str = Except.error CppException.out_of_range) ∧
    (∀ str name tag, (name, tag) ∈ tagNames → CaseVariant str name →
      snowflakeTypeFromString str = Except.ok tag) ∧
    tagNames.length = 18 ∧
    snowflakeTypeFromString "" = Except.error CppException.out_of_range := by
  have hiff : ∀ str t, snowflakeTypeFromString str = Except.ok t ↔
      (transformToUpper str, t) ∈ m_strEnumIndex :=
    fun str t => mapAt_eq_ok_iff m_strEnumIndex keys_nodup (transformToUpper str) t
  refine ⟨rfl, hiff, ?_, ?_, rfl, rfl⟩
  · intro str hnot
    cases hres : snowflakeTypeFromString str with
    | ok t => exact absurd ((hiff str t).mp hres) (hnot t)
    | error e =>
      unfold snowflakeTypeFromString mapAt at hres
      split at hres
      · cases hres
      · cases hres; rfl
  · intro str name tag hmem hcv
    rw [hiff]
    have hup : transformToUpper str = name := by
      unfold transformToUpper
      rw [map_toupper_of_caseVariant str.data name.data (tagNames_chars (name, tag) hmem) hcv]
    rw [hup]
    exact tagNames_registered (name, tag) hmem

/-- An instance of `snowflakeTypeFromString_closed`: "timestamp_Ntz" resolves
to TIMESTAMP_NTZ, "Varchar" to TEXT, and "integer" is not registered. -/
theorem snowflakeTypeFromString_closed_witness :
    CaseVariant "timeStamp_Ntz" "TIMESTAMP_NTZ" ∧
    snowflakeTypeFromString "timeStamp_Ntz" = Except.ok TIMESTAMP_NTZ ∧
    snowflakeTypeFromString "Varchar" = Except.ok TEXT ∧
    (∀ t, (transformToUpper "integer", t) ∉ m_strEnumIndex) ∧
    snowflakeTypeFromString "integer" = Except.error CppException.out_of_range := by
  have hcv : CaseVariant "timeStamp_Ntz" "TIMESTAMP_NTZ" := by
    unfold CaseVariant
    decide
  have hnot : ∀ t, (transformToUpper "integer", t) ∉ m_strEnumIndex := by
    intro t
    cases t <;> decide
  exact ⟨hcv,
    snowflakeTypeFromString_closed.2.2.2.1 "timeStamp_Ntz" "TIMESTAMP_NTZ" TIMESTAMP_NTZ
      (by decide) hcv,
    (snowflakeTypeFromString_closed.2.1 "Varchar" TEXT).mpr (by decide),
    hnot, snowflakeTypeFromString_closed.2.2.1 "integer" hnot⟩

end SnowflakeType

/-! ### Dispatch of FIXED columns -/

theorem getConverterFromSchema_FIXED (schema : ArrowSchema) (array : ArrowArrayView)
    (useNumpy : Bool)
    (hlog : SnowflakeType.snowflakeTypeFromString
      (stringOfView (ArrowMetadataGetValue schema.metadata "logicalType")) =
        Except.ok SnowflakeType.FIXED) :
    getConverterFromSchema schema array useNumpy = fixedCase schema array useNumpy := by
  obtain ⟨name, type, metadata, children⟩ := schema
  simp only at hlog
  rw [getConverterFromSchema]
  simp only [hlog]

/-- C8. For a FIXED column with scale 0 stored as int8, int16, int32 or int64,
numpy mode off: `getConverterFromSchema` builds the `IntConverter` on the
column, and for every row index that converter returns `None` when the row is
null and otherwise the Python integer equal to the element stored at that row
(`data[offset + row]`, any value of the storage type up to the full signed
64-bit range). -/
theorem IntConverter_exact (schema : ArrowSchema) (array : ArrowArrayView) (rowIndex : Nat)
    (precision : Int)
    (hlog : SnowflakeType.snowflakeTypeFromString
      (stringOfView (ArrowMetadataGetValue schema.metadata "logicalType")) =
        Except.ok SnowflakeType.FIXED)
    (hparams : fixedScalePrecision schema.metadata = Except.ok (0, precision))
    (htype : schema.type = NANOARROW_TYPE_INT8 ∨ schema.type = NANOARROW_TYPE_INT16 ∨
      schema.type = NANOARROW_TYPE_INT32 ∨ schema.type = NANOARROW_TYPE_INT64)
    (hstorage : array.storage_type = schema.type) :
    getConverterFromSchema schema array false =
        Built.returned (some (Converter.IntConverter array)) none ∧
      IntConverter.toPyObject array rowIndex =
        (if ArrowArrayViewIsNull array rowIndex then PyReturn.object PyObject.None
         else PyReturn.object (PyObject.Long (array.data.getD (array.offset + rowIndex) 0))) := by
  constructor
  · rw [getConverterFromSchema_FIXED schema array false hlog]
    unfold fixedCase
    rw [hparams]
    rcases htype with h | h | h | h <;> simp [h, SF_INIT_FIXED_CONVERTER]
  · unfold IntConverter.toPyObject ArrowArrayViewGetIntUnsafe
    rw [hstorage]
    rcases htype with h | h | h | h <;> simp [h]

/-- An instance of `IntConverter_exact`: an int64 column tagged "fixed" with
scale "0", holding the smallest and the largest 64-bit values and a null. -/
theorem IntConverter_exact_witness :
    getConverterFromSchema (sampleSchema NANOARROW_TYPE_INT64 "fixed" "38" "0")
        (intColumn NANOARROW_TYPE_INT64 (some [true, true, false])
          [-9223372036854775808, 9223372036854775807, 0]) false =
      Built.returned (some (Converter.IntConverter
        (intColumn NANOARROW_TYPE_INT64 (some [true, true, false])
          [-9223372036854775808, 9223372036854775807, 0]))) none ∧
    IntConverter.toPyObject
        (intColumn NANOARROW_TYPE_INT64 (some [true, true, false])
          [-9223372036854775808, 9223372036854775807, 0]) 0 =
      PyReturn.object (PyObject.Long (-9223372036854775808)) ∧
    IntConverter.toPyObject
        (intColumn NANOARROW_TYPE_INT64 (some [true, true, false])
          [-9223372036854775808, 9223372036854775807, 0]) 2 =
      PyReturn.object PyObject.None := by
  have h0 := IntConverter_exact (sampleSchema NANOARROW_TYPE_INT64 "fixed" "38" "0")
    (intColumn NANOARROW_TYPE_INT64 (some [true, true, false])
      [-9223372036854775808, 9223372036854775807, 0]) 0 38 rfl rfl (Or.inr (Or.inr (Or.inr rfl))) rfl
  have h2 := IntConverter_exact (sampleSchema NANOARROW_TYPE_INT64 "fixed" "38" "0")
    (intColumn NANOARROW_TYPE_INT64 (some [true, true, false])
      [-9223372036854775808, 9223372036854775807, 0]) 2 38 rfl rfl (Or.inr (Or.inr (Or.inr rfl))) rfl
  exact ⟨h0.1, h0.2, h2.2⟩

/-- C10, as stated, fails: a FIXED column with scale 0 stored as decimal128
(numpy mode off) gets the decimal-from-bytes converter, not the integer
converter. -/
theorem fixed_scale0_decimal128_counterexample :
    getConverterFromSchema (sampleSchema NANOARROW_TYPE_DECIMAL128 "FIXED" "38" "0")
        (sampleDecimalColumn [1, 0, 0, 0, 0, 0, 0, 0, 0, 0, 0, 0, 0, 0, 0, 0]) false =
      Built.returned (some (Converter.DecimalFromDecimalConverter
        (sampleDecimalColumn [1, 0, 0, 0, 0, 0, 0, 0, 0, 0, 0, 0, 0, 0, 0, 0]) 0)) none ∧
    getConverterFromSchema (sampleSchema NANOARROW_TYPE_DECIMAL128 "FIXED" "38" "0")
        (sampleDecimalColumn [1, 0, 0, 0, 0, 0, 0, 0, 0, 0, 0, 0, 0, 0, 0, 0]) false ≠
      Built.returned (some (Converter.IntConverter
        (sampleDecimalColumn [1, 0, 0, 0, 0, 0, 0, 0, 0, 0, 0, 0, 0, 0, 0, 0]))) none := by
  have h : getConverterFromSchema (sampleSchema NANOARROW_TYPE_DECIMAL128 "FIXED" "38" "0")
        (sampleDecimalColumn [1, 0, 0, 0, 0, 0, 0, 0, 0, 0, 0, 0, 0, 0, 0, 0]) false =
      Built.returned (some (Converter.DecimalFromDecimalConverter
        (sampleDecimalColumn [1, 0, 0, 0, 0, 0, 0, 0, 0, 0, 0, 0, 0, 0, 0, 0]) 0)) none := rfl
  refine ⟨h, ?_⟩
  rw [h]
  intro hcontra
  cases hcontra

/-- C10, amended. For a FIXED column, numpy mode off, with metadata scale
`scale` and precision `precision`: decimal128 storage selects the
decimal-from-bytes converter whatever the scale is (also for scale 0);
int8/int16/int32/int64 storage selects the decimal-from-scaled-integer
converter when scale > 0 and the integer converter when scale ≤ 0. -/
theorem fixed_dispatch (schema : ArrowSchema) (array : ArrowArrayView) (scale precision : Int)
    (hlog : SnowflakeType.snowflakeTypeFromString
      (stringOfView (ArrowMetadataGetValue schema.metadata "logicalType")) =
        Except.ok SnowflakeType.FIXED)
    (hparams : fixedScalePrecision schema.metadata = Except.ok (scale, precision)) :
    (schema.type = NANOARROW_TYPE_DECIMAL128 →
      getConverterFromSchema schema array false =
        Built.returned (some (Converter.DecimalFromDecimalConverter array scale)) none) ∧
    ((schema.type = NANOARROW_TYPE_INT8 ∨ schema.type = NANOARROW_TYPE_INT16 ∨
        schema.type = NANOARROW_TYPE_INT32 ∨ schema.type = NANOARROW_TYPE_INT64) →
      (scale > 0 →
        getConverterFromSchema schema array false =
          Built.returned (some (Converter.DecimalFromIntConverter array precision scale)) none) ∧
      (scale ≤ 0 →
        getConverterFromSchema schema array false =
          Built.returned (some (Converter.IntConverter array)) none)) := by
  rw [getConverterFromSchema_FIXED schema array false hlog]
  unfold fixedCase
  rw [hparams]
  refine ⟨fun h => by simp [h], fun htype => ⟨fun hpos => ?_, fun hle => ?_⟩⟩
  · rcases htype with h | h | h | h <;> simp [h, SF_INIT_FIXED_CONVERTER, hpos]
  · have hnp : ¬ scale > 0 := by omega
    rcases htype with h | h | h | h <;> simp [h, SF_INIT_FIXED_CONVERTER, hnp]

/-- An instance of `fixed_dispatch`: scale "2" over int32 storage selects the
decimal-from-scaled-integer converter, scale "0" the integer converter. -/
theorem fixed_dispatch_witness :
    getConverterFromSchema (sampleSchema NANOARROW_TYPE_INT32 "FIXED" "10" "2")
        (intColumn NANOARROW_TYPE_INT32 none [12345]) false =
      Built.returned (some (Converter.DecimalFromIntConverter
        (intColumn NANOARROW_TYPE_INT32 none [12345]) 10 2)) none ∧
    getConverterFromSchema (sampleSchema NANOARROW_TYPE_INT32 "FIXED" "10" "0")
        (intColumn NANOARROW_TYPE_INT32 none [12345]) false =
      Built.returned (some (Converter.IntConverter
        (intColumn NANOARROW_TYPE_INT32 none [12345]))) none ∧
    getConverterFromSchema (sampleSchema NANOARROW_TYPE_DECIMAL128 "FIXED" "38" "2")
        (sampleDecimalColumn [1, 0, 0, 0, 0, 0, 0, 0, 0, 0, 0, 0, 0, 0, 0, 0]) false =
      Built.returned (some (Converter.DecimalFromDecimalConverter
        (sampleDecimalColumn [1, 0, 0, 0, 0, 0, 0, 0, 0, 0, 0, 0, 0, 0, 0, 0]) 2)) none :=
  ⟨((fixed_dispatch (sampleSchema NANOARROW_TYPE_INT32 "FIXED" "10" "2")
        (intColumn NANOARROW_TYPE_INT32 none [12345]) 2 10 rfl rfl).2
        (Or.inr (Or.inr (Or.inl rfl)))).1 (by decide),
    ((fixed_dispatch (sampleSchema NANOARROW_TYPE_INT32 "FIXED" "10" "0")
        (intColumn NANOARROW_TYPE_INT32 none [12345]) 0 10 rfl rfl).2
        (Or.inr (Or.inr (Or.inl rfl)))).2 (by decide),
    (fixed_dispatch (sampleSchema NANOARROW_TYPE_DECIMAL128 "FIXED" "38" "2")
        (sampleDecimalColumn [1, 0, 0, 0, 0, 0, 0, 0, 0, 0, 0, 0, 0, 0, 0, 0]) 2 38 rfl rfl).1 rfl⟩

/-! ### Dates -/

theorem is_leap_iff (y : Nat) : is_leap y = true ↔ (y % 4 = 0 ∧ (y % 100 ≠ 0 ∨ y % 400 = 0)) := by
  simp [is_leap]

theorem ord2ymd_regular (n a b c e k : Nat)
    (hn : n = 146097 * a + 36524 * b + 1461 * c + 365 * e + k + 1)
    (hb : b ≤ 3) (hc : c ≤ 24) (he : e ≤ 3) (hk : k ≤ 364) :
    ord2ymd n = (400 * a + 100 * b + 4 * c + e + 1,
      monthDayOfYearDay (decide (e = 3) && (decide (c ≠ 24) || decide (b = 3))) k) := by
  have h1 : (n - 1) / 146097 = a := by omega
  have h2 : (n - 1) % 146097 = 36524 * b + 1461 * c + 365 * e + k := by omega
  have h3 : (36524 * b + 1461 * c + 365 * e + k) / 36524 = b := by omega
  have h4 : (36524 * b + 1461 * c + 365 * e + k) % 36524 = 1461 * c + 365 * e + k := by omega
  have h5 : (1461 * c + 365 * e + k) / 1461 = c := by omega
  have h6 : (1461 * c + 365 * e + k) % 1461 = 365 * e + k := by omega
  have h7 : (365 * e + k) / 365 = e := by omega
  have h8 : (365 * e + k) % 365 = k := by omega
  have h9 : ¬ (e = 4 ∨ b = 4) := by omega
  have h10 : a * 400 + 1 + b * 100 + c * 4 + e = 400 * a + 100 * b + 4 * c + e + 1 := by omega
  simp only [ord2ymd, h1, h2, h3, h4, h5, h6, h7, h8, h9, if_false, h10, monthDayOfYearDay]
  split_ifs <;> rfl

theorem ord2ymd_last (n a b c : Nat)
    (hn : n = 146097 * a + 36524 * b + 1461 * c + 365 * 3 + 365 + 1)
    (hb : b ≤ 3) (hc : c ≤ 24) (hleap : c ≠ 24 ∨ b = 3) :
    ord2ymd n = (400 * a + 100 * b + 4 * c + 3 + 1, 12, 31) := by
  have h1 : (n - 1) / 146097 = a := by omega
  have h2 : (n - 1) % 146097 = 36524 * b + 1461 * c + 1460 := by omega
  by_cases hq : c = 24
  · have hb3 : b = 3 := by
      rcases hleap with h | h
      · exact absurd hq h
      · exact h
    clear hleap
    have h3 : (36524 * b + 1461 * c + 1460) / 36524 = 4 := by omega
    have h4 : (36524 * b + 1461 * c + 1460) % 36524 = 0 := by omega
    have h5 : a * 400 + 1 + 4 * 100 + 0 / 1461 * 4 + 0 % 1461 / 365 - 1 =
        400 * a + 100 * b + 4 * c + 3 + 1 := by omega
    unfold ord2ymd
    simp only []
    rw [h1, h2, h3, h4, if_pos (Or.inr rfl), h5]
  · clear hleap
    have h3 : (36524 * b + 1461 * c + 1460) / 36524 = b := by omega
    have h4 : (36524 * b + 1461 * c + 1460) % 36524 = 1461 * c + 1460 := by omega
    have h5 : (1461 * c + 1460) / 1461 = c := by omega
    have h6 : (1461 * c + 1460) % 1461 = 1460 := by omega
    have h7 : 1460 / 365 = 4 := by omega
    have h8 : a * 400 + 1 + b * 100 + c * 4 + 4 - 1 = 400 * a + 100 * b + 4 * c + 3 + 1 := by omega
    unfold ord2ymd
    simp only []
    rw [h1, h2, h3, h4, h5, h6, h7, if_pos (Or.inl rfl), h8]

theorem days_before_month_eq (y m : Nat) : days_before_month y m = daysBeforeMonthOf (is_leap y) m :=
  rfl

theorem days_in_month_eq (y m : Nat) : days_in_month y m = daysInMonthOf (is_leap y) m := by
  unfold days_in_month daysInMonthOf
  rfl

set_option maxRecDepth 100000 in
theorem monthDay_of_date : ∀ leap : Bool, ∀ m < 13, ∀ d < 32,
    (1 ≤ m ∧ 1 ≤ d ∧ d ≤ daysInMonthOf leap m) →
      monthDayOfYearDay leap (daysBeforeMonthOf leap m + d - 1) = (m, d) := by
  intro leap
  cases leap <;> decide

set_option maxRecDepth 100000 in
theorem date_of_monthDay : ∀ leap : Bool, ∀ k < 366, (k < 365 ∨ leap = true) →
    1 ≤ (monthDayOfYearDay leap k).1 ∧ (monthDayOfYearDay leap k).1 ≤ 12 ∧
    1 ≤ (monthDayOfYearDay leap k).2 ∧
    (monthDayOfYearDay leap k).2 ≤ daysInMonthOf leap (monthDayOfYearDay leap k).1 ∧
    daysBeforeMonthOf leap (monthDayOfYearDay leap k).1 + (monthDayOfYearDay leap k).2 = k + 1 := by
  intro leap
  cases leap <;> decide

theorem daysInMonthOf_le : ∀ leap : Bool, ∀ m < 13, daysInMonthOf leap m ≤ 31 := by
  intro leap
  cases leap <;> decide

theorem yearDay_le : ∀ leap : Bool, ∀ m < 13, ∀ d < 32,
    (1 ≤ m ∧ 1 ≤ d ∧ d ≤ daysInMonthOf leap m) →
      (daysBeforeMonthOf leap m + d - 1 ≤ 364 ∨
        (leap = true ∧ m = 12 ∧ d = 31 ∧ daysBeforeMonthOf leap m + d - 1 = 365)) := by
  intro leap
  cases leap <;> decide

theorem year_parts (a b c e : Nat) (hb : b ≤ 3) (hc : c ≤ 24) (he : e ≤ 3) :
    days_before_year (400 * a + 100 * b + 4 * c + e + 1) =
        146097 * a + 36524 * b + 1461 * c + 365 * e ∧
      is_leap (400 * a + 100 * b + 4 * c + e + 1) =
        (decide (e = 3) && (decide (c ≠ 24) || decide (b = 3))) := by
  constructor
  · unfold days_before_year
    simp only [Nat.add_sub_cancel]
    omega
  · rw [Bool.eq_iff_iff, is_leap_iff]
    simp only [Bool.and_eq_true, Bool.or_eq_true, decide_eq_true_eq]
    omega

theorem ord2ymd_ymd2ord (y m d : Nat) (h : ValidDate y m d) :
    ord2ymd (ymd2ord y m d) = (y, m, d) := by
  obtain ⟨hy1, _, hm1, hm2, hd1, hd2⟩ := h
  rw [days_in_month_eq] at hd2
  have hm13 : m < 13 := by omega
  have hd32 : d < 32 := by
    have := daysInMonthOf_le (is_leap y) m hm13
    omega
  obtain ⟨a, b, c, e, hb, hc, he, hy⟩ :
      ∃ a b c e, b ≤ 3 ∧ c ≤ 24 ∧ e ≤ 3 ∧ y = 400 * a + 100 * b + 4 * c + e + 1 :=
    ⟨(y - 1) / 400, (y - 1) % 400 / 100, (y - 1) % 100 / 4, (y - 1) % 4, by omega, by omega,
      by omega, by omega⟩
  obtain ⟨hdby, hleap⟩ := year_parts a b c e hb hc he
  rw [← hy] at hdby hleap
  have hmd := monthDay_of_date (is_leap y) m hm13 d hd32 ⟨hm1, hd1, hd2⟩
  unfold ymd2ord
  rw [days_before_month_eq, hdby]
  rcases yearDay_le (is_leap y) m hm13 d hd32 ⟨hm1, hd1, hd2⟩ with hk | ⟨hl, hm12, hd31, hk⟩
  · rw [ord2ymd_regular _ a b c e (daysBeforeMonthOf (is_leap y) m + d - 1) (by omega) hb hc he hk,
      ← hleap, hmd, ← hy]
  · rw [hleap] at hl
    simp only [Bool.and_eq_true, Bool.or_eq_true, decide_eq_true_eq] at hl
    obtain ⟨he3, hcb⟩ := hl
    subst he3
    rw [ord2ymd_last _ a b c (by omega) hb hc hcb, ← hy, hm12, hd31]

theorem ordinal_parts (n : Nat) (h1 : 1 ≤ n) :
    (∃ a b c e k, b ≤ 3 ∧ c ≤ 24 ∧ e ≤ 3 ∧ k ≤ 364 ∧
        n = 146097 * a + 36524 * b + 1461 * c + 365 * e + k + 1) ∨
      (∃ a b c, b ≤ 3 ∧ c ≤ 24 ∧ (c ≠ 24 ∨ b = 3) ∧
        n = 146097 * a + 36524 * b + 1461 * c + 365 * 3 + 365 + 1) := by
  by_cases hr : (n - 1) % 146097 = 146096
  · exact Or.inr ⟨(n - 1) / 146097, 3, 24, by omega, by omega, Or.inr rfl, by omega⟩
  · by_cases hr3 : (n - 1) % 146097 % 36524 % 1461 = 1460
    · refine Or.inr ⟨(n - 1) / 146097, (n - 1) % 146097 / 36524,
        (n - 1) % 146097 % 36524 / 1461, by omega, by omega, Or.inl (by omega), by omega⟩
    · exact Or.inl ⟨(n - 1) / 146097, (n - 1) % 146097 / 36524,
        (n - 1) % 146097 % 36524 / 1461, (n - 1) % 146097 % 36524 % 1461 / 365,
        (n - 1) % 146097 % 36524 % 1461 % 365, by omega, by omega, by omega, by omega, by omega⟩

theorem ymd2ord_ord2ymd (n : Nat) (h1 : 1 ≤ n) (h2 : n ≤ 3652059) :
    ValidDate (ord2ymd n).1 (ord2ymd n).2.1 (ord2ymd n).2.2 ∧
      ymd2ord (ord2ymd n).1 (ord2ymd n).2.1 (ord2ymd n).2.2 = n := by
  rcases ordinal_parts n h1 with ⟨a, b, c, e, k, hb, hc, he, hk, hn⟩ | ⟨a, b, c, hb, hc, hcb, hn⟩
  · obtain ⟨hdby, hleap⟩ := year_parts a b c e hb hc he
    rw [ord2ymd_regular n a b c e k hn hb hc he hk, ← hleap]
    obtain ⟨hm1, hm2, hd1, hd2, hsum⟩ :=
      date_of_monthDay (is_leap (400 * a + 100 * b + 4 * c + e + 1)) k (by omega)
        (Or.inl (by omega))
    dsimp only
    refine ⟨⟨by omega, by omega, hm1, hm2, hd1, ?_⟩, ?_⟩
    · rw [days_in_month_eq]; exact hd2
    · unfold ymd2ord
      rw [days_before_month_eq, hdby]
      omega
  · obtain ⟨hdby, hleap⟩ := year_parts a b c 3 hb hc (by omega)
    have hflag : is_leap (400 * a + 100 * b + 4 * c + 3 + 1) = true := by
      rw [hleap]
      rcases hcb with h | h
      · simp [h]
      · simp [h]
    rw [ord2ymd_last n a b c hn hb hc hcb]
    dsimp only
    clear hcb
    refine ⟨⟨by omega, by omega, by omega, by omega, by omega, ?_⟩, ?_⟩
    · rw [days_in_month_eq, hflag]; decide
    · unfold ymd2ord
      rw [days_before_month_eq, hdby, hflag]
      have : daysBeforeMonthOf true 12 = 335 := by decide
      rw [this]
      omega

theorem ymd2ord_bounds (y m d : Nat) (h : ValidDate y m d) :
    1 ≤ ymd2ord y m d ∧ ymd2ord y m d ≤ 3652059 := by
  obtain ⟨hy1, hy2, hm1, hm2, hd1, hd2⟩ := h
  rw [days_in_month_eq] at hd2
  have hm13 : m < 13 := by omega
  have hd32 : d < 32 := by
    have := daysInMonthOf_le (is_leap y) m hm13
    omega
  obtain ⟨a, b, c, e, hb, hc, he, hy⟩ :
      ∃ a b c e, b ≤ 3 ∧ c ≤ 24 ∧ e ≤ 3 ∧ y = 400 * a + 100 * b + 4 * c + e + 1 :=
    ⟨(y - 1) / 400, (y - 1) % 400 / 100, (y - 1) % 100 / 4, (y - 1) % 4, by omega, by omega,
      by omega, by omega⟩
  obtain ⟨hdby, hleap⟩ := year_parts a b c e hb hc he
  rw [← hy] at hdby hleap
  unfold ymd2ord
  rw [days_before_month_eq, hdby]
  rcases yearDay_le (is_leap y) m hm13 d hd32 ⟨hm1, hd1, hd2⟩ with hk | ⟨hl, _, _, hk⟩
  · omega
  · rw [hleap] at hl
    simp only [Bool.and_eq_true, Bool.or_eq_true, decide_eq_true_eq] at hl
    obtain ⟨he3, _⟩ := hl
    omega

/-- C7. `DateConverter` decodes a non-null day delta `d` (with `719163 + d`
an ordinal of the host calendar, 1 to 3652059) to a calendar date of the years
1 to 9999 whose proleptic-Gregorian ordinal is `719163 + d`; delta 0 decodes to
1970-01-01; and for every date D from 0001-01-01 to 9999-12-31, decoding the
delta `ordinal(D) - 719163` gives back D. -/
theorem DateConverter_roundtrip :
    (∀ (m_array : ArrowArrayView) (rowIndex : Nat) (d : Int),
      ArrowArrayViewIsNull m_array rowIndex = false →
      ArrowArrayViewGetIntUnsafe m_array rowIndex = d →
      1 ≤ DateConverter.epochDay + d → DateConverter.epochDay + d ≤ 3652059 →
      ∃ y m dd, DateConverter.toPyObject m_array rowIndex =
          PyReturn.object (PyObject.Date y m dd) ∧
        ValidDate y m dd ∧ (ymd2ord y m dd : Int) = 719163 + d) ∧
    (∀ (m_array : ArrowArrayView) (rowIndex : Nat),
      ArrowArrayViewIsNull m_array rowIndex = false →
      ArrowArrayViewGetIntUnsafe m_array rowIndex = 0 →
      DateConverter.toPyObject m_array rowIndex = PyReturn.object (PyObject.Date 1970 1 1)) ∧
    (∀ (y m dd : Nat), ValidDate y m dd →
      ∀ (m_array : ArrowArrayView) (rowIndex : Nat),
        ArrowArrayViewIsNull m_array rowIndex = false →
        ArrowArrayViewGetIntUnsafe m_array rowIndex = (ymd2ord y m dd : Int) - 719163 →
        DateConverter.toPyObject m_array rowIndex = PyReturn.object (PyObject.Date y m dd)) := by
  have key : ∀ (m_array : ArrowArrayView) (rowIndex : Nat) (n : Nat),
      ArrowArrayViewIsNull m_array rowIndex = false →
      ArrowArrayViewGetIntUnsafe m_array rowIndex = (n : Int) - 719163 →
      1 ≤ n → n ≤ 3652059 →
      DateConverter.toPyObject m_array rowIndex =
        PyReturn.object (PyObject.Date (ord2ymd n).1 (ord2ymd n).2.1 (ord2ymd n).2.2) := by
    intro m_array rowIndex n hnn hval h1 h2
    have hsum : DateConverter.epochDay + ((n : Int) - 719163) = (n : Int) := by
      unfold DateConverter.epochDay; omega
    have hw64 : wrapInt64 (n : Int) = n := by unfold wrapInt64; omega
    have hw32 : wrapInt32 (n : Int) = n := by unfold wrapInt32; omega
    have hrange : (1 : Int) ≤ (n : Int) ∧ (n : Int) ≤ MAX_ORDINAL := by
      unfold MAX_ORDINAL; omega
    unfold DateConverter.toPyObject pyDateFromOrdinal
    rw [hnn, hval]
    simp only [Bool.false_eq_true, if_false, hsum, hw64, hw32, hrange, and_self, if_true,
      Int.toNat_ofNat]
  refine ⟨?_, ?_, ?_⟩
  · intro m_array rowIndex d hnn hval h1 h2
    unfold DateConverter.epochDay at h1 h2
    obtain ⟨n, hn⟩ : ∃ n : Nat, (n : Int) = 719163 + d := ⟨(719163 + d).toNat, by omega⟩
    have hv := ymd2ord_ord2ymd n (by omega) (by omega)
    refine ⟨_, _, _, key m_array rowIndex n hnn (by omega) (by omega) (by omega), hv.1, ?_⟩
    rw [hv.2, hn]
  · intro m_array rowIndex hnn hval
    have h := key m_array rowIndex 719163 hnn (by simpa using hval) (by decide) (by decide)
    rw [h]
    rfl
  · intro y m dd hvalid m_array rowIndex hnn hval
    obtain ⟨hb1, hb2⟩ := ymd2ord_bounds y m dd hvalid
    rw [key m_array rowIndex (ymd2ord y m dd) hnn hval hb1 hb2, ord2ymd_ymd2ord y m dd hvalid]

/-- An instance of `DateConverter_roundtrip`: a date32 column holding the
deltas of 1970-01-01, 0001-01-01, 9999-12-31 and 2024-02-29. -/
theorem DateConverter_roundtrip_witness :
    DateConverter.toPyObject
        (intColumn NANOARROW_TYPE_INT32 none [0, -719162, 2932896, 19782]) 0 =
      PyReturn.object (PyObject.Date 1970 1 1) ∧
    ValidDate 9999 12 31 ∧
    DateConverter.toPyObject
        (intColumn NANOARROW_TYPE_INT32 none [0, -719162, 2932896, 19782]) 2 =
      PyReturn.object (PyObject.Date 9999 12 31) ∧
    DateConverter.toPyObject
        (intColumn NANOARROW_TYPE_INT32 none [0, -719162, 2932896, 19782]) 1 =
      PyReturn.object (PyObject.Date 1 1 1) ∧
    DateConverter.toPyObject
        (intColumn NANOARROW_TYPE_INT32 none [0, -719162, 2932896, 19782]) 3 =
      PyReturn.object (PyObject.Date 2024 2 29) := by
  have hv1 : ValidDate 9999 12 31 := by unfold ValidDate; decide
  have hv2 : ValidDate 1 1 1 := by unfold ValidDate; decide
  have hv3 : ValidDate 2024 2 29 := by unfold ValidDate; decide
  exact ⟨DateConverter_roundtrip.2.1 _ 0 rfl rfl, hv1,
    DateConverter_roundtrip.2.2 9999 12 31 hv1 _ 2 rfl rfl,
    DateConverter_roundtrip.2.2 1 1 1 hv2 _ 1 rfl rfl,
    DateConverter_roundtrip.2.2 2024 2 29 hv3 _ 3 rfl rfl⟩

/-! ### Dispatch of the timestamp columns -/

theorem getConverterFromSchema_eq (schema : ArrowSchema) (array : ArrowArrayView)
    (useNumpy : Bool) (st : SnowflakeType) (hlog : logicalTypeOf schema = Except.ok st) :
    getConverterFromSchema schema array useNumpy =
      match st with
      | SnowflakeType.FIXED => fixedCase schema array useNumpy
      | SnowflakeType.ANY => Built.returned (some (Converter.StringConverter array)) none
      | SnowflakeType.CHAR => Built.returned (some (Converter.StringConverter array)) none
      | SnowflakeType.TEXT => Built.returned (some (Converter.StringConverter array)) none
      | SnowflakeType.VARIANT => Built.returned (some (Converter.StringConverter array)) none
      | SnowflakeType.BOOLEAN => Built.returned (some (Converter.BooleanConverter array)) none
      | SnowflakeType.REAL =>
        if useNumpy then Built.returned (some (Converter.NumpyFloat64Converter array)) none
        else Built.returned (some (Converter.FloatConverter array)) none
      | SnowflakeType.DATE =>
        if useNumpy then Built.returned (some (Converter.NumpyDateConverter array)) none
        else Built.returned (some (Converter.DateConverter array)) none
      | SnowflakeType.BINARY => Built.returned (some (Converter.BinaryConverter array)) none
      | SnowflakeType.TIME => timeCase schema array
      | SnowflakeType.TIMESTAMP_NTZ => timestampNTZCase schema array useNumpy
      | SnowflakeType.TIMESTAMP_LTZ => timestampLTZCase schema array
      | SnowflakeType.TIMESTAMP_TZ => timestampTZCase schema array
      | SnowflakeType.ARRAY =>
        if schema.type = NANOARROW_TYPE_STRING then
          Built.returned (some (Converter.StringConverter array)) none
        else if schema.type = NANOARROW_TYPE_LIST then
          ArrayConverter.ctor schema.children array useNumpy
        else
          Built.returned none
            (some "[Snowflake Exception] unknown arrow internal data type(%d) for ARRAY data in %s")
      | SnowflakeType.MAP => MapConverter.ctor schema.children array useNumpy
      | SnowflakeType.OBJECT =>
        if schema.type = NANOARROW_TYPE_STRING then
          Built.returned (some (Converter.StringConverter array)) none
        else if schema.type = NANOARROW_TYPE_STRUCT then
          (ObjectConverter.ctorLoop schema.children array 0 useNumpy).andThenList
            (fun m_converters err =>
              Built.returned
                (some (Converter.ObjectConverter array (schema.children.map (fun c => c.name))
                  m_converters)) err)
        else
          Built.returned none
            (some "[Snowflake Exception] unknown arrow internal data type(%d) for OBJECT data in %s")
      | SnowflakeType.VECTOR => Built.returned (some (Converter.FixedSizeListConverter array)) none
      | SnowflakeType.TIMESTAMP =>
        Built.returned none (some "[Snowflake Exception] unknown snowflake data type : %d") := by
  obtain ⟨name, type, metadata, children⟩ := schema
  unfold logicalTypeOf at hlog
  simp only at hlog
  rw [getConverterFromSchema]
  cases st <;> simp only [hlog]

theorem bindEpochFraction_pair (c0 c1 : ArrowSchema) (a0 a1 : ArrowArrayView)
    (h0 : c0.name = "epoch") (h1 : c1.name = "fraction") :
    bindEpochFraction [c0, c1] [a0, a1] (none, none) = (some a0, some a1) := by
  simp [bindEpochFraction, h0, h1, internal.FIELD_NAME_EPOCH, internal.FIELD_NAME_FRACTION]

theorem bindEpochTimezone_pair (c0 c1 : ArrowSchema) (a0 a1 : ArrowArrayView)
    (h0 : c0.name = "epoch") (h1 : c1.name = "timezone") :
    bindEpochTimezone [c0, c1] [a0, a1] (none, none) = (some a0, some a1) := by
  simp [bindEpochTimezone, h0, h1, internal.FIELD_NAME_EPOCH, internal.FIELD_NAME_TIME_ZONE]

theorem bindEpochTimezoneFraction_triple (c0 c1 c2 : ArrowSchema) (a0 a1 a2 : ArrowArrayView)
    (h0 : c0.name = "epoch") (h1 : c1.name = "timezone") (h2 : c2.name = "fraction") :
    bindEpochTimezoneFraction [c0, c1, c2] [a0, a1, a2] (none, none, none) =
      (some a0, some a1, some a2) := by
  simp [bindEpochTimezoneFraction, h0, h1, h2, internal.FIELD_NAME_EPOCH,
    internal.FIELD_NAME_TIME_ZONE, internal.FIELD_NAME_FRACTION]

/-- C11. `getConverterFromSchema` on a timestamp column whose scale entry
parses to `scale`.  TIMESTAMP_NTZ and TIMESTAMP_LTZ: int64 storage selects the
one-field converter, struct storage the two-field converter whose members are
the children bound by the names "epoch" and "fraction" (with numpy mode on,
TIMESTAMP_NTZ selects the numpy classes of the same two shapes).
TIMESTAMP_TZ: byteLength 8 selects the two-field converter over "epoch" and
"timezone", byteLength 16 the three-field converter over "epoch", "timezone"
and "fraction"; metadata holding a scale entry but no byteLength entry gives
byteLength 16.  A struct holding exactly the named children, in this order,
binds each member to the child of that name and records no error. -/
theorem timestamp_dispatch (schema : ArrowSchema) (array : ArrowArrayView) (useNumpy : Bool)
    (scale : Int) :
    (logicalTypeOf schema = Except.ok SnowflakeType.TIMESTAMP_NTZ →
      timeScale schema.metadata = Except.ok scale →
      (schema.type = NANOARROW_TYPE_INT64 →
        getConverterFromSchema schema array useNumpy =
          Built.returned (some
            (if useNumpy then Converter.NumpyOneFieldTimeStampNTZConverter array scale
             else Converter.OneFieldTimeStampNTZConverter array scale)) none) ∧
      (schema.type = NANOARROW_TYPE_STRUCT →
        getConverterFromSchema schema array useNumpy =
          Built.returned (some
            (if useNumpy then
              Converter.NumpyTwoFieldTimeStampNTZConverter array scale
                (twoFieldEpochFractionCtor array schema).1.1
                (twoFieldEpochFractionCtor array schema).1.2
             else
              Converter.TwoFieldTimeStampNTZConverter array scale
                (twoFieldEpochFractionCtor array schema).1.1
                (twoFieldEpochFractionCtor array schema).1.2))
            (twoFieldEpochFractionCtor array schema).2)) ∧
    (logicalTypeOf schema = Except.ok SnowflakeType.TIMESTAMP_LTZ →
      timeScale schema.metadata = Except.ok scale →
      (schema.type = NANOARROW_TYPE_INT64 →
        getConverterFromSchema schema array useNumpy =
          Built.returned (some (Converter.OneFieldTimeStampLTZConverter array scale)) none) ∧
      (schema.type = NANOARROW_TYPE_STRUCT →
        getConverterFromSchema schema array useNumpy =
          Built.returned (some
            (Converter.TwoFieldTimeStampLTZConverter array scale
              (twoFieldEpochFractionCtor array schema).1.1
              (twoFieldEpochFractionCtor array schema).1.2))
            (twoFieldEpochFractionCtor array schema).2)) ∧
    (logicalTypeOf schema = Except.ok SnowflakeType.TIMESTAMP_TZ →
      (timestampTZParams schema.metadata = Except.ok (scale, 8) →
        getConverterFromSchema schema array useNumpy =
          Built.returned (some
            (Converter.TwoFieldTimeStampTZConverter array scale
              (twoFieldEpochTimezoneCtor array schema).1.1
              (twoFieldEpochTimezoneCtor array schema).1.2))
            (twoFieldEpochTimezoneCtor array schema).2) ∧
      (timestampTZParams schema.metadata = Except.ok (scale, 16) →
        getConverterFromSchema schema array useNumpy =
          Built.returned (some
            (Converter.ThreeFieldTimeStampTZConverter array scale
              (threeFieldCtor array schema).1.1
              (threeFieldCtor array schema).1.2.1
              (threeFieldCtor array schema).1.2.2))
            (threeFieldCtor array schema).2)) ∧
    (∀ entries, schema.metadata = some entries →
      stoiMetadata schema.metadata "scale" = Except.ok scale →
      ArrowMetadataGetValue schema.metadata "byteLength" = none →
      timestampTZParams schema.metadata = Except.ok (scale, 16)) ∧
    (∀ c0 c1 a0 a1, schema.children = [c0, c1] → array.children = [a0, a1] →
      c0.name = "epoch" →
      (c1.name = "fraction" →
        twoFieldEpochFractionCtor array schema = ((some a0, some a1), none)) ∧
      (c1.name = "timezone" →
        twoFieldEpochTimezoneCtor array schema = ((some a0, some a1), none))) ∧
    (∀ c0 c1 c2 a0 a1 a2, schema.children = [c0, c1, c2] → array.children = [a0, a1, a2] →
      c0.name = "epoch" → c1.name = "timezone" → c2.name = "fraction" →
      threeFieldCtor array schema = ((some a0, some a1, some a2), none)) := by
  refine ⟨fun hlog hs => ⟨fun ht => ?_, fun ht => ?_⟩, fun hlog hs => ⟨fun ht => ?_, fun ht => ?_⟩,
    fun hlog => ⟨fun hp => ?_, fun hp => ?_⟩, fun entries hm hs hb => ?_,
    fun c0 c1 a0 a1 hc ha h0 => ⟨fun h1 => ?_, fun h1 => ?_⟩,
    fun c0 c1 c2 a0 a1 a2 hc ha h0 h1 h2 => ?_⟩
  · rw [getConverterFromSchema_eq schema array useNumpy _ hlog]
    simp only [timestampNTZCase, hs, ht]
    cases useNumpy <;> simp
  · rw [getConverterFromSchema_eq schema array useNumpy _ hlog]
    simp only [timestampNTZCase, hs, ht]
    cases useNumpy <;> simp
  · rw [getConverterFromSchema_eq schema array useNumpy _ hlog]
    simp only [timestampLTZCase, hs, ht]
  · rw [getConverterFromSchema_eq schema array useNumpy _ hlog]
    simp only [timestampLTZCase, hs, ht]
  · rw [getConverterFromSchema_eq schema array useNumpy _ hlog]
    simp only [timestampTZCase, hp]
    simp
  · rw [getConverterFromSchema_eq schema array useNumpy _ hlog]
    simp only [timestampTZCase, hp]
    simp
  · rw [hm] at hs hb ⊢
    simp only [timestampTZParams, hs, hb]
  · simp [twoFieldEpochFractionCtor, ArrowSchema.n_children, hc, ha,
      bindEpochFraction_pair c0 c1 a0 a1 h0 h1]
  · simp [twoFieldEpochTimezoneCtor, ArrowSchema.n_children, hc, ha,
      bindEpochTimezone_pair c0 c1 a0 a1 h0 h1]
  · simp [threeFieldCtor, ArrowSchema.n_children, hc, ha,
      bindEpochTimezoneFraction_triple c0 c1 c2 a0 a1 a2 h0 h1 h2]

/-- An instance of `timestamp_dispatch`: a TIMESTAMP_TZ struct column with scale
"3" and no byteLength entry gets the three-field converter bound to its three
children; a TIMESTAMP_NTZ int64 column gets the one-field converter; a
TIMESTAMP_LTZ struct column gets the two-field converter. -/
theorem timestamp_dispatch_witness :
    getConverterFromSchema
        (sampleNestedSchema NANOARROW_TYPE_STRUCT [("logicalType", "TIMESTAMP_TZ"), ("scale", "3")]
          ["epoch", "timezone", "fraction"])
        (sampleStructColumn 1 [intColumn NANOARROW_TYPE_INT64 none [1], intColumn NANOARROW_TYPE_INT32 none [1440],
          intColumn NANOARROW_TYPE_INT32 none [5]]) false =
      Built.returned (some (Converter.ThreeFieldTimeStampTZConverter
        (sampleStructColumn 1 [intColumn NANOARROW_TYPE_INT64 none [1], intColumn NANOARROW_TYPE_INT32 none [1440],
          intColumn NANOARROW_TYPE_INT32 none [5]]) 3
        (some (intColumn NANOARROW_TYPE_INT64 none [1])) (some (intColumn NANOARROW_TYPE_INT32 none [1440]))
        (some (intColumn NANOARROW_TYPE_INT32 none [5])))) none ∧
    getConverterFromSchema
        (sampleNestedSchema NANOARROW_TYPE_INT64 [("logicalType", "TIMESTAMP_NTZ"), ("scale", "9")] [])
        (intColumn NANOARROW_TYPE_INT64 none [7]) false =
      Built.returned (some (Converter.OneFieldTimeStampNTZConverter
        (intColumn NANOARROW_TYPE_INT64 none [7]) 9)) none ∧
    getConverterFromSchema
        (sampleNestedSchema NANOARROW_TYPE_STRUCT [("logicalType", "TIMESTAMP_LTZ"), ("scale", "9")]
          ["epoch", "fraction"])
        (sampleStructColumn 1 [intColumn NANOARROW_TYPE_INT64 none [1], intColumn NANOARROW_TYPE_INT32 none [5]])
        true =
      Built.returned (some (Converter.TwoFieldTimeStampLTZConverter
        (sampleStructColumn 1 [intColumn NANOARROW_TYPE_INT64 none [1], intColumn NANOARROW_TYPE_INT32 none [5]]) 9
        (some (intColumn NANOARROW_TYPE_INT64 none [1])) (some (intColumn NANOARROW_TYPE_INT32 none [5]))))
        none :=
  ⟨((timestamp_dispatch
        (sampleNestedSchema NANOARROW_TYPE_STRUCT [("logicalType", "TIMESTAMP_TZ"), ("scale", "3")]
          ["epoch", "timezone", "fraction"])
        (sampleStructColumn 1 [intColumn NANOARROW_TYPE_INT64 none [1], intColumn NANOARROW_TYPE_INT32 none [1440],
          intColumn NANOARROW_TYPE_INT32 none [5]]) false 3).2.2.1 rfl).2
      ((timestamp_dispatch
        (sampleNestedSchema NANOARROW_TYPE_STRUCT [("logicalType", "TIMESTAMP_TZ"), ("scale", "3")]
          ["epoch", "timezone", "fraction"])
        (sampleStructColumn 1 [intColumn NANOARROW_TYPE_INT64 none [1], intColumn NANOARROW_TYPE_INT32 none [1440],
          intColumn NANOARROW_TYPE_INT32 none [5]]) false 3).2.2.2.1 _ rfl rfl rfl),
    ((timestamp_dispatch
        (sampleNestedSchema NANOARROW_TYPE_INT64 [("logicalType", "TIMESTAMP_NTZ"), ("scale", "9")] [])
        (intColumn NANOARROW_TYPE_INT64 none [7]) false 9).1 rfl rfl).1 rfl,
    ((timestamp_dispatch
        (sampleNestedSchema NANOARROW_TYPE_STRUCT [("logicalType", "TIMESTAMP_LTZ"), ("scale", "9")]
          ["epoch", "fraction"])
        (sampleStructColumn 1 [intColumn NANOARROW_TYPE_INT64 none [1], intColumn NANOARROW_TYPE_INT32 none [5]])
        true 9).2.1 rfl rfl).2 rfl⟩

/-! ### Build errors of the dispatch -/

theorem twoFieldEpochFractionCtor_err (array : ArrowArrayView) (schema : ArrowSchema) :
    (twoFieldEpochFractionCtor array schema).2 =
      if schema.n_children ≠ 2 then some fieldNumberMismatch2 else none := by
  unfold twoFieldEpochFractionCtor
  split <;> rfl

theorem twoFieldEpochTimezoneCtor_err (array : ArrowArrayView) (schema : ArrowSchema) :
    (twoFieldEpochTimezoneCtor array schema).2 =
      if schema.n_children ≠ 2 then some fieldNumberMismatch2 else none := by
  unfold twoFieldEpochTimezoneCtor
  split <;> rfl

theorem threeFieldCtor_err (array : ArrowArrayView) (schema : ArrowSchema) :
    (threeFieldCtor array schema).2 =
      if schema.n_children ≠ 3 then some fieldNumberMismatch3 else none := by
  unfold threeFieldCtor
  split <;> rfl

theorem stoi_empty : stoi "" = Except.error CppException.invalid_argument := rfl

theorem stoiMetadata_absent (metadata : Option (List (String × String))) (key : String)
    (h : ArrowMetadataGetValue metadata key = none) :
    stoiMetadata metadata key = Except.error CppException.invalid_argument := by
  unfold stoiMetadata
  rw [h]
  exact stoi_empty

theorem logicalTypeOf_metadata (schema : ArrowSchema) (st : SnowflakeType)
    (hlog : logicalTypeOf schema = Except.ok st) : ∃ entries, schema.metadata = some entries := by
  cases hm : schema.metadata with
  | some entries => exact ⟨entries, rfl⟩
  | none =>
    unfold logicalTypeOf at hlog
    rw [hm] at hlog
    have h : SnowflakeType.snowflakeTypeFromString
        (stringOfView (ArrowMetadataGetValue none "logicalType")) =
        Except.error CppException.out_of_range := rfl
    rw [h] at hlog
    cases hlog

/-- C13, as stated, fails: an int64 column whose metadata is the single entry
logicalType = "TIME" (no scale entry) does not get the default scale 9, and an
int64 column whose metadata is the single entry logicalType = "FIXED" does not
get scale 0 and precision 38: `getConverterFromSchema` ends in the exception
`std::invalid_argument`, and so does the scale read of `convertIfNeeded`. -/
theorem metadata_without_scale_counterexample :
    getConverterFromSchema (sampleNestedSchema NANOARROW_TYPE_INT64 [("logicalType", "TIME")] [])
        (intColumn NANOARROW_TYPE_INT64 none [1]) false =
      Built.thrown CppException.invalid_argument ∧
    getConverterFromSchema (sampleNestedSchema NANOARROW_TYPE_INT64 [("logicalType", "FIXED")] [])
        (intColumn NANOARROW_TYPE_INT64 none [1]) false =
      Built.thrown CppException.invalid_argument ∧
    timeScale (some [("logicalType", "TIME")]) = Except.error CppException.invalid_argument ∧
    convertIfNeeded_fixedScale (some [("logicalType", "FIXED")]) =
      Except.error CppException.invalid_argument :=
  ⟨rfl, rfl, rfl, rfl⟩

/-- C13, amended. The defaults (scale 0 and precision 38 for FIXED, scale 9
for the time types, byteLength 16) are taken only when the schema has no
metadata at all, and a schema whose logical type resolves always has metadata.
When the logical type resolves to `st`: if the metadata has no scale entry,
the scale is parsed from the empty string, so for FIXED, TIME, TIMESTAMP_NTZ,
TIMESTAMP_LTZ and TIMESTAMP_TZ `getConverterFromSchema` ends in the exception
`std::invalid_argument`, and so do the scale reads of `convertIfNeeded` (for
the time types the same code); for FIXED the same holds when the scale parses
and the precision entry is absent.  Of the numeric entries only byteLength may
be absent: a TIMESTAMP_TZ column with a scale entry and no byteLength entry
gets byteLength 16. -/
theorem metadata_scale_required (schema : ArrowSchema) (array : ArrowArrayView) (useNumpy : Bool)
    (st : SnowflakeType) (hlog : logicalTypeOf schema = Except.ok st) :
    (fixedScalePrecision none = Except.ok (0, 38) ∧ convertIfNeeded_fixedScale none = Except.ok 0 ∧
      timeScale none = Except.ok 9 ∧ timestampTZParams none = Except.ok (9, 16)) ∧
    (∃ entries, schema.metadata = some entries) ∧
    (ArrowMetadataGetValue schema.metadata "scale" = none →
      (st = SnowflakeType.FIXED →
        getConverterFromSchema schema array useNumpy =
          Built.thrown CppException.invalid_argument ∧
        convertIfNeeded_fixedScale schema.metadata =
          Except.error CppException.invalid_argument) ∧
      (st = SnowflakeType.TIME ∨ st = SnowflakeType.TIMESTAMP_NTZ ∨
          st = SnowflakeType.TIMESTAMP_LTZ →
        getConverterFromSchema schema array useNumpy =
          Built.thrown CppException.invalid_argument ∧
        timeScale schema.metadata = Except.error CppException.invalid_argument) ∧
      (st = SnowflakeType.TIMESTAMP_TZ →
        getConverterFromSchema schema array useNumpy =
          Built.thrown CppException.invalid_argument ∧
        timestampTZParams schema.metadata = Except.error CppException.invalid_argument)) ∧
    (st = SnowflakeType.FIXED → ArrowMetadataGetValue schema.metadata "precision" = none →
      ∀ scale, stoiMetadata schema.metadata "scale" = Except.ok scale →
      getConverterFromSchema schema array useNumpy =
        Built.thrown CppException.invalid_argument) ∧
    (ArrowMetadataGetValue schema.metadata "byteLength" = none →
      ∀ scale, stoiMetadata schema.metadata "scale" = Except.ok scale →
      timestampTZParams schema.metadata = Except.ok (scale, 16)) := by
  obtain ⟨entries, hm⟩ := logicalTypeOf_metadata schema st hlog
  rw [getConverterFromSchema_eq schema array useNumpy st hlog]
  refine ⟨⟨rfl, rfl, rfl, rfl⟩, ⟨entries, hm⟩, fun hscale => ?_, ?_, ?_⟩
  · have hs := stoiMetadata_absent schema.metadata "scale" hscale
    have hfixed : fixedScalePrecision schema.metadata =
        Except.error CppException.invalid_argument := by
      rw [hm] at hs ⊢
      simp only [fixedScalePrecision, hs]
    have htable : convertIfNeeded_fixedScale schema.metadata =
        Except.error CppException.invalid_argument := by
      rw [hm] at hs ⊢
      simp only [convertIfNeeded_fixedScale, hs]
    have htime : timeScale schema.metadata = Except.error CppException.invalid_argument := by
      rw [hm] at hs ⊢
      simp only [timeScale, hs]
    have htz : timestampTZParams schema.metadata =
        Except.error CppException.invalid_argument := by
      rw [hm] at hs ⊢
      simp only [timestampTZParams, hs]
    refine ⟨?_, ?_, ?_⟩
    · rintro rfl
      exact ⟨by simp only [fixedCase, hfixed], htable⟩
    · rintro (rfl | rfl | rfl)
      · exact ⟨by simp only [timeCase, htime], htime⟩
      · exact ⟨by simp only [timestampNTZCase, htime], htime⟩
      · exact ⟨by simp only [timestampLTZCase, htime], htime⟩
    · rintro rfl
      exact ⟨by simp only [timestampTZCase, htz], htz⟩
  · rintro rfl hprec scale hs
    have hp := stoiMetadata_absent schema.metadata "precision" hprec
    have hfixed : fixedScalePrecision schema.metadata =
        Except.error CppException.invalid_argument := by
      rw [hm] at hs hp ⊢
      simp only [fixedScalePrecision, hs, hp]
    simp only [fixedCase, hfixed]
  · intro hb scale hs
    rw [hm] at hs hb ⊢
    simp only [timestampTZParams, hs, hb]

/-- An instance of `metadata_scale_required`: a TIMESTAMP_NTZ struct column
and a FIXED int32 column whose metadata name the logical type only, and a
FIXED column with scale "2" and no precision entry. -/
theorem metadata_scale_required_witness :
    getConverterFromSchema
        (sampleNestedSchema NANOARROW_TYPE_STRUCT [("logicalType", "TIMESTAMP_NTZ")]
          ["epoch", "fraction"])
        (sampleStructColumn 1 [intColumn NANOARROW_TYPE_INT64 none [1], intColumn NANOARROW_TYPE_INT32 none [5]])
        false = Built.thrown CppException.invalid_argument ∧
    convertIfNeeded_fixedScale (some [("logicalType", "FIXED")]) =
      Except.error CppException.invalid_argument ∧
    getConverterFromSchema
        (sampleNestedSchema NANOARROW_TYPE_INT32 [("logicalType", "FIXED"), ("scale", "2")] [])
        (intColumn NANOARROW_TYPE_INT32 none [1]) false =
      Built.thrown CppException.invalid_argument :=
  ⟨(((metadata_scale_required
      (sampleNestedSchema NANOARROW_TYPE_STRUCT [("logicalType", "TIMESTAMP_NTZ")]
        ["epoch", "fraction"])
      (sampleStructColumn 1 [intColumn NANOARROW_TYPE_INT64 none [1], intColumn NANOARROW_TYPE_INT32 none [5]])
      false SnowflakeType.TIMESTAMP_NTZ rfl).2.2.1 rfl).2.1 (Or.inr (Or.inl rfl))).1,
    (((metadata_scale_required
      (sampleNestedSchema NANOARROW_TYPE_INT32 [("logicalType", "FIXED")] [])
      (intColumn NANOARROW_TYPE_INT32 none [1]) false SnowflakeType.FIXED rfl).2.2.1 rfl).1 rfl).2,
    (metadata_scale_required
      (sampleNestedSchema NANOARROW_TYPE_INT32 [("logicalType", "FIXED"), ("scale", "2")] [])
      (intColumn NANOARROW_TYPE_INT32 none [1]) false SnowflakeType.FIXED rfl).2.2.2.1 rfl rfl 2 rfl⟩

/-! ### Nested converters: null parent rows -/

/-- C16. For the list, map, struct and fixed-size-list converters over the
array `m_array`: when row `k` of `m_array` is null, `toPyObject(k)` returns
`None`, whatever the child converters are (bound or null) and whatever they
would return (the class-level functions take the nested calls as arbitrary
functions, also failing or undefined ones), and whatever the offsets, the
buffers and the children of `m_array` hold: the null test reads only the
storage type, the validity bitmap and the array offset. -/
theorem nested_null_row (m_array : ArrowArrayView) (k : Nat)
    (hnull : ArrowArrayViewIsNull m_array k = true) :
    (∀ item, ArrayConverter.toPyObject m_array item k = PyReturn.object PyObject.None) ∧
    (∀ key value, MapConverter.toPyObject m_array key value k = PyReturn.object PyObject.None) ∧
    (∀ names values,
      ObjectConverter.toPyObject m_array names values k = PyReturn.object PyObject.None) ∧
    FixedSizeListConverter.toPyObject m_array k = PyReturn.object PyObject.None ∧
    (∀ m_item_converter,
      (Converter.ArrayConverter m_array m_item_converter).toPyObject k =
        PyReturn.object PyObject.None) ∧
    (∀ m_key_converter m_value_converter,
      (Converter.MapConverter m_array m_key_converter m_value_converter).toPyObject k =
        PyReturn.object PyObject.None) ∧
    (∀ m_property_names m_converters,
      (Converter.ObjectConverter m_array m_property_names m_converters).toPyObject k =
        PyReturn.object PyObject.None) ∧
    (Converter.FixedSizeListConverter m_array).toPyObject k = PyReturn.object PyObject.None ∧
    (∀ length data bytes children buffer2,
      ArrowArrayViewIsNull
        { storage_type := m_array.storage_type, length := length, offset := m_array.offset,
          validity := m_array.validity, data := data, bytes := bytes, children := children,
          buffer2 := buffer2 } k = true) := by
  have h1 : ∀ item, ArrayConverter.toPyObject m_array item k = PyReturn.object PyObject.None := by
    intro item
    simp only [ArrayConverter.toPyObject, hnull, if_true]
  have h2 : ∀ key value,
      MapConverter.toPyObject m_array key value k = PyReturn.object PyObject.None := by
    intro key value
    simp only [MapConverter.toPyObject, hnull, if_true]
  have h3 : ∀ names values,
      ObjectConverter.toPyObject m_array names values k = PyReturn.object PyObject.None := by
    intro names values
    simp only [ObjectConverter.toPyObject, hnull, if_true]
  have h4 : FixedSizeListConverter.toPyObject m_array k = PyReturn.object PyObject.None := by
    simp only [FixedSizeListConverter.toPyObject, hnull, if_true]
  refine ⟨h1, h2, h3, h4, ?_, ?_, ?_, ?_, ?_⟩
  · intro c
    rw [Converter.toPyObject]
    exact h1 _
  · intro kc vc
    rw [Converter.toPyObject]
    exact h2 _ _
  · intro names convs
    rw [Converter.toPyObject]
    exact h3 _ _
  · rw [Converter.toPyObject]
    exact h4
  · intro length data bytes children buffer2
    exact hnull

/-- An instance of `nested_null_row`: a list column whose only row is null,
without offsets and without children, under a converter whose item converter
is the null pointer; and a map column over a child converter that fails on
every index. -/
theorem nested_null_row_witness :
    (Converter.ArrayConverter
        { storage_type := NANOARROW_TYPE_LIST, length := 1, offset := 0, validity := some [false],
          data := [], bytes := [], children := [] } none).toPyObject 0 =
      PyReturn.object PyObject.None ∧
    MapConverter.toPyObject
        { storage_type := NANOARROW_TYPE_MAP, length := 1, offset := 0, validity := some [false],
          data := [], bytes := [], children := [] }
        (fun _ => PyReturn.null) (fun _ => PyReturn.undefined) 0 =
      PyReturn.object PyObject.None :=
  ⟨(nested_null_row
      { storage_type := NANOARROW_TYPE_LIST, length := 1, offset := 0, validity := some [false],
        data := [], bytes := [], children := [] } 0 rfl).2.2.2.2.1 none,
    (nested_null_row
      { storage_type := NANOARROW_TYPE_MAP, length := 1, offset := 0, validity := some [false],
        data := [], bytes := [], children := [] } 0 rfl).2.1 _ _⟩

/-! ### Nested converters: list rows -/

theorem collectSlots_objects (l : List Nat) (item : Nat → PyReturn) (v : Nat → PyObject)
    (h : ∀ i ∈ l, item i = PyReturn.object (v i)) :
    collectSlots (l.map item) = some (l.map (fun i => some (v i)), false) := by
  induction l with
  | nil => rfl
  | cons a l ih =>
    have ha := h a (List.mem_cons_self a l)
    have hl := ih (fun i hi => h i (List.mem_cons_of_mem a hi))
    simp only [List.map_cons, collectSlots, hl, ha]

theorem sliceIndices_cast (start stop : Nat) :
    sliceIndices (start : Int) (stop : Int) = (List.range (stop - start)).map fun k => start + k := by
  unfold sliceIndices
  have h1 : ((stop : Int) - (start : Int)).toNat = stop - start := by omega
  rw [h1]
  simp

theorem mem_sliceIndices (start stop i : Nat) (h : i ∈ sliceIndices (start : Int) (stop : Int)) :
    start ≤ i ∧ i < stop := by
  rw [sliceIndices_cast] at h
  simp only [List.mem_map, List.mem_range] at h
  obtain ⟨k, hk, rfl⟩ := h
  omega

theorem sliceBounds_eq (m_array child0 : ArrowArrayView) (r start stop : Nat)
    (hchild : m_array.children.get? 0 = some child0)
    (hstart : m_array.data.get? r = some (start : Int))
    (hstop : if r + 1 < m_array.length then m_array.data.get? (r + 1) = some (stop : Int)
      else stop = child0.length ∧ (child0.length : Int) ≤ INT32_MAX) :
    sliceBounds m_array r = some ((start : Int), (stop : Int)) := by
  unfold sliceBounds
  rw [hstart, hchild]
  by_cases hr : r + 1 < m_array.length
  · rw [if_pos hr] at hstop
    simp only [hr, if_true, hstop]
  · rw [if_neg hr] at hstop
    simp only [hr, if_false]
    rw [wrapInt32_of_mem _ (by unfold INT32_MIN; omega) hstop.2, hstop.1]

/-- C17. `ArrayConverter::toPyObject` on a non-null row `r` of a list column
with offsets `off`, `P` rows and a first child of length `L`: with
`start = off[r]` and `end = off[r + 1]` when `r + 1 < P`, otherwise `end = L`
(`start ≤ end`), and an item converter that decodes every index of
`[start, end)` to an object, the result is the list of length `end - start`
whose `i`-th element is the item converter's value at index `start + i`. -/
theorem ArrayConverter_slice (m_array child0 : ArrowArrayView) (c : Converter)
    (v : Nat → PyObject) (r start stop : Nat)
    (hnn : ArrowArrayViewIsNull m_array r = false)
    (hchild : m_array.children.get? 0 = some child0)
    (hstart : m_array.data.get? r = some (start : Int))
    (hstop : if r + 1 < m_array.length then m_array.data.get? (r + 1) = some (stop : Int)
      else stop = child0.length ∧ (child0.length : Int) ≤ INT32_MAX)
    (hle : start ≤ stop)
    (hitem : ∀ i, start ≤ i → i < stop → c.toPyObject i = PyReturn.object (v i)) :
    ∃ slots : List (Option PyObject),
      (Converter.ArrayConverter m_array (some c)).toPyObject r =
        PyReturn.object (PyObject.List slots) ∧
      slots.length = stop - start ∧
      ∀ i, i < stop - start → slots.get? i = some (some (v (start + i))) := by
  refine ⟨(List.range (stop - start)).map fun i => some (v (start + i)), ?_, by simp, ?_⟩
  · rw [Converter.toPyObject]
    unfold ArrayConverter.toPyObject
    rw [hnn, sliceBounds_eq m_array child0 r start stop hchild hstart hstop]
    have h1 : ¬ ((stop : Int) - (start : Int) < 0) := by omega
    have h2 : ¬ ((start : Int) < 0 ∧ (start : Int) < (stop : Int)) := by omega
    simp only [h1, h2, if_false, Bool.false_eq_true]
    rw [collectSlots_objects (sliceIndices start stop)
      (fun i => Converter.callToPyObject (some c) i) v]
    · simp only [returnContainer, Bool.false_eq_true, if_false]
      rw [sliceIndices_cast]
      simp [List.map_map, Function.comp]
    · intro i hi
      have hb := mem_sliceIndices start stop i hi
      simp only [Converter.callToPyObject]
      exact hitem i hb.1 hb.2
  · intro i hi
    simp [List.get?_eq_getElem?, hi]

/-- An instance of `ArrayConverter_slice`: the list column [[10, 20], [30]]
over an int64 child; row 1 is the last row, so its end is the child length. -/
theorem ArrayConverter_slice_witness :
    (∃ slots : List (Option PyObject),
      (Converter.ArrayConverter
          (sampleListColumn NANOARROW_TYPE_LIST 2 [0, 2] [intColumn NANOARROW_TYPE_INT64 none [10, 20, 30]])
          (some (Converter.IntConverter (intColumn NANOARROW_TYPE_INT64 none [10, 20, 30])))).toPyObject 1 =
        PyReturn.object (PyObject.List slots) ∧
      slots.length = 3 - 2 ∧
      ∀ i, i < 3 - 2 → slots.get? i = some (some (PyObject.Long
        (ArrowArrayViewGetIntUnsafe (intColumn NANOARROW_TYPE_INT64 none [10, 20, 30]) (2 + i))))) ∧
    (Converter.ArrayConverter
        (sampleListColumn NANOARROW_TYPE_LIST 2 [0, 2] [intColumn NANOARROW_TYPE_INT64 none [10, 20, 30]])
        (some (Converter.IntConverter (intColumn NANOARROW_TYPE_INT64 none [10, 20, 30])))).toPyObject 0 =
      PyReturn.object (PyObject.List [some (PyObject.Long 10), some (PyObject.Long 20)]) :=
  ⟨ArrayConverter_slice
      (sampleListColumn NANOARROW_TYPE_LIST 2 [0, 2] [intColumn NANOARROW_TYPE_INT64 none [10, 20, 30]])
      (intColumn NANOARROW_TYPE_INT64 none [10, 20, 30])
      (Converter.IntConverter (intColumn NANOARROW_TYPE_INT64 none [10, 20, 30]))
      (fun i => PyObject.Long
        (ArrowArrayViewGetIntUnsafe (intColumn NANOARROW_TYPE_INT64 none [10, 20, 30]) i))
      1 2 3 rfl rfl rfl ⟨rfl, by decide⟩ (by decide) (fun _ _ _ => rfl),
    rfl⟩

/-! ### Nested converters: map rows -/

theorem dictLookup_map_range (eqv : PyObject → PyObject → Bool) (f : Nat → PyObject × PyObject)
    (n : Nat) (k x : PyObject) :
    dictLookup eqv ((List.range n).map f) k = some x ↔
      ∃ i, i < n ∧ eqv (f i).1 k = true ∧ x = (f i).2 ∧
        ∀ j, i < j → j < n → eqv (f j).1 k = false := by
  induction n with
  | zero => simp [dictLookup]
  | succ n ih =>
    unfold dictLookup at ih ⊢
    rw [List.range_succ, List.map_append, List.reverse_append]
    simp only [List.map_cons, List.map_nil, List.reverse_cons, List.reverse_nil, List.nil_append,
      List.singleton_append, List.find?_cons]
    by_cases hk : eqv (f n).1 k = true
    · simp only [hk, Option.map_some']
      constructor
      · intro h
        refine ⟨n, by omega, hk, ?_, fun j h1 h2 => by omega⟩
        simpa using h.symm
      · rintro ⟨i, hi, hik, hx, hlater⟩
        by_cases hin : i = n
        · subst hin; simp [hx]
        · have := hlater n (by omega) (by omega)
          rw [hk] at this
          cases this
    · have hk' : eqv (f n).1 k = false := by simpa using hk
      simp only [hk']
      rw [ih]
      constructor
      · rintro ⟨i, hi, hik, hx, hlater⟩
        refine ⟨i, by omega, hik, hx, fun j h1 h2 => ?_⟩
        by_cases hjn : j = n
        · subst hjn; exact hk'
        · exact hlater j h1 (by omega)
      · rintro ⟨i, hi, hik, hx, hlater⟩
        have hin : i ≠ n := by
          rintro rfl
          rw [hk'] at hik
          cases hik
        exact ⟨i, by omega, hik, hx, fun j h1 h2 => hlater j h1 (by omega)⟩

theorem insertPairs_objects (l : List Nat) (key value : Nat → PyReturn) (kv vv : Nat → PyObject)
    (hkey : ∀ i ∈ l, key i = PyReturn.object (kv i))
    (hvalue : ∀ i ∈ l, value i = PyReturn.object (vv i))
    (hhash : ∀ i ∈ l, pyHashable (kv i) = true) :
    insertPairs (l.map fun i => (key i, value i)) = some (l.map (fun i => (kv i, vv i)), false) := by
  induction l with
  | nil => rfl
  | cons a l ih =>
    have hl := ih (fun i hi => hkey i (List.mem_cons_of_mem a hi))
      (fun i hi => hvalue i (List.mem_cons_of_mem a hi))
      (fun i hi => hhash i (List.mem_cons_of_mem a hi))
    simp only [List.map_cons, insertPairs, hl, hkey a (List.mem_cons_self a l),
      hvalue a (List.mem_cons_self a l), collectSlots, hhash a (List.mem_cons_self a l)]
    simp

theorem dictLookup_isSome_map_range (eqv : PyObject → PyObject → Bool)
    (f : Nat → PyObject × PyObject) (n : Nat) (k : PyObject) :
    (dictLookup eqv ((List.range n).map f) k).isSome = true ↔
      ∃ i, i < n ∧ eqv (f i).1 k = true := by
  unfold dictLookup
  rw [Option.isSome_map', List.find?_isSome]
  simp only [List.mem_reverse, List.mem_map, List.mem_range]
  constructor
  · rintro ⟨x, ⟨i, hi, rfl⟩, hx⟩
    exact ⟨i, hi, hx⟩
  · rintro ⟨i, hi, hx⟩
    exact ⟨f i, ⟨i, hi, rfl⟩, hx⟩

/-- C18. `MapConverter::toPyObject` on a non-null row `r` with slice
`[start, end)` (as for the list converter), key and value converters that
decode every index of the slice to an object, and hashable keys: the result is
the dictionary built by inserting (key(i), value(i)) for
`i = start, ..., end - 1` in increasing order.  Read with the host's key
equality `eqv` (any relation): a key is present exactly when some index of the
slice decodes to an equal key, and its value is the value decoded at the
largest such index. -/
theorem MapConverter_last_write_wins (m_array child0 : ArrowArrayView)
    (m_key_converter m_value_converter : Converter) (kv vv : Nat → PyObject) (r start stop : Nat)
    (hnn : ArrowArrayViewIsNull m_array r = false)
    (hchild : m_array.children.get? 0 = some child0)
    (hstart : m_array.data.get? r = some (start : Int))
    (hstop : if r + 1 < m_array.length then m_array.data.get? (r + 1) = some (stop : Int)
      else stop = child0.length ∧ (child0.length : Int) ≤ INT32_MAX)
    (hle : start ≤ stop)
    (hkey : ∀ i, start ≤ i → i < stop → m_key_converter.toPyObject i = PyReturn.object (kv i))
    (hvalue : ∀ i, start ≤ i → i < stop →
      m_value_converter.toPyObject i = PyReturn.object (vv i))
    (hhash : ∀ i, start ≤ i → i < stop → pyHashable (kv i) = true) :
    ∃ items : List (PyObject × PyObject),
      (Converter.MapConverter m_array (some m_key_converter) (some m_value_converter)).toPyObject
          r = PyReturn.object (PyObject.Dict items) ∧
      items = (List.range (stop - start)).map (fun i => (kv (start + i), vv (start + i))) ∧
      ∀ (eqv : PyObject → PyObject → Bool) (k : PyObject),
        ((dictLookup eqv items k).isSome = true ↔
          ∃ i, start ≤ i ∧ i < stop ∧ eqv (kv i) k = true) ∧
        ∀ x, dictLookup eqv items k = some x ↔
          ∃ i, start ≤ i ∧ i < stop ∧ eqv (kv i) k = true ∧ x = vv i ∧
            ∀ j, i < j → j < stop → eqv (kv j) k = false := by
  refine ⟨_, ?_, rfl, fun eqv k => ⟨?_, fun x => ?_⟩⟩
  · rw [Converter.toPyObject]
    unfold MapConverter.toPyObject
    rw [hnn, sliceBounds_eq m_array child0 r start stop hchild hstart hstop]
    have h2 : ¬ ((start : Int) < 0 ∧ (start : Int) < (stop : Int)) := by omega
    simp only [h2, if_false, Bool.false_eq_true]
    rw [insertPairs_objects (sliceIndices start stop)
      (fun i => Converter.callToPyObject (some m_key_converter) i)
      (fun i => Converter.callToPyObject (some m_value_converter) i) kv vv]
    · simp only [returnContainer, Bool.false_eq_true, if_false]
      rw [sliceIndices_cast]
      simp [List.map_map, Function.comp]
    · intro i hi
      have hb := mem_sliceIndices start stop i hi
      simp only [Converter.callToPyObject]
      exact hkey i hb.1 hb.2
    · intro i hi
      have hb := mem_sliceIndices start stop i hi
      simp only [Converter.callToPyObject]
      exact hvalue i hb.1 hb.2
    · intro i hi
      have hb := mem_sliceIndices start stop i hi
      exact hhash i hb.1 hb.2
  · rw [dictLookup_isSome_map_range eqv (fun i => (kv (start + i), vv (start + i)))]
    constructor
    · rintro ⟨i, hi, hx⟩
      exact ⟨start + i, by omega, by omega, hx⟩
    · rintro ⟨i, h1, h2, hx⟩
      refine ⟨i - start, by omega, ?_⟩
      have : start + (i - start) = i := by omega
      simpa [this] using hx
  · rw [dictLookup_map_range eqv (fun i => (kv (start + i), vv (start + i)))]
    constructor
    · rintro ⟨i, hi, hik, hx, hlater⟩
      refine ⟨start + i, by omega, by omega, hik, hx, fun j h1 h2 => ?_⟩
      have := hlater (j - start) (by omega) (by omega)
      have hj : start + (j - start) = j := by omega
      simpa [hj] using this
    · rintro ⟨i, h1, h2, hik, hx, hlater⟩
      have hi : start + (i - start) = i := by omega
      refine ⟨i - start, by omega, by simpa [hi] using hik, by simpa [hi] using hx,
        fun j hj1 hj2 => hlater (start + j) (by omega) (by omega)⟩

/-- An instance of `MapConverter_last_write_wins`: one map row with the
entries (1, 10), (2, 20), (1, 30): the key 1 reads 30, the value of the last
insertion. -/
theorem MapConverter_last_write_wins_witness :
    (∃ items : List (PyObject × PyObject),
      (Converter.MapConverter
          (sampleListColumn NANOARROW_TYPE_MAP 1 [0]
            [sampleEntries 3 (intColumn NANOARROW_TYPE_INT64 none [1, 2, 1])
              (intColumn NANOARROW_TYPE_INT64 none [10, 20, 30])])
          (some (Converter.IntConverter (intColumn NANOARROW_TYPE_INT64 none [1, 2, 1])))
          (some (Converter.IntConverter (intColumn NANOARROW_TYPE_INT64 none [10, 20, 30])))).toPyObject
          0 = PyReturn.object (PyObject.Dict items) ∧
      items = (List.range (3 - 0)).map (fun i =>
        (PyObject.Long (ArrowArrayViewGetIntUnsafe (intColumn NANOARROW_TYPE_INT64 none [1, 2, 1]) (0 + i)),
          PyObject.Long
            (ArrowArrayViewGetIntUnsafe (intColumn NANOARROW_TYPE_INT64 none [10, 20, 30]) (0 + i)))) ∧
      ∀ (eqv : PyObject → PyObject → Bool) (k : PyObject),
        ((dictLookup eqv items k).isSome = true ↔
          ∃ i, 0 ≤ i ∧ i < 3 ∧ eqv (PyObject.Long
            (ArrowArrayViewGetIntUnsafe (intColumn NANOARROW_TYPE_INT64 none [1, 2, 1]) i)) k = true) ∧
        ∀ x, dictLookup eqv items k = some x ↔
          ∃ i, 0 ≤ i ∧ i < 3 ∧ eqv (PyObject.Long
            (ArrowArrayViewGetIntUnsafe (intColumn NANOARROW_TYPE_INT64 none [1, 2, 1]) i)) k = true ∧
            x = PyObject.Long
              (ArrowArrayViewGetIntUnsafe (intColumn NANOARROW_TYPE_INT64 none [10, 20, 30]) i) ∧
            ∀ j, i < j → j < 3 → eqv (PyObject.Long
              (ArrowArrayViewGetIntUnsafe (intColumn NANOARROW_TYPE_INT64 none [1, 2, 1]) j)) k = false) ∧
    dictLookup pyLongKeyEq
        [(PyObject.Long 1, PyObject.Long 10), (PyObject.Long 2, PyObject.Long 20),
          (PyObject.Long 1, PyObject.Long 30)] (PyObject.Long 1) = some (PyObject.Long 30) :=
  ⟨MapConverter_last_write_wins
      (sampleListColumn NANOARROW_TYPE_MAP 1 [0]
        [sampleEntries 3 (intColumn NANOARROW_TYPE_INT64 none [1, 2, 1])
          (intColumn NANOARROW_TYPE_INT64 none [10, 20, 30])])
      (sampleEntries 3 (intColumn NANOARROW_TYPE_INT64 none [1, 2, 1])
        (intColumn NANOARROW_TYPE_INT64 none [10, 20, 30]))
      (Converter.IntConverter (intColumn NANOARROW_TYPE_INT64 none [1, 2, 1]))
      (Converter.IntConverter (intColumn NANOARROW_TYPE_INT64 none [10, 20, 30]))
      (fun i => PyObject.Long
        (ArrowArrayViewGetIntUnsafe (intColumn NANOARROW_TYPE_INT64 none [1, 2, 1]) i))
      (fun i => PyObject.Long
        (ArrowArrayViewGetIntUnsafe (intColumn NANOARROW_TYPE_INT64 none [10, 20, 30]) i))
      0 0 3 rfl rfl rfl ⟨rfl, by decide⟩ (by decide) (fun _ _ _ => rfl) (fun _ _ _ => rfl)
      (fun _ _ _ => rfl),
    rfl⟩

/-! ### Nested converters: struct rows -/

theorem insertProperties_objects (names : List String) (vs : List PyObject)
    (hlen : vs.length = names.length) :
    insertProperties names (vs.map PyReturn.object) =
      some ((names.map PyObject.Str).zip vs, false) := by
  induction names generalizing vs with
  | nil => rfl
  | cons name names ih =>
    cases vs with
    | nil => simp at hlen
    | cons v vs =>
      have hl := ih vs (by simpa using hlen)
      simp only [List.map_cons, insertProperties, hl, List.zip_cons_cons]

theorem pyStrKeyEq_iff (a : PyObject) (t : String) :
    pyStrKeyEq a (PyObject.Str t) = true ↔ a = PyObject.Str t := by
  cases a <;> simp [pyStrKeyEq]

theorem dictLookup_cons (eqv : PyObject → PyObject → Bool) (x : PyObject × PyObject)
    (items : List (PyObject × PyObject)) (k : PyObject) :
    dictLookup eqv (x :: items) k =
      match dictLookup eqv items k with
      | some v => some v
      | none => if eqv x.1 k then some x.2 else none := by
  unfold dictLookup
  rw [List.reverse_cons, List.find?_append]
  cases h : items.reverse.find? (fun kv => eqv kv.1 k) with
  | some kv => simp
  | none =>
    simp only [Option.none_or, List.find?_cons, List.find?_nil, Option.map_none']
    cases eqv x.1 k <;> simp

theorem dictLookup_zip_none (names : List String) (vs : List PyObject) (k : String)
    (h : k ∉ names) :
    dictLookup pyStrKeyEq ((names.map PyObject.Str).zip vs) (PyObject.Str k) = none := by
  unfold dictLookup
  rw [Option.map_eq_none', List.find?_eq_none]
  intro kv hkv
  rw [List.mem_reverse] at hkv
  have h1 : kv.1 ∈ names.map PyObject.Str := (List.of_mem_zip (a := kv.1) (b := kv.2) hkv).1
  rw [List.mem_map] at h1
  obtain ⟨n, hn, hnk⟩ := h1
  intro hp
  rw [pyStrKeyEq_iff] at hp
  rw [← hnk] at hp
  simp only [PyObject.Str.injEq] at hp
  exact h (hp ▸ hn)

theorem dictLookup_zip_last (names : List String) :
    ∀ (vs : List PyObject) (i : Nat) (h1 : i < names.length) (h2 : i < vs.length),
      (∀ j (hj : j < names.length), i < j → names.get ⟨j, hj⟩ ≠ names.get ⟨i, h1⟩) →
      dictLookup pyStrKeyEq ((names.map PyObject.Str).zip vs)
        (PyObject.Str (names.get ⟨i, h1⟩)) = some (vs.get ⟨i, h2⟩) := by
  induction names with
  | nil => intro vs i h1; exact absurd h1 (Nat.not_lt_zero i)
  | cons n ns ih =>
    intro vs i h1 h2 hlast
    cases vs with
    | nil => exact absurd h2 (Nat.not_lt_zero i)
    | cons v vs =>
      rw [List.map_cons, List.zip_cons_cons, dictLookup_cons]
      cases i with
      | zero =>
        have hn : n ∉ ns := by
          intro hmem
          obtain ⟨⟨j, hj⟩, hjeq⟩ := List.mem_iff_get.mp hmem
          exact hlast (j + 1) (by simp; omega) (by omega) (by simpa using hjeq)
        simp only [List.get_eq_getElem, List.getElem_cons_zero]
        rw [dictLookup_zip_none ns vs n hn]
        simp [pyStrKeyEq]
      | succ i =>
        have h1' : i < ns.length := by simpa using h1
        have h2' : i < vs.length := by simpa using h2
        have := ih vs i h1' h2' (fun j hj hij => by
          have := hlast (j + 1) (by simp; omega) (by omega)
          simpa using this)
        simp only [List.get_eq_getElem, List.getElem_cons_succ] at this ⊢
        rw [this]

/-- C19, as stated, fails when two children bear the same name: on a struct
row with two children both named "a", decoding 1 and 2, the mapping has the
single key "a" and maps it to 2, the value of the second child, although the
first child's own converter decodes 1 at that row. -/
theorem ObjectConverter_duplicate_name_counterexample :
    (Converter.ObjectConverter
        (sampleStructColumn 1 [intColumn NANOARROW_TYPE_INT64 none [1], intColumn NANOARROW_TYPE_INT64 none [2]])
        ["a", "a"]
        [some (Converter.IntConverter (intColumn NANOARROW_TYPE_INT64 none [1])),
          some (Converter.IntConverter (intColumn NANOARROW_TYPE_INT64 none [2]))]).toPyObject 0 =
      PyReturn.object (PyObject.Dict
        [(PyObject.Str "a", PyObject.Long 1), (PyObject.Str "a", PyObject.Long 2)]) ∧
    (Converter.IntConverter (intColumn NANOARROW_TYPE_INT64 none [1])).toPyObject 0 =
      PyReturn.object (PyObject.Long 1) ∧
    dictLookup pyStrKeyEq [(PyObject.Str "a", PyObject.Long 1), (PyObject.Str "a", PyObject.Long 2)]
      (PyObject.Str "a") = some (PyObject.Long 2) ∧
    PyObject.Long 2 ≠ PyObject.Long 1 :=
  ⟨rfl, rfl, rfl, by simp⟩

/-- C19, amended. `ObjectConverter::toPyObject` on a non-null row `k` of a
struct column with the child names `names`, when the converter of every child
decodes row `k` to an object: the result is the dictionary with one insertion
per child, in child order, of the child's name with the value its own
converter decodes at row `k`.  Its keys are exactly the names, and a name
reads the value of the last child that bears it: the name of child `i` reads
the value of child `i` whenever no later child has the same name, so each name
reads the value of its own child when the names are pairwise distinct. -/
theorem ObjectConverter_fields (m_array : ArrowArrayView) (m_property_names : List String)
    (m_converters : List (Option Converter)) (vs : List PyObject) (k : Nat)
    (hnn : ArrowArrayViewIsNull m_array k = false)
    (hlen : vs.length = m_property_names.length)
    (hvalues : Converter.callAll m_converters k = vs.map PyReturn.object) :
    (Converter.ObjectConverter m_array m_property_names m_converters).toPyObject k =
      PyReturn.object (PyObject.Dict ((m_property_names.map PyObject.Str).zip vs)) ∧
    ((m_property_names.map PyObject.Str).zip vs).map Prod.fst =
      m_property_names.map PyObject.Str ∧
    (∀ name : String, name ∉ m_property_names →
      dictLookup pyStrKeyEq ((m_property_names.map PyObject.Str).zip vs) (PyObject.Str name) =
        none) ∧
    (∀ i (h1 : i < m_property_names.length) (h2 : i < vs.length),
      (∀ j (hj : j < m_property_names.length), i < j →
        m_property_names.get ⟨j, hj⟩ ≠ m_property_names.get ⟨i, h1⟩) →
      dictLookup pyStrKeyEq ((m_property_names.map PyObject.Str).zip vs)
        (PyObject.Str (m_property_names.get ⟨i, h1⟩)) = some (vs.get ⟨i, h2⟩)) ∧
    (m_property_names.Nodup →
      ∀ i (h1 : i < m_property_names.length) (h2 : i < vs.length),
        dictLookup pyStrKeyEq ((m_property_names.map PyObject.Str).zip vs)
          (PyObject.Str (m_property_names.get ⟨i, h1⟩)) = some (vs.get ⟨i, h2⟩)) := by
  refine ⟨?_, ?_, fun name hname => dictLookup_zip_none m_property_names vs name hname,
    fun i h1 h2 hlast => dictLookup_zip_last m_property_names vs i h1 h2 hlast,
    fun hnd i h1 h2 => dictLookup_zip_last m_property_names vs i h1 h2 (fun j hj hij heq => ?_)⟩
  · rw [Converter.toPyObject]
    unfold ObjectConverter.toPyObject
    rw [hnn, hvalues, insertProperties_objects m_property_names vs hlen]
    simp [returnContainer]
  · rw [List.map_fst_zip]
    simp [hlen]
  · have := (List.Nodup.get_inj_iff hnd).1 heq
    simp only [Fin.mk.injEq] at this
    omega

/-- An instance of `ObjectConverter_fields`: a struct row with the children
"a" = 1 and "b" = 2. -/
theorem ObjectConverter_fields_witness :
    (Converter.ObjectConverter
        (sampleStructColumn 1 [intColumn NANOARROW_TYPE_INT64 none [1], intColumn NANOARROW_TYPE_INT64 none [2]])
        ["a", "b"]
        [some (Converter.IntConverter (intColumn NANOARROW_TYPE_INT64 none [1])),
          some (Converter.IntConverter (intColumn NANOARROW_TYPE_INT64 none [2]))]).toPyObject 0 =
      PyReturn.object (PyObject.Dict
        [(PyObject.Str "a", PyObject.Long 1), (PyObject.Str "b", PyObject.Long 2)]) ∧
    dictLookup pyStrKeyEq [(PyObject.Str "a", PyObject.Long 1), (PyObject.Str "b", PyObject.Long 2)]
      (PyObject.Str "b") = some (PyObject.Long 2) :=
  ⟨(ObjectConverter_fields
      (sampleStructColumn 1 [intColumn NANOARROW_TYPE_INT64 none [1], intColumn NANOARROW_TYPE_INT64 none [2]])
      ["a", "b"]
      [some (Converter.IntConverter (intColumn NANOARROW_TYPE_INT64 none [1])),
        some (Converter.IntConverter (intColumn NANOARROW_TYPE_INT64 none [2]))]
      [PyObject.Long 1, PyObject.Long 2] 0 rfl rfl rfl).1,
    (ObjectConverter_fields
      (sampleStructColumn 1 [intColumn NANOARROW_TYPE_INT64 none [1], intColumn NANOARROW_TYPE_INT64 none [2]])
      ["a", "b"]
      [some (Converter.IntConverter (intColumn NANOARROW_TYPE_INT64 none [1])),
        some (Converter.IntConverter (intColumn NANOARROW_TYPE_INT64 none [2]))]
      [PyObject.Long 1, PyObject.Long 2] 0 rfl rfl rfl).2.2.2.2 (by decide) 1 (by decide)
      (by decide)⟩

/-! ### Nested converters: fixed-size lists -/

theorem FixedSizeListConverter_loop_eq (elements : ArrowArrayView) (f : Nat → PyObject)
    (l : List Nat) (h : ∀ i, FixedSizeListConverter.element elements i = some (f i)) :
    FixedSizeListConverter.loop elements l = some (l.map fun i => some (f i)) := by
  induction l with
  | nil => rfl
  | cons a l ih => simp only [FixedSizeListConverter.loop, h a, ih, List.map_cons]

/-- C20. `FixedSizeListConverter::toPyObject` over a column of `P > 0` rows
with exactly one child `elements` of length `C`, with `n = C div P`: for a
non-null row `r < P`, when the child storage is int8/int16/int32/int64 or
half-float/float/double, the result is the list of exactly `n` elements whose
`i`-th element is the child value at index `r * n + i` (a Python integer for
the integer storages, a Python float for the floating-point ones), and every
index read satisfies `r * n + i < C`. -/
theorem FixedSizeListConverter_elements (m_array elements : ArrowArrayView) (r : Nat)
    (hchildren : m_array.children = [elements])
    (hP : 0 < m_array.length) (hr : r < m_array.length)
    (hnn : ArrowArrayViewIsNull m_array r = false) :
    ((elements.storage_type = NANOARROW_TYPE_INT8 ∨ elements.storage_type = NANOARROW_TYPE_INT16 ∨
        elements.storage_type = NANOARROW_TYPE_INT32 ∨
        elements.storage_type = NANOARROW_TYPE_INT64) →
      (Converter.FixedSizeListConverter m_array).toPyObject r =
        PyReturn.object (PyObject.List
          ((List.range (elements.length / m_array.length)).map fun i =>
            some (PyObject.Long (ArrowArrayViewGetIntUnsafe elements
              (r * (elements.length / m_array.length) + i)))))) ∧
    ((elements.storage_type = NANOARROW_TYPE_HALF_FLOAT ∨
        elements.storage_type = NANOARROW_TYPE_FLOAT ∨
        elements.storage_type = NANOARROW_TYPE_DOUBLE) →
      (Converter.FixedSizeListConverter m_array).toPyObject r =
        PyReturn.object (PyObject.List
          ((List.range (elements.length / m_array.length)).map fun i =>
            some (PyObject.Float (ArrowArrayViewGetDoubleUnsafe elements
              (r * (elements.length / m_array.length) + i)))))) ∧
    (∀ i, i < elements.length / m_array.length →
      r * (elements.length / m_array.length) + i < elements.length) := by
  have hne : ¬ m_array.length = 0 := by omega
  refine ⟨fun ht => ?_, fun ht => ?_, fun i hi => ?_⟩
  · rw [Converter.toPyObject]
    unfold FixedSizeListConverter.toPyObject
    rw [hnn, hchildren]
    simp only [hne, if_false, Bool.false_eq_true]
    rw [FixedSizeListConverter_loop_eq elements
      (fun i => PyObject.Long (ArrowArrayViewGetIntUnsafe elements i))]
    · simp [List.map_map, Function.comp]
    · intro i
      unfold FixedSizeListConverter.element
      rcases ht with h | h | h | h <;> simp only [h]
  · rw [Converter.toPyObject]
    unfold FixedSizeListConverter.toPyObject
    rw [hnn, hchildren]
    simp only [hne, if_false, Bool.false_eq_true]
    rw [FixedSizeListConverter_loop_eq elements
      (fun i => PyObject.Float (ArrowArrayViewGetDoubleUnsafe elements i))]
    · simp [List.map_map, Function.comp]
    · intro i
      unfold FixedSizeListConverter.element
      rcases ht with h | h | h <;> simp only [h]
  · have h1 : (r + 1) * (elements.length / m_array.length) ≤
        m_array.length * (elements.length / m_array.length) :=
      Nat.mul_le_mul_right _ (by omega)
    have h2 : m_array.length * (elements.length / m_array.length) ≤ elements.length :=
      Nat.mul_div_le _ _
    have h3 : (r + 1) * (elements.length / m_array.length) =
        r * (elements.length / m_array.length) + elements.length / m_array.length := by ring
    omega

/-- An instance of `FixedSizeListConverter_elements`: two vectors of three
int32 elements; row 1 is [4, 5, 6], read at the indices 3, 4, 5 < 6. -/
theorem FixedSizeListConverter_elements_witness :
    (Converter.FixedSizeListConverter
        (sampleListColumn NANOARROW_TYPE_FIXED_SIZE_LIST 2 []
          [intColumn NANOARROW_TYPE_INT32 none [1, 2, 3, 4, 5, 6]])).toPyObject 1 =
      PyReturn.object (PyObject.List
        [some (PyObject.Long 4), some (PyObject.Long 5), some (PyObject.Long 6)]) ∧
    (∀ i, i < 6 / 2 → 1 * (6 / 2) + i < 6) :=
  ⟨(FixedSizeListConverter_elements
      (sampleListColumn NANOARROW_TYPE_FIXED_SIZE_LIST 2 []
        [intColumn NANOARROW_TYPE_INT32 none [1, 2, 3, 4, 5, 6]])
      (intColumn NANOARROW_TYPE_INT32 none [1, 2, 3, 4, 5, 6]) 1 rfl (by decide) (by decide) rfl).1
      (Or.inr (Or.inr (Or.inl rfl))),
    (FixedSizeListConverter_elements
      (sampleListColumn NANOARROW_TYPE_FIXED_SIZE_LIST 2 []
        [intColumn NANOARROW_TYPE_INT32 none [1, 2, 3, 4, 5, 6]])
      (intColumn NANOARROW_TYPE_INT32 none [1, 2, 3, 4, 5, 6]) 1 rfl (by decide) (by decide) rfl).2.2⟩

/-! ### The row iterator -/

set_option maxHeartbeats 4000000 in
theorem nextCalls_empty_batch :
    nextCalls 2 (CArrowChunkIterator.CArrowChunkIterator sampleBatchSchema [sampleBatch []] false) =
      [some { successObj := some (PyObject.Tuple [some (PyObject.Long 0)]), exception := none },
       some { successObj := some PyObject.None, exception := none }] := by
  rfl

set_option maxHeartbeats 4000000 in
theorem nextCalls_one_batch :
    nextCalls 4 (CArrowChunkIterator.CArrowChunkIterator sampleBatchSchema [sampleBatch [1, 2]]
        false) =
      [some { successObj := some (PyObject.Tuple [some (PyObject.Long 1)]), exception := none },
       some { successObj := some (PyObject.Tuple [some (PyObject.Long 2)]), exception := none },
       some { successObj := some PyObject.None, exception := none },
       some { successObj := some PyObject.None, exception := none }] := by
  rfl

set_option maxHeartbeats 4000000 in
theorem nextCalls_no_batch :
    nextCalls 2 (CArrowChunkIterator.CArrowChunkIterator sampleBatchSchema [] false) =
      [some { successObj := some PyObject.None, exception := none },
       some { successObj := some PyObject.None, exception := none }] := by
  rfl

/-- C14. The code departs from the claim on a batch without rows.  For the
batch set made of one batch with zero rows (row counts n_0 = 0, so no row is
due), the first call of `next` returns a row: the one-column tuple decoded at
row index 0 of the empty column, a read beyond the column's length; only the
second call returns the end-of-stream value.  On a batch with rows the calls
go as claimed: for the single batch [1, 2] they return the rows (1), (2) and
then the end-of-stream value on every further call; on the empty batch set
every call returns the end-of-stream value. -/
theorem next_empty_batch_returns_row :
    nextCalls 2 (CArrowChunkIterator.CArrowChunkIterator sampleBatchSchema [sampleBatch []] false) =
      [some { successObj := some (PyObject.Tuple [some (PyObject.Long 0)]), exception := none },
       some { successObj := some PyObject.None, exception := none }] ∧
    nextCalls 4 (CArrowChunkIterator.CArrowChunkIterator sampleBatchSchema [sampleBatch [1, 2]]
        false) =
      [some { successObj := some (PyObject.Tuple [some (PyObject.Long 1)]), exception := none },
       some { successObj := some (PyObject.Tuple [some (PyObject.Long 2)]), exception := none },
       some { successObj := some PyObject.None, exception := none },
       some { successObj := some PyObject.None, exception := none }] ∧
    nextCalls 2 (CArrowChunkIterator.CArrowChunkIterator sampleBatchSchema [] false) =
      [some { successObj := some PyObject.None, exception := none },
       some { successObj := some PyObject.None, exception := none }] :=
  ⟨nextCalls_empty_batch, nextCalls_one_batch, nextCalls_no_batch⟩

/-! ### Materialising the table once -/

theorem powTenSB4_values :
    internal.powTenSB4 0 = some 1 ∧ internal.powTenSB4 1 = some 10 ∧
    internal.powTenSB4 2 = some 100 ∧ internal.powTenSB4 3 = some 1000 ∧
    internal.powTenSB4 4 = some 10000 ∧ internal.powTenSB4 5 = some 100000 ∧
    internal.powTenSB4 6 = some 1000000 ∧ internal.powTenSB4 7 = some 10000000 ∧
    internal.powTenSB4 8 = some 100000000 ∧ internal.powTenSB4 9 = some 1000000000 := by
  decide

theorem TimeSpec_high_scale_eq (v d : Int) (s : Int) (hs : s > 6)
    (hd : internal.powTenSB4 (s - 6) = some d) (hdpos : 0 < d)
    (hmin : INT64_MIN + d - 1 ≤ v) :
    internal.TimeSpec.TimeSpec v s = some { seconds := 0, microseconds := Int.fdiv v d } := by
  have h0 : ¬ s = 0 := by omega
  have h6 : ¬ s = 6 := by omega
  unfold internal.TimeSpec.TimeSpec
  simp only [h0, h6, hs, if_true, if_false, hd]
  congr 2
  by_cases hv : v < 0
  · simp only [hv, if_true]
    rw [wrapInt64_of_mem _ (by omega) (by unfold INT64_MAX; omega)]
    rw [tdiv_eq_ite _ d hdpos, Int.fdiv_eq_ediv _ (le_of_lt hdpos)]
    have hneg : ¬ (0 ≤ v - (d - 1)) := by omega
    simp only [hneg, if_false]
    have h1 : -(v - (d - 1)) = (-v - 1) + d * 1 := by ring
    rw [h1, Int.add_mul_ediv_left _ _ (ne_of_gt hdpos)]
    have h2 : (-v - 1) / d = -(v / d) - 1 := by
      have := Int.emod_add_ediv v d
      have hm := Int.emod_nonneg v (ne_of_gt hdpos)
      have hm2 := Int.emod_lt_of_pos v hdpos
      have h3 : -v - 1 = (d - 1 - v % d) + d * (-(v / d) - 1) := by
        have : v = v % d + d * (v / d) := by omega
        nlinarith [this]
      rw [h3, Int.add_mul_ediv_left _ _ (ne_of_gt hdpos)]
      rw [Int.ediv_eq_zero_of_lt (by omega) (by omega)]
      ring
    rw [h2]; ring
  · simp only [hv, if_false]
    rw [Int.tdiv_eq_ediv (by omega) (le_of_lt hdpos), Int.fdiv_eq_ediv _ (le_of_lt hdpos)]
/-- C23. For scale 7, 8 or 9 and every value `v ≥ INT64_MIN + 10^(scale-6) - 1`
(so for every 64-bit value from that bound on), `TimeSpec(v, scale)` has
seconds = 0 and microseconds = `v` divided by `10^(scale-6)` rounding toward
negative infinity, also when `v` is negative and not a multiple of the
divisor; for `v = -1` and scale 9 the microseconds are -1. -/
theorem TimeSpec_floor (s : Nat) (v : Int) (hs : s = 7 ∨ s = 8 ∨ s = 9)
    (hmin : INT64_MIN + 10 ^ (s - 6) - 1 ≤ v) :
    internal.TimeSpec.TimeSpec v s =
      some { seconds := 0, microseconds := Int.fdiv v (10 ^ (s - 6)) } ∧
    Int.fdiv v (10 ^ (s - 6)) = ⌊(v : ℚ) / (10 : ℚ) ^ (s - 6)⌋ ∧
    internal.TimeSpec.TimeSpec (-1) 9 = some { seconds := 0, microseconds := -1 } := by
  have hfloor : ∀ d : Nat, 0 < d → Int.fdiv v (d : Int) = ⌊(v : ℚ) / ((d : Int) : ℚ)⌋ := by
    intro d hd
    rw [Int.fdiv_eq_ediv _ (by omega)]
    exact (Rat.floor_intCast_div_natCast v d).symm
  refine ⟨?_, ?_, by decide⟩
  · rcases hs with rfl | rfl | rfl
    · exact TimeSpec_high_scale_eq v 10 7 (by decide) (by decide) (by decide) (by simpa using hmin)
    · exact TimeSpec_high_scale_eq v 100 8 (by decide) (by decide) (by decide)
        (by simpa using hmin)
    · exact TimeSpec_high_scale_eq v 1000 9 (by decide) (by decide) (by decide)
        (by simpa using hmin)
  · rcases hs with rfl | rfl | rfl
    · have := hfloor 10 (by decide); simpa using this
    · have := hfloor 100 (by decide); simpa using this
    · have := hfloor 1000 (by decide); simpa using this

/-- An instance of `TimeSpec_floor`: the negative value -1500 at scale 9 gives
-2 microseconds (the floor of -1.5), and the smallest admitted value at scale
7 does not wrap. -/
theorem TimeSpec_floor_witness :
    internal.TimeSpec.TimeSpec (-1500) 9 = some { seconds := 0, microseconds := -2 } ∧
    internal.TimeSpec.TimeSpec (-9223372036854775799) 7 =
      some { seconds := 0, microseconds := -922337203685477580 } :=
  ⟨(TimeSpec_floor 9 (-1500) (Or.inr (Or.inr rfl)) (by decide)).1,
    (TimeSpec_floor 7 (-9223372036854775799) (Or.inl rfl) (by decide)).1⟩

theorem TimeSpec_low_scale_eq (v p q : Int) (s : Int) (h0 : s ≠ 0) (h6 : s < 6)
    (hp : internal.powTenSB4 s = some p) (hq : internal.powTenSB4 (6 - s) = some q)
    (hppos : 0 < p) (hqpos : 0 < q) (hpq : p * q = 1000000) :
    internal.TimeSpec.TimeSpec v s =
      some { seconds := Int.tdiv v p, microseconds := Int.tmod v p * q } := by
  have h6' : ¬ s = 6 := by omega
  have h6'' : ¬ s > 6 := by omega
  unfold internal.TimeSpec.TimeSpec
  simp only [h0, h6', h6'', if_false, hp, hq]
  congr 2
  have hlt : Int.tmod v p < p := Int.tmod_lt_of_pos v hppos
  have hgt : -p < Int.tmod v p := by
    rw [tmod_eq_ite v p hppos]
    split
    · have := Int.emod_nonneg v (ne_of_gt hppos); omega
    · have := Int.emod_lt_of_pos (-v) hppos; omega
  have hple : p ≤ 1000000 := by nlinarith
  have hqle : q ≤ 1000000 := by nlinarith
  have habs : ((Int.natAbs (Int.tmod v p) : Nat) : Int) = |Int.tmod v p| := Int.natCast_natAbs _
  have hsign : v < 0 → Int.tmod v p ≤ 0 := by
    intro hv
    rw [tmod_eq_ite v p hppos]
    have hn : ¬ 0 ≤ v := by omega
    simp only [hn, if_false]
    have := Int.emod_nonneg (-v) (ne_of_gt hppos); omega
  have hsign2 : 0 ≤ v → 0 ≤ Int.tmod v p := by
    intro hv
    rw [tmod_eq_ite v p hppos]
    simp only [hv, if_true]
    exact Int.emod_nonneg v (ne_of_gt hppos)
  have hbound : |Int.tmod v p| * q < 1000000 := by
    have h1 : |Int.tmod v p| < p := abs_lt.mpr ⟨hgt, hlt⟩
    have h2 : 0 ≤ |Int.tmod v p| := abs_nonneg _
    nlinarith
  have hnn : 0 ≤ |Int.tmod v p| * q := mul_nonneg (abs_nonneg _) (le_of_lt hqpos)
  rw [habs]
  rw [wrapInt64_of_mem |Int.tmod v p| (by unfold INT64_MIN; have := abs_nonneg (Int.tmod v p); omega)
    (by unfold INT64_MAX; have : |Int.tmod v p| < p := abs_lt.mpr ⟨hgt, hlt⟩; omega)]
  rw [wrapInt64_of_mem (|Int.tmod v p| * q) (by unfold INT64_MIN; omega)
    (by unfold INT64_MAX; omega)]
  by_cases hv : v < 0
  · simp only [hv, if_true]
    rw [wrapInt64_of_mem _ (by unfold INT64_MIN; omega) (by unfold INT64_MAX; omega)]
    rw [abs_of_nonpos (hsign hv)]
    ring
  · simp only [hv, if_false]
    rw [abs_of_nonneg (hsign2 (by omega))]
/-- C24. For every scale `s` in [0, 6] and every integer `v` (in particular
every 64-bit value), `TimeSpec(v, s)` returns a pair with
seconds · 10^6 + microseconds = v · 10^(6-s): for s = 0 the pair is (v, 0),
for s = 6 it is (0, v), and for 1 ≤ s ≤ 5 seconds is `v / 10^s` truncated
toward zero and the microseconds satisfy |microseconds| < 10^6 and never have
the sign opposite to `v`. -/
theorem TimeSpec_same_instant (s : Nat) (v : Int) (hs : s ≤ 6) :
    ∃ ts, internal.TimeSpec.TimeSpec v s = some ts ∧
      ts.seconds * 10 ^ 6 + ts.microseconds = v * 10 ^ (6 - s) ∧
      (s = 0 → ts.seconds = v ∧ ts.microseconds = 0) ∧
      (s = 6 → ts.seconds = 0 ∧ ts.microseconds = v) ∧
      (1 ≤ s → s ≤ 5 →
        ts.seconds = Int.tdiv v (10 ^ s) ∧ |ts.microseconds| < 10 ^ 6 ∧
        (0 ≤ v → 0 ≤ ts.microseconds) ∧ (v ≤ 0 → ts.microseconds ≤ 0)) := by
  have hmid : ∀ (p q : Int) (k : Nat), 1 ≤ k → k ≤ 5 → 0 < p → 0 < q → p * q = 1000000 →
      (p : Int) = 10 ^ k → (q : Int) = 10 ^ (6 - k) →
      internal.TimeSpec.TimeSpec v k =
        some { seconds := Int.tdiv v p, microseconds := Int.tmod v p * q } →
      ∃ ts, internal.TimeSpec.TimeSpec v k = some ts ∧
        ts.seconds * 10 ^ 6 + ts.microseconds = v * 10 ^ (6 - k) ∧
        (k = 0 → ts.seconds = v ∧ ts.microseconds = 0) ∧
        (k = 6 → ts.seconds = 0 ∧ ts.microseconds = v) ∧
        (1 ≤ k → k ≤ 5 →
          ts.seconds = Int.tdiv v (10 ^ k) ∧ |ts.microseconds| < 10 ^ 6 ∧
          (0 ≤ v → 0 ≤ ts.microseconds) ∧ (v ≤ 0 → ts.microseconds ≤ 0)) := by
    intro p q k hk1 hk5 hppos hqpos hpq hp hq heq
    have hlt : Int.tmod v p < p := Int.tmod_lt_of_pos v hppos
    have hnonneg : 0 ≤ v → 0 ≤ Int.tmod v p := by
      intro hv
      rw [tmod_eq_ite v p hppos]
      simp only [hv, if_true]
      exact Int.emod_nonneg v (ne_of_gt hppos)
    have hnonpos : v ≤ 0 → Int.tmod v p ≤ 0 := by
      intro hv
      rw [tmod_eq_ite v p hppos]
      split
      · have : v = 0 := by omega
        subst this; simp
      · have := Int.emod_nonneg (-v) (ne_of_gt hppos); omega
    have hgt : -p < Int.tmod v p := by
      rw [tmod_eq_ite v p hppos]
      split
      · have := Int.emod_nonneg v (ne_of_gt hppos); omega
      · have := Int.emod_lt_of_pos (-v) hppos; omega
    refine ⟨_, heq, ?_, by omega, by omega, fun _ _ => ⟨by rw [hp], ?_, ?_, ?_⟩⟩
    · have h1 := Int.tmod_add_tdiv v p
      have h2 : (10 : Int) ^ 6 = p * q := by rw [hpq]; norm_num
      rw [← hq, h2]
      show Int.tdiv v p * (p * q) + Int.tmod v p * q = v * q
      nlinarith [h1]
    · show |Int.tmod v p * q| < 10 ^ 6
      rw [abs_mul, abs_of_pos hqpos]
      have h1 : |Int.tmod v p| < p := abs_lt.mpr ⟨hgt, hlt⟩
      have h2 : (10 : Int) ^ 6 = p * q := by rw [hpq]; norm_num
      rw [h2]
      exact mul_lt_mul_of_pos_right h1 hqpos
    · intro hv
      exact mul_nonneg (hnonneg hv) (le_of_lt hqpos)
    · intro hv
      exact mul_nonpos_of_nonpos_of_nonneg (hnonpos hv) (le_of_lt hqpos)
  interval_cases s
  · exact ⟨{ seconds := v, microseconds := 0 }, rfl, by simp, by simp, by simp, by omega⟩
  · exact hmid 10 100000 1 (by decide) (by decide) (by decide) (by decide) (by decide)
      (by norm_num) (by norm_num)
      (TimeSpec_low_scale_eq v 10 100000 1 (by decide) (by decide) (by decide) (by decide)
        (by decide) (by decide) (by decide))
  · exact hmid 100 10000 2 (by decide) (by decide) (by decide) (by decide) (by decide)
      (by norm_num) (by norm_num)
      (TimeSpec_low_scale_eq v 100 10000 2 (by decide) (by decide) (by decide) (by decide)
        (by decide) (by decide) (by decide))
  · exact hmid 1000 1000 3 (by decide) (by decide) (by decide) (by decide) (by decide)
      (by norm_num) (by norm_num)
      (TimeSpec_low_scale_eq v 1000 1000 3 (by decide) (by decide) (by decide) (by decide)
        (by decide) (by decide) (by decide))
  · exact hmid 10000 100 4 (by decide) (by decide) (by decide) (by decide) (by decide)
      (by norm_num) (by norm_num)
      (TimeSpec_low_scale_eq v 10000 100 4 (by decide) (by decide) (by decide) (by decide)
        (by decide) (by decide) (by decide))
  · exact hmid 100000 10 5 (by decide) (by decide) (by decide) (by decide) (by decide)
      (by norm_num) (by norm_num)
      (TimeSpec_low_scale_eq v 100000 10 5 (by decide) (by decide) (by decide) (by decide)
        (by decide) (by decide) (by decide))
  · exact ⟨{ seconds := 0, microseconds := v }, rfl, by simp, by omega, by simp, by omega⟩

/-- An instance of `TimeSpec_same_instant`: scale 3 on -1500 (one and a half
seconds before the epoch) gives -1 second and -500000 microseconds. -/
theorem TimeSpec_same_instant_witness :
    ∃ ts, internal.TimeSpec.TimeSpec (-1500) (3 : Nat) = some ts ∧
      ts.seconds * 10 ^ 6 + ts.microseconds = -1500 * 10 ^ (6 - 3) ∧
      (3 = 0 → ts.seconds = -1500 ∧ ts.microseconds = 0) ∧
      (3 = 6 → ts.seconds = 0 ∧ ts.microseconds = -1500) ∧
      (1 ≤ 3 → 3 ≤ 5 →
        ts.seconds = Int.tdiv (-1500) (10 ^ 3) ∧ |ts.microseconds| < 10 ^ 6 ∧
        (0 ≤ (-1500 : Int) → 0 ≤ ts.microseconds) ∧ ((-1500 : Int) ≤ 0 → ts.microseconds ≤ 0)) :=
  TimeSpec_same_instant 3 (-1500) (by decide)

/-! ### Values written by the struct timestamp rewrite -/

theorem appendStructRows_get (columnArray epochArray fractionArray : ArrowArrayView)
    (flag : Bool) (p6 p9 : Int) (r : Nat) (hr : r < columnArray.length)
    (hnn : ArrowArrayViewIsNull columnArray r = false) :
    (appendStructRows columnArray epochArray fractionArray flag p6 p9).get? r =
      some (some (if flag then
        wrapInt64 (wrapInt64 (ArrowArrayViewGetIntUnsafe epochArray r * p6) +
          Int.tdiv (ArrowArrayViewGetIntUnsafe fractionArray r) 1000)
        else wrapInt64 (wrapInt64 (ArrowArrayViewGetIntUnsafe epochArray r * p9) +
          ArrowArrayViewGetIntUnsafe fractionArray r))) := by
  unfold appendStructRows
  rw [List.get?_eq_getElem?, List.getElem?_map, List.getElem?_range hr]
  simp only [Option.map_some', hnn, Bool.not_false, if_true]
  cases flag <;> simp

theorem struct_rewrite_ok (field : ArrowSchema)
    (columnArray epochArray fractionArray : ArrowArrayView) (scale : Int) (timezone : String)
    (hscale : scale > 6) (htype : field.type = NANOARROW_TYPE_STRUCT)
    (hbind : bindEpochFraction field.children columnArray.children (none, none) =
      (some epochArray, some fractionArray))
    (col : TimestampColumn)
    (hok : convertTimestampColumn_nanoarrow field columnArray scale timezone = Outcome.ok col) :
    (List.range columnArray.length).any
      (rowFatal columnArray epochArray fractionArray 1000000000) = false ∧
    col.unit = (if (List.range columnArray.length).any
        (rowOutOfRange columnArray epochArray 1000000000)
      then NANOARROW_TIME_UNIT_MICRO else NANOARROW_TIME_UNIT_NANO) ∧
    col.values = appendStructRows columnArray epochArray fractionArray
      ((List.range columnArray.length).any
        (rowOutOfRange columnArray epochArray 1000000000)) 1000000 1000000000 := by
  rw [convertTimestampColumn_struct_eq field columnArray epochArray fractionArray scale timezone
    hscale htype hbind] at hok
  by_cases hf : (List.range columnArray.length).any
      (rowFatal columnArray epochArray fractionArray 1000000000) = true
  · rw [if_pos hf] at hok; cases hok
  · rw [if_neg hf] at hok
    simp only [Outcome.ok.injEq] at hok
    subst hok
    exact ⟨by simpa using hf, rfl, rfl⟩

theorem not_rowOutOfRange_bounds (columnArray epochArray : ArrowArrayView) (r : Nat)
    (hnn : ArrowArrayViewIsNull columnArray r = false)
    (h : rowOutOfRange columnArray epochArray 1000000000 r = false) :
    -9223372036 ≤ ArrowArrayViewGetIntUnsafe epochArray r ∧
    ArrowArrayViewGetIntUnsafe epochArray r ≤ 9223372036 := by
  unfold rowOutOfRange at h
  simp only [hnn, Bool.not_false, Bool.true_and, Bool.or_eq_false_iff, decide_eq_false_iff_not,
    not_lt] at h
  have h1 : Int.tdiv INT64_MAX 1000000000 = 9223372036 := by decide
  have h2 : Int.tdiv INT64_MIN 1000000000 = -9223372036 := by decide
  rw [h1, h2] at h
  omega
/-- C21. The code departs from the claim in the last second of the range.  On
a struct-encoded column with scale > 6 whose rewrite returns with unit
nanoseconds (the scan flagged no row), a non-null row with epoch `e` and
fraction `f` in [0, 10^9) has -9223372036 ≤ e ≤ 9223372036, and the value
written is `e * 10^9 + f` reduced to 64 bits; `e * 10^9 + f` lies in the
signed 64-bit range exactly when not (e = 9223372036 and f > 854775807).  For
e = 9223372036 and 854775807 < f < 10^9, a timestamp after
'2262-04-11 23:47:16.854775807', the scan raises nothing and the value written
is the wrapped-around `e * 10^9 + f - 2^64`. -/
theorem nanosecond_value_range (field : ArrowSchema)
    (columnArray epochArray fractionArray : ArrowArrayView) (scale : Int) (timezone : String)
    (hscale : scale > 6) (htype : field.type = NANOARROW_TYPE_STRUCT)
    (hbind : bindEpochFraction field.children columnArray.children (none, none) =
      (some epochArray, some fractionArray))
    (col : TimestampColumn)
    (hok : convertTimestampColumn_nanoarrow field columnArray scale timezone = Outcome.ok col)
    (hunit : col.unit = NANOARROW_TIME_UNIT_NANO)
    (r : Nat) (hr : r < columnArray.length)
    (hnn : ArrowArrayViewIsNull columnArray r = false)
    (hf0 : 0 ≤ ArrowArrayViewGetIntUnsafe fractionArray r)
    (hf1 : ArrowArrayViewGetIntUnsafe fractionArray r < 10 ^ 9) :
    col.values.get? r = some (some (wrapInt64
      (ArrowArrayViewGetIntUnsafe epochArray r * 10 ^ 9 +
        ArrowArrayViewGetIntUnsafe fractionArray r))) ∧
    -9223372036 ≤ ArrowArrayViewGetIntUnsafe epochArray r ∧
    ArrowArrayViewGetIntUnsafe epochArray r ≤ 9223372036 ∧
    ((INT64_MIN ≤ ArrowArrayViewGetIntUnsafe epochArray r * 10 ^ 9 +
          ArrowArrayViewGetIntUnsafe fractionArray r ∧
        ArrowArrayViewGetIntUnsafe epochArray r * 10 ^ 9 +
          ArrowArrayViewGetIntUnsafe fractionArray r ≤ INT64_MAX) ↔
      ¬ (ArrowArrayViewGetIntUnsafe epochArray r = 9223372036 ∧
        854775807 < ArrowArrayViewGetIntUnsafe fractionArray r)) ∧
    (ArrowArrayViewGetIntUnsafe epochArray r = 9223372036 →
      854775807 < ArrowArrayViewGetIntUnsafe fractionArray r →
      col.values.get? r = some (some
        (ArrowArrayViewGetIntUnsafe epochArray r * 10 ^ 9 +
          ArrowArrayViewGetIntUnsafe fractionArray r - 2 ^ 64))) := by
  obtain ⟨-, hu, hv⟩ := struct_rewrite_ok field columnArray epochArray fractionArray scale
    timezone hscale htype hbind col hok
  have hany : (List.range columnArray.length).any
      (rowOutOfRange columnArray epochArray 1000000000) = false := by
    cases h : (List.range columnArray.length).any
        (rowOutOfRange columnArray epochArray 1000000000)
    · rfl
    · rw [h] at hu
      rw [hu] at hunit
      simp at hunit
  have hrow : rowOutOfRange columnArray epochArray 1000000000 r = false := by
    rw [List.any_eq_false] at hany
    have := hany r (List.mem_range.mpr hr)
    simpa using this
  obtain ⟨he0, he1⟩ := not_rowOutOfRange_bounds columnArray epochArray r hnn hrow
  have hval : col.values.get? r = some (some (wrapInt64
      (ArrowArrayViewGetIntUnsafe epochArray r * 10 ^ 9 +
        ArrowArrayViewGetIntUnsafe fractionArray r))) := by
    rw [hv, hany, appendStructRows_get _ _ _ _ _ _ r hr hnn]
    simp only [Bool.false_eq_true, if_false]
    rw [wrapInt64_of_mem (ArrowArrayViewGetIntUnsafe epochArray r * 1000000000)
      (by unfold INT64_MIN; omega) (by unfold INT64_MAX; omega)]
    norm_num
  refine ⟨hval, he0, he1, ?_, ?_⟩
  · unfold INT64_MIN INT64_MAX
    constructor
    · rintro ⟨-, h2⟩ ⟨h3, h4⟩
      omega
    · intro h
      constructor
      · omega
      · by_cases h3 : ArrowArrayViewGetIntUnsafe epochArray r = 9223372036
        · have : ¬ 854775807 < ArrowArrayViewGetIntUnsafe fractionArray r := fun h4 => h ⟨h3, h4⟩
          omega
        · omega
  · intro h3 h4
    rw [hval]
    congr 2
    unfold wrapInt64
    omega

/-- An instance of `nanosecond_value_range` at the failing input: epoch
9223372036 with fraction 854775808 (one nanosecond after the last
representable instant) is rewritten without error to the smallest 64-bit
value. -/
theorem nanosecond_value_range_witness :
    convertTimestampColumn_nanoarrow sampleTimestampField
        (sampleTimestampColumn none [9223372036] [854775808]) 9 "" =
      Outcome.ok { unit := NANOARROW_TIME_UNIT_NANO, timezone := none, name := "ts",
                   values := [some (-9223372036854775808)] } ∧
    ¬ ((9223372036 : Int) * 10 ^ 9 + 854775808 ≤ INT64_MAX) ∧
    ({ unit := NANOARROW_TIME_UNIT_NANO, timezone := none, name := "ts",
       values := [some (-9223372036854775808)] } : TimestampColumn).values.get? 0 =
      some (some (ArrowArrayViewGetIntUnsafe (intColumn NANOARROW_TYPE_INT64 none [9223372036]) 0
        * 10 ^ 9 +
        ArrowArrayViewGetIntUnsafe (intColumn NANOARROW_TYPE_INT32 none [854775808]) 0 - 2 ^ 64)) :=
  ⟨by decide, by decide,
    (nanosecond_value_range sampleTimestampField
      (sampleTimestampColumn none [9223372036] [854775808])
      (intColumn NANOARROW_TYPE_INT64 none [9223372036])
      (intColumn NANOARROW_TYPE_INT32 none [854775808]) 9 "" (by decide) rfl rfl
      { unit := NANOARROW_TIME_UNIT_NANO, timezone := none, name := "ts",
        values := [some (-9223372036854775808)] }
      (by decide) rfl 0 (by decide) rfl (by decide) (by decide)).2.2.2.2 rfl (by decide)⟩

/-! ### The downgrade to microseconds -/

/-- C25, as stated, fails: in a column downgraded to microseconds because of
its first row (epoch 9223372037, fraction 0), the second row, with epoch 0 in
range and fraction 1, is written as 0 microseconds: its nanosecond is lost,
and its fraction is not a multiple of 1000. -/
theorem downgrade_truncates_counterexample :
    convertTimestampColumn_nanoarrow sampleTimestampField
        (sampleTimestampColumn none [9223372037, 0] [0, 1]) 9 "" =
      Outcome.ok { unit := NANOARROW_TIME_UNIT_MICRO, timezone := none, name := "ts",
                   values := [some 9223372037000000, some 0] } ∧
    (0 : Int) * 1000 ≠ 0 * 10 ^ 9 + 1 ∧ (1 : Int) % 1000 ≠ 0 := by
  refine ⟨by decide, by decide, by decide⟩

/-- C25, amended. When the rewrite of a struct-encoded column with scale > 6
returns with unit microseconds, every non-null row, with epoch `e` and
fraction `f`, is written as `e * 10^6 + f / 1000` computed in 64 bits (`/` of
C++, truncating).  When |e| ≤ 9223372036853 and |f| < 10^9 nothing wraps and
the value is exactly `e * 10^6 + f / 1000`; that number times 1000 is
`e * 10^9 + f - f % 1000` (`%` of C++).  A row whose epoch is outside
[-9223372036, 9223372036] has a fraction that is a multiple of 1000 and loses
nothing; a row whose epoch is in range is truncated to whole microseconds. -/
theorem downgrade_values (field : ArrowSchema)
    (columnArray epochArray fractionArray : ArrowArrayView) (scale : Int) (timezone : String)
    (hscale : scale > 6) (htype : field.type = NANOARROW_TYPE_STRUCT)
    (hbind : bindEpochFraction field.children columnArray.children (none, none) =
      (some epochArray, some fractionArray))
    (col : TimestampColumn)
    (hok : convertTimestampColumn_nanoarrow field columnArray scale timezone = Outcome.ok col)
    (hunit : col.unit = NANOARROW_TIME_UNIT_MICRO)
    (r : Nat) (hr : r < columnArray.length)
    (hnn : ArrowArrayViewIsNull columnArray r = false) :
    col.values.get? r = some (some
      (wrapInt64 (wrapInt64 (ArrowArrayViewGetIntUnsafe epochArray r * 10 ^ 6) +
        Int.tdiv (ArrowArrayViewGetIntUnsafe fractionArray r) 1000))) ∧
    (-9223372036853 ≤ ArrowArrayViewGetIntUnsafe epochArray r →
      ArrowArrayViewGetIntUnsafe epochArray r ≤ 9223372036853 →
      -10 ^ 9 < ArrowArrayViewGetIntUnsafe fractionArray r →
      ArrowArrayViewGetIntUnsafe fractionArray r < 10 ^ 9 →
      wrapInt64 (wrapInt64 (ArrowArrayViewGetIntUnsafe epochArray r * 10 ^ 6) +
          Int.tdiv (ArrowArrayViewGetIntUnsafe fractionArray r) 1000) =
        ArrowArrayViewGetIntUnsafe epochArray r * 10 ^ 6 +
          Int.tdiv (ArrowArrayViewGetIntUnsafe fractionArray r) 1000) ∧
    (ArrowArrayViewGetIntUnsafe epochArray r * 10 ^ 6 +
        Int.tdiv (ArrowArrayViewGetIntUnsafe fractionArray r) 1000) * 1000 =
      ArrowArrayViewGetIntUnsafe epochArray r * 10 ^ 9 +
        ArrowArrayViewGetIntUnsafe fractionArray r -
        Int.tmod (ArrowArrayViewGetIntUnsafe fractionArray r) 1000 ∧
    (0 ≤ ArrowArrayViewGetIntUnsafe fractionArray r →
      Int.tdiv (ArrowArrayViewGetIntUnsafe fractionArray r) 1000 =
        ArrowArrayViewGetIntUnsafe fractionArray r / 1000 ∧
      Int.tmod (ArrowArrayViewGetIntUnsafe fractionArray r) 1000 =
        ArrowArrayViewGetIntUnsafe fractionArray r % 1000) ∧
    ((ArrowArrayViewGetIntUnsafe epochArray r > 9223372036 ∨
        ArrowArrayViewGetIntUnsafe epochArray r < -9223372036) →
      Int.tmod (ArrowArrayViewGetIntUnsafe fractionArray r) 1000 = 0) := by
  obtain ⟨hfatal, hu, hv⟩ := struct_rewrite_ok field columnArray epochArray fractionArray scale
    timezone hscale htype hbind col hok
  have hany : (List.range columnArray.length).any
      (rowOutOfRange columnArray epochArray 1000000000) = true := by
    cases h : (List.range columnArray.length).any
        (rowOutOfRange columnArray epochArray 1000000000)
    · rw [h] at hu
      rw [hu] at hunit
      simp at hunit
    · rfl
  have hdm := Int.tmod_add_tdiv (ArrowArrayViewGetIntUnsafe fractionArray r) 1000
  refine ⟨?_, ?_, by omega, ?_, ?_⟩
  · rw [hv, hany, appendStructRows_get _ _ _ _ _ _ r hr hnn]
    simp only [if_true]
    norm_num
  · intro he0 he1 hf0 hf1
    have hq := tdiv_eq_ite (ArrowArrayViewGetIntUnsafe fractionArray r) 1000 (by decide)
    have hb : -1000000 ≤ Int.tdiv (ArrowArrayViewGetIntUnsafe fractionArray r) 1000 ∧
        Int.tdiv (ArrowArrayViewGetIntUnsafe fractionArray r) 1000 ≤ 1000000 := by
      rw [hq]
      split <;> omega
    rw [wrapInt64_of_mem (ArrowArrayViewGetIntUnsafe epochArray r * 10 ^ 6)
      (by unfold INT64_MIN; omega) (by unfold INT64_MAX; omega)]
    rw [wrapInt64_of_mem _ (by unfold INT64_MIN; omega) (by unfold INT64_MAX; omega)]
  · intro hf0
    exact ⟨Int.tdiv_eq_ediv hf0 (by decide), Int.tmod_eq_emod hf0 (by decide)⟩
  · intro hout
    rw [List.any_eq_false] at hfatal
    have h1 := hfatal r (List.mem_range.mpr hr)
    have h2 : rowOutOfRange columnArray epochArray 1000000000 r = true := by
      unfold rowOutOfRange
      have h3 : Int.tdiv INT64_MAX 1000000000 = 9223372036 := by decide
      have h4 : Int.tdiv INT64_MIN 1000000000 = -9223372036 := by decide
      simp only [hnn, Bool.not_false, Bool.true_and, h3, h4, Bool.or_eq_true, decide_eq_true_eq]
      exact hout
    unfold rowFatal at h1
    simp only [h2, Bool.true_and, Bool.not_eq_true, bne_eq_false_iff_eq] at h1
    exact h1

/-- An instance of `downgrade_values`: the second row of the column of
`downgrade_truncates_counterexample`, and its first row, whose epoch is out of
range. -/
theorem downgrade_values_witness :
    ({ unit := NANOARROW_TIME_UNIT_MICRO, timezone := none, name := "ts",
       values := [some 9223372037000000, some 0] } : TimestampColumn).values.get? 1 =
      some (some (wrapInt64 (wrapInt64
        (ArrowArrayViewGetIntUnsafe (intColumn NANOARROW_TYPE_INT64 none [9223372037, 0]) 1
          * 10 ^ 6) +
        Int.tdiv (ArrowArrayViewGetIntUnsafe (intColumn NANOARROW_TYPE_INT32 none [0, 1]) 1)
          1000))) ∧
    Int.tmod (ArrowArrayViewGetIntUnsafe (intColumn NANOARROW_TYPE_INT32 none [0, 1]) 0) 1000
      = 0 :=
  ⟨(downgrade_values sampleTimestampField
      (sampleTimestampColumn none [9223372037, 0] [0, 1])
      (intColumn NANOARROW_TYPE_INT64 none [9223372037, 0])
      (intColumn NANOARROW_TYPE_INT32 none [0, 1]) 9 "" (by decide) rfl rfl
      { unit := NANOARROW_TIME_UNIT_MICRO, timezone := none, name := "ts",
        values := [some 9223372037000000, some 0] }
      (by decide) rfl 1 (by decide) rfl).1,
    (downgrade_values sampleTimestampField
      (sampleTimestampColumn none [9223372037, 0] [0, 1])
      (intColumn NANOARROW_TYPE_INT64 none [9223372037, 0])
      (intColumn NANOARROW_TYPE_INT32 none [0, 1]) 9 "" (by decide) rfl rfl
      { unit := NANOARROW_TIME_UNIT_MICRO, timezone := none, name := "ts",
        values := [some 9223372037000000, some 0] }
      (by decide) rfl 0 (by decide) rfl).2.2.2.2 (Or.inl (by decide))⟩

/-! ### Field names of the struct timestamp converters -/

/-- C29. The code departs from the claim: the constructors of the struct
timestamp converters check the number of children only.  An error is recorded
exactly when the schema does not have 2 children (3 for the three-field
converter).  With the right number of children a member is bound to the child
of its name, in whatever order the children come, and a child of any other name
is skipped without an error, which leaves a member unbound: with the children
"epoch" and one of another name the two-field constructors record no error and
bind the epoch only. -/
theorem struct_ctor_names (array : ArrowArrayView) (schema : ArrowSchema) :
    ((twoFieldEpochFractionCtor array schema).2 = none ↔ schema.n_children = 2) ∧
    ((twoFieldEpochTimezoneCtor array schema).2 = none ↔ schema.n_children = 2) ∧
    ((threeFieldCtor array schema).2 = none ↔ schema.n_children = 3) ∧
    (∀ c0 c1 a0 a1, schema.children = [c0, c1] → array.children = [a0, a1] →
      (c0.name = "epoch" → c1.name = "fraction" →
        twoFieldEpochFractionCtor array schema = ((some a0, some a1), none)) ∧
      (c0.name = "fraction" → c1.name = "epoch" →
        twoFieldEpochFractionCtor array schema = ((some a1, some a0), none)) ∧
      (c0.name = "epoch" → c1.name = "timezone" →
        twoFieldEpochTimezoneCtor array schema = ((some a0, some a1), none)) ∧
      (c0.name = "timezone" → c1.name = "epoch" →
        twoFieldEpochTimezoneCtor array schema = ((some a1, some a0), none)) ∧
      (c0.name = "epoch" → c1.name ≠ "epoch" → c1.name ≠ "fraction" →
        twoFieldEpochFractionCtor array schema = ((some a0, none), none)) ∧
      (c0.name = "epoch" → c1.name ≠ "epoch" → c1.name ≠ "timezone" →
        twoFieldEpochTimezoneCtor array schema = ((some a0, none), none))) ∧
    (∀ c0 c1 c2 a0 a1 a2, schema.children = [c0, c1, c2] → array.children = [a0, a1, a2] →
      (c0.name = "epoch" → c1.name = "timezone" → c2.name = "fraction" →
        threeFieldCtor array schema = ((some a0, some a1, some a2), none)) ∧
      (c0.name = "epoch" → c1.name = "fraction" → c2.name = "timezone" →
        threeFieldCtor array schema = ((some a0, some a2, some a1), none)) ∧
      (c0.name = "timezone" → c1.name = "epoch" → c2.name = "fraction" →
        threeFieldCtor array schema = ((some a1, some a0, some a2), none)) ∧
      (c0.name = "timezone" → c1.name = "fraction" → c2.name = "epoch" →
        threeFieldCtor array schema = ((some a2, some a0, some a1), none)) ∧
      (c0.name = "fraction" → c1.name = "epoch" → c2.name = "timezone" →
        threeFieldCtor array schema = ((some a1, some a2, some a0), none)) ∧
      (c0.name = "fraction" → c1.name = "timezone" → c2.name = "epoch" →
        threeFieldCtor array schema = ((some a2, some a1, some a0), none)) ∧
      (c0.name = "epoch" → c1.name = "timezone" → c2.name ≠ "epoch" → c2.name ≠ "timezone" →
        c2.name ≠ "fraction" →
        threeFieldCtor array schema = ((some a0, some a1, none), none))) := by
  refine ⟨?_, ?_, ?_, ?_, ?_⟩
  · rw [twoFieldEpochFractionCtor_err]; split <;> simp_all
  · rw [twoFieldEpochTimezoneCtor_err]; split <;> simp_all
  · rw [threeFieldCtor_err]; split <;> simp_all
  · intro c0 c1 a0 a1 hc ha
    refine ⟨?_, ?_, ?_, ?_, ?_, ?_⟩
    · intro h0 h1
      simp [twoFieldEpochFractionCtor, ArrowSchema.n_children, hc, ha, bindEpochFraction, h0, h1,
        internal.FIELD_NAME_EPOCH, internal.FIELD_NAME_FRACTION]
    · intro h0 h1
      simp [twoFieldEpochFractionCtor, ArrowSchema.n_children, hc, ha, bindEpochFraction, h0, h1,
        internal.FIELD_NAME_EPOCH, internal.FIELD_NAME_FRACTION]
    · intro h0 h1
      simp [twoFieldEpochTimezoneCtor, ArrowSchema.n_children, hc, ha, bindEpochTimezone, h0, h1,
        internal.FIELD_NAME_EPOCH, internal.FIELD_NAME_TIME_ZONE]
    · intro h0 h1
      simp [twoFieldEpochTimezoneCtor, ArrowSchema.n_children, hc, ha, bindEpochTimezone, h0, h1,
        internal.FIELD_NAME_EPOCH, internal.FIELD_NAME_TIME_ZONE]
    · intro h0 h1 h2
      simp [twoFieldEpochFractionCtor, ArrowSchema.n_children, hc, ha, bindEpochFraction, h0, h1,
        h2, internal.FIELD_NAME_EPOCH, internal.FIELD_NAME_FRACTION]
    · intro h0 h1 h2
      simp [twoFieldEpochTimezoneCtor, ArrowSchema.n_children, hc, ha, bindEpochTimezone, h0, h1,
        h2, internal.FIELD_NAME_EPOCH, internal.FIELD_NAME_TIME_ZONE]
  · intro c0 c1 c2 a0 a1 a2 hc ha
    refine ⟨?_, ?_, ?_, ?_, ?_, ?_, ?_⟩
    · intro h0 h1 h2
      simp [threeFieldCtor, ArrowSchema.n_children, hc, ha, bindEpochTimezoneFraction, h0, h1, h2,
        internal.FIELD_NAME_EPOCH, internal.FIELD_NAME_TIME_ZONE, internal.FIELD_NAME_FRACTION]
    · intro h0 h1 h2
      simp [threeFieldCtor, ArrowSchema.n_children, hc, ha, bindEpochTimezoneFraction, h0, h1, h2,
        internal.FIELD_NAME_EPOCH, internal.FIELD_NAME_TIME_ZONE, internal.FIELD_NAME_FRACTION]
    · intro h0 h1 h2
      simp [threeFieldCtor, ArrowSchema.n_children, hc, ha, bindEpochTimezoneFraction, h0, h1, h2,
        internal.FIELD_NAME_EPOCH, internal.FIELD_NAME_TIME_ZONE, internal.FIELD_NAME_FRACTION]
    · intro h0 h1 h2
      simp [threeFieldCtor, ArrowSchema.n_children, hc, ha, bindEpochTimezoneFraction, h0, h1, h2,
        internal.FIELD_NAME_EPOCH, internal.FIELD_NAME_TIME_ZONE, internal.FIELD_NAME_FRACTION]
    · intro h0 h1 h2
      simp [threeFieldCtor, ArrowSchema.n_children, hc, ha, bindEpochTimezoneFraction, h0, h1, h2,
        internal.FIELD_NAME_EPOCH, internal.FIELD_NAME_TIME_ZONE, internal.FIELD_NAME_FRACTION]
    · intro h0 h1 h2
      simp [threeFieldCtor, ArrowSchema.n_children, hc, ha, bindEpochTimezoneFraction, h0, h1, h2,
        internal.FIELD_NAME_EPOCH, internal.FIELD_NAME_TIME_ZONE, internal.FIELD_NAME_FRACTION]
    · intro h0 h1 h2 h3 h4
      simp [threeFieldCtor, ArrowSchema.n_children, hc, ha, bindEpochTimezoneFraction, h0, h1, h2,
        h3, h4, internal.FIELD_NAME_EPOCH, internal.FIELD_NAME_TIME_ZONE,
        internal.FIELD_NAME_FRACTION]

/-- An instance of `struct_ctor_names` at the failing input: a TIMESTAMP_NTZ
struct column with the children "epoch" and "foo".  The build records no error
and returns the two-field converter with `m_fraction` unbound, and decoding the
first row reads through that member. -/
theorem struct_ctor_names_witness :
    twoFieldEpochFractionCtor
        (sampleStructColumn 1 [intColumn NANOARROW_TYPE_INT64 none [1], intColumn NANOARROW_TYPE_INT32 none [5]])
        (sampleNestedSchema NANOARROW_TYPE_STRUCT [("logicalType", "TIMESTAMP_NTZ"), ("scale", "9")]
          ["epoch", "foo"]) =
      ((some (intColumn NANOARROW_TYPE_INT64 none [1]), none), none) ∧
    getConverterFromSchema
        (sampleNestedSchema NANOARROW_TYPE_STRUCT [("logicalType", "TIMESTAMP_NTZ"), ("scale", "9")]
          ["epoch", "foo"])
        (sampleStructColumn 1 [intColumn NANOARROW_TYPE_INT64 none [1], intColumn NANOARROW_TYPE_INT32 none [5]])
        false =
      Built.returned (some (Converter.TwoFieldTimeStampNTZConverter
        (sampleStructColumn 1 [intColumn NANOARROW_TYPE_INT64 none [1], intColumn NANOARROW_TYPE_INT32 none [5]])
        9 (some (intColumn NANOARROW_TYPE_INT64 none [1])) none)) none ∧
    (Converter.TwoFieldTimeStampNTZConverter
        (sampleStructColumn 1 [intColumn NANOARROW_TYPE_INT64 none [1], intColumn NANOARROW_TYPE_INT32 none [5]])
        9 (some (intColumn NANOARROW_TYPE_INT64 none [1])) none).toPyObject 0 =
      PyReturn.undefined :=
  ⟨((struct_ctor_names
      (sampleStructColumn 1 [intColumn NANOARROW_TYPE_INT64 none [1], intColumn NANOARROW_TYPE_INT32 none [5]])
      (sampleNestedSchema NANOARROW_TYPE_STRUCT [("logicalType", "TIMESTAMP_NTZ"), ("scale", "9")]
        ["epoch", "foo"])).2.2.2.1 _ _ _ _ rfl rfl).2.2.2.2.1 rfl (by decide) (by decide),
    rfl, rfl⟩

/-! ### The TIME rewrite -/

theorem appendRows_values {α : Type} (body : Nat → Appended α) (g : Nat → Option α)
    (rows : List Nat) (h : ∀ r ∈ rows, body r = Appended.value (g r)) :
    appendRows body rows = Rewritten.ok (rows.map g) := by
  induction rows with
  | nil => rfl
  | cons a rest ih =>
    have ha := h a (List.mem_cons_self a rest)
    have hrest := ih (fun r hr => h r (List.mem_cons_of_mem a hr))
    simp only [appendRows, ha, hrest, List.map_cons]

theorem convertTimeColumn_eq (field : ArrowSchema) (columnArray : ArrowArrayView) (scale : Int)
    (type : ArrowType) (unit : ArrowTimeUnit) (p : Int) (out : Int → Int)
    (hlayout : timeColumnLayout scale = some (type, unit, p))
    (hrows : ∀ r, r < columnArray.length → ArrowArrayViewIsNull columnArray r = false →
      timeColumnRow columnArray scale type p r =
        Appended.value (some (out (ArrowArrayViewGetIntUnsafe columnArray r)))) :
    convertTimeColumn_nanoarrow field columnArray scale =
      Rewritten.ok
        { type := type, unit := unit, name := field.name,
          values := (List.range columnArray.length).map fun r =>
            if ArrowArrayViewIsNull columnArray r then none
            else some (out (ArrowArrayViewGetIntUnsafe columnArray r)) } := by
  unfold convertTimeColumn_nanoarrow
  rw [hlayout]
  simp only
  rw [appendRows_values (timeColumnRow columnArray scale type p)
    (fun r => if ArrowArrayViewIsNull columnArray r then none
      else some (out (ArrowArrayViewGetIntUnsafe columnArray r)))]
  intro r hr
  cases hn : ArrowArrayViewIsNull columnArray r
  · simp only [Bool.false_eq_true, if_false]
    exact hrows r (List.mem_range.mp hr) hn
  · simp only [timeColumnRow, hn, if_true]

theorem timeColumnRow_mul (columnArray : ArrowArrayView) (scale : Int) (type : ArrowType)
    (p : Int) (r : Nat) (hs : scale ≤ 6)
    (hnn : ArrowArrayViewIsNull columnArray r = false)
    (h0 : 0 ≤ ArrowArrayViewGetIntUnsafe columnArray r * p)
    (h1 : ArrowArrayViewGetIntUnsafe columnArray r * p ≤ INT32_MAX) :
    timeColumnRow columnArray scale type p r =
      Appended.value (some (ArrowArrayViewGetIntUnsafe columnArray r * p)) := by
  unfold timeColumnRow ArrowArrayAppendInt
  simp only [hnn, Bool.false_eq_true, if_false, hs, if_true]
  rw [wrapInt64_of_mem _ (by unfold INT64_MIN; omega)
    (by unfold INT64_MAX; unfold INT32_MAX at h1; omega)]
  have hno : ¬ (type = NANOARROW_TYPE_TIME32 ∧
      (ArrowArrayViewGetIntUnsafe columnArray r * p < INT32_MIN ∨
        ArrowArrayViewGetIntUnsafe columnArray r * p > INT32_MAX)) := by
    unfold INT32_MIN
    rintro ⟨-, h | h⟩ <;> omega
  simp only [hno, if_false]

theorem timeColumnRow_mul64 (columnArray : ArrowArrayView) (scale : Int)
    (p : Int) (r : Nat) (hs : scale ≤ 6)
    (hnn : ArrowArrayViewIsNull columnArray r = false)
    (h0 : INT64_MIN ≤ ArrowArrayViewGetIntUnsafe columnArray r * p)
    (h1 : ArrowArrayViewGetIntUnsafe columnArray r * p ≤ INT64_MAX) :
    timeColumnRow columnArray scale NANOARROW_TYPE_TIME64 p r =
      Appended.value (some (ArrowArrayViewGetIntUnsafe columnArray r * p)) := by
  unfold timeColumnRow ArrowArrayAppendInt
  simp only [hnn, Bool.false_eq_true, if_false, hs, if_true]
  rw [wrapInt64_of_mem _ h0 h1]
  simp

theorem timeColumnRow_div (columnArray : ArrowArrayView) (scale : Int)
    (p : Int) (r : Nat) (hs : ¬ scale ≤ 6)
    (hnn : ArrowArrayViewIsNull columnArray r = false) :
    timeColumnRow columnArray scale NANOARROW_TYPE_TIME64 p r =
      Appended.value (some (Int.tdiv (ArrowArrayViewGetIntUnsafe columnArray r) p)) := by
  unfold timeColumnRow ArrowArrayAppendInt
  simp only [hnn, Bool.false_eq_true, if_false, hs]
  simp
theorem convertTimeColumn_case (field : ArrowSchema) (columnArray : ArrowArrayView) (scale : Int)
    (type : ArrowType) (unit : ArrowTimeUnit) (p : Int) (out : Int → Int)
    (hlayout : timeColumnLayout scale = some (type, unit, p))
    (hrows : ∀ r, r < columnArray.length → ArrowArrayViewIsNull columnArray r = false →
      timeColumnRow columnArray scale type p r =
        Appended.value (some (out (ArrowArrayViewGetIntUnsafe columnArray r)))) :
    ∃ col, convertTimeColumn_nanoarrow field columnArray scale = Rewritten.ok col ∧
      col.type = type ∧ col.unit = unit ∧ col.name = field.name ∧
      col.values.length = columnArray.length ∧
      ∀ r, r < columnArray.length → ArrowArrayViewIsNull columnArray r = false →
        col.values.get? r = some (some (out (ArrowArrayViewGetIntUnsafe columnArray r))) := by
  refine ⟨_, convertTimeColumn_eq field columnArray scale type unit p out hlayout hrows,
    rfl, rfl, rfl, by simp, ?_⟩
  intro r hr hnn
  simp only [List.get?_eq_getElem?, List.getElem?_map, List.getElem?_range hr, Option.map_some',
    hnn, Bool.false_eq_true, if_false]

/-- C27, as stated, fails for stored values that are not times of day.  With
scale 0 the stored value 2147483648 does not fit the 32-bit TIME32 column: the
append is refused, an error is recorded and no column is returned.  With scale
4 the stored value 92233720368547759 is multiplied by 100, which leaves the
64-bit range: the row written is not `v · 10^2`. -/
theorem timeColumn_large_value_counterexample :
    convertTimeColumn_nanoarrow (sampleSchema NANOARROW_TYPE_INT64 "TIME" "0" "0")
        (intColumn NANOARROW_TYPE_INT64 none [2147483648]) 0 =
      Rewritten.error errorAppendingInt ∧
    convertTimeColumn_nanoarrow (sampleSchema NANOARROW_TYPE_INT64 "TIME" "0" "4")
        (intColumn NANOARROW_TYPE_INT64 none [92233720368547759]) 4 =
      Rewritten.ok
        { type := NANOARROW_TYPE_TIME64, unit := NANOARROW_TIME_UNIT_MICRO, name := "c",
          values := [some (-9223372036854775716)] } ∧
    (-9223372036854775716 : Int) ≠ 92233720368547759 * 10 ^ 2 := by
  refine ⟨rfl, rfl, by decide⟩

/-- C27, amended. `convertTimeColumn_nanoarrow` on a TIME column with scale `s`
in [0, 9] whose non-null rows hold values `v ≥ 0` whose output fits the target
type (`v ≤ 2^31 - 1` for s = 0, `v · 10^(3-s) ≤ 2^31 - 1` for 1 ≤ s ≤ 3,
`v · 10^(6-s) ≤ 2^63 - 1` for 4 ≤ s ≤ 6, no bound for s ≥ 7) returns a column
of as many rows: for s = 0 of type TIME32 in seconds with row value `v`; for
1 ≤ s ≤ 3 of type TIME32 in milliseconds with `v · 10^(3-s)`; for 4 ≤ s ≤ 6 of
type TIME64 in microseconds with `v · 10^(6-s)`; for 7 ≤ s ≤ 9 of type TIME64
in microseconds with `v div 10^(s-6)`.  Each output denotes the time `v · 10^-s`
seconds in its unit, exactly for s ≤ 6 and truncated to whole microseconds for
s ≥ 7.  Every time of day, `0 ≤ v < 86400 · 10^s`, fits. -/
theorem timeColumn_units (field : ArrowSchema) (columnArray : ArrowArrayView) (s : Nat)
    (hs : s ≤ 9)
    (hall : ∀ r, r < columnArray.length → ArrowArrayViewIsNull columnArray r = false →
      0 ≤ ArrowArrayViewGetIntUnsafe columnArray r ∧
      (s = 0 → ArrowArrayViewGetIntUnsafe columnArray r ≤ 2147483647) ∧
      (1 ≤ s → s ≤ 3 → ArrowArrayViewGetIntUnsafe columnArray r * 10 ^ (3 - s) ≤ 2147483647) ∧
      (4 ≤ s → s ≤ 6 →
        ArrowArrayViewGetIntUnsafe columnArray r * 10 ^ (6 - s) ≤ 9223372036854775807)) :
    ∃ col, convertTimeColumn_nanoarrow field columnArray s = Rewritten.ok col ∧
      col.name = field.name ∧ col.values.length = columnArray.length ∧
      (s = 0 →
        col.type = NANOARROW_TYPE_TIME32 ∧ col.unit = NANOARROW_TIME_UNIT_SECOND ∧
        ∀ r, r < columnArray.length → ArrowArrayViewIsNull columnArray r = false →
          col.values.get? r = some (some (ArrowArrayViewGetIntUnsafe columnArray r))) ∧
      (1 ≤ s → s ≤ 3 →
        col.type = NANOARROW_TYPE_TIME32 ∧ col.unit = NANOARROW_TIME_UNIT_MILLI ∧
        ∀ r, r < columnArray.length → ArrowArrayViewIsNull columnArray r = false →
          col.values.get? r =
            some (some (ArrowArrayViewGetIntUnsafe columnArray r * 10 ^ (3 - s)))) ∧
      (4 ≤ s → s ≤ 6 →
        col.type = NANOARROW_TYPE_TIME64 ∧ col.unit = NANOARROW_TIME_UNIT_MICRO ∧
        ∀ r, r < columnArray.length → ArrowArrayViewIsNull columnArray r = false →
          col.values.get? r =
            some (some (ArrowArrayViewGetIntUnsafe columnArray r * 10 ^ (6 - s)))) ∧
      (7 ≤ s →
        col.type = NANOARROW_TYPE_TIME64 ∧ col.unit = NANOARROW_TIME_UNIT_MICRO ∧
        ∀ r, r < columnArray.length → ArrowArrayViewIsNull columnArray r = false →
          col.values.get? r =
            some (some (ArrowArrayViewGetIntUnsafe columnArray r / 10 ^ (s - 6)))) ∧
      (∀ v : Int, 0 ≤ v →
        (s ≤ 3 → v * 10 ^ (3 - s) * 10 ^ s = v * 10 ^ 3) ∧
        (s ≤ 6 → v * 10 ^ (6 - s) * 10 ^ s = v * 10 ^ 6) ∧
        (7 ≤ s → v / 10 ^ (s - 6) = v * 10 ^ 6 / 10 ^ s)) ∧
      (∀ v : Int, 0 ≤ v → v < 86400 * 10 ^ s →
        (s = 0 → v ≤ 2147483647) ∧
        (1 ≤ s → s ≤ 3 → v * 10 ^ (3 - s) ≤ 2147483647) ∧
        (4 ≤ s → s ≤ 6 → v * 10 ^ (6 - s) ≤ 9223372036854775807)) := by
  have harith : ∀ v : Int, 0 ≤ v →
      (s ≤ 3 → v * 10 ^ (3 - s) * 10 ^ s = v * 10 ^ 3) ∧
      (s ≤ 6 → v * 10 ^ (6 - s) * 10 ^ s = v * 10 ^ 6) ∧
      (7 ≤ s → v / 10 ^ (s - 6) = v * 10 ^ 6 / 10 ^ s) := by
    intro v hv
    refine ⟨fun h => ?_, fun h => ?_, fun h => ?_⟩
    · rw [mul_assoc, ← pow_add, Nat.sub_add_cancel h]
    · rw [mul_assoc, ← pow_add, Nat.sub_add_cancel h]
    · have h1 : (10 : Int) ^ s = 10 ^ 6 * 10 ^ (s - 6) := by
        rw [← pow_add]; congr 1; omega
      rw [h1, mul_comm ((10 : Int) ^ 6) _,
        Int.mul_ediv_mul_of_pos_left v (10 ^ (s - 6)) (by norm_num : (0 : Int) < 10 ^ 6)]
  have hday : ∀ v : Int, 0 ≤ v → v < 86400 * 10 ^ s →
      (s = 0 → v ≤ 2147483647) ∧
      (1 ≤ s → s ≤ 3 → v * 10 ^ (3 - s) ≤ 2147483647) ∧
      (4 ≤ s → s ≤ 6 → v * 10 ^ (6 - s) ≤ 9223372036854775807) := by
    intro v hv0 hv1
    interval_cases s <;> norm_num at hv1 ⊢ <;> omega
  have hmul32 : ∀ (p : Int) (u : ArrowTimeUnit),
      timeColumnLayout s = some (NANOARROW_TYPE_TIME32, u, p) → (s : Int) ≤ 6 → 0 < p →
      (∀ r, r < columnArray.length → ArrowArrayViewIsNull columnArray r = false →
        ArrowArrayViewGetIntUnsafe columnArray r * p ≤ 2147483647) →
      ∃ col, convertTimeColumn_nanoarrow field columnArray s = Rewritten.ok col ∧
        col.type = NANOARROW_TYPE_TIME32 ∧ col.unit = u ∧ col.name = field.name ∧
        col.values.length = columnArray.length ∧
        ∀ r, r < columnArray.length → ArrowArrayViewIsNull columnArray r = false →
          col.values.get? r = some (some (ArrowArrayViewGetIntUnsafe columnArray r * p)) := by
    intro p u hl hs6 hp hb
    refine convertTimeColumn_case field columnArray s _ u p (fun v => v * p) hl ?_
    intro r hr hnn
    obtain ⟨h0, -⟩ := hall r hr hnn
    exact timeColumnRow_mul columnArray s _ p r hs6 hnn (mul_nonneg h0 (le_of_lt hp))
      (hb r hr hnn)
  have hmul64 : ∀ (p : Int) (u : ArrowTimeUnit),
      timeColumnLayout s = some (NANOARROW_TYPE_TIME64, u, p) → (s : Int) ≤ 6 → 0 < p →
      (∀ r, r < columnArray.length → ArrowArrayViewIsNull columnArray r = false →
        ArrowArrayViewGetIntUnsafe columnArray r * p ≤ 9223372036854775807) →
      ∃ col, convertTimeColumn_nanoarrow field columnArray s = Rewritten.ok col ∧
        col.type = NANOARROW_TYPE_TIME64 ∧ col.unit = u ∧ col.name = field.name ∧
        col.values.length = columnArray.length ∧
        ∀ r, r < columnArray.length → ArrowArrayViewIsNull columnArray r = false →
          col.values.get? r = some (some (ArrowArrayViewGetIntUnsafe columnArray r * p)) := by
    intro p u hl hs6 hp hb
    refine convertTimeColumn_case field columnArray s _ u p (fun v => v * p) hl ?_
    intro r hr hnn
    obtain ⟨h0, -⟩ := hall r hr hnn
    refine timeColumnRow_mul64 columnArray s p r hs6 hnn ?_ (hb r hr hnn)
    unfold INT64_MIN
    have := mul_nonneg h0 (le_of_lt hp)
    omega
  have hdiv : ∀ (p : Int) (u : ArrowTimeUnit),
      timeColumnLayout s = some (NANOARROW_TYPE_TIME64, u, p) → ¬ (s : Int) ≤ 6 → 0 < p →
      ∃ col, convertTimeColumn_nanoarrow field columnArray s = Rewritten.ok col ∧
        col.type = NANOARROW_TYPE_TIME64 ∧ col.unit = u ∧ col.name = field.name ∧
        col.values.length = columnArray.length ∧
        ∀ r, r < columnArray.length → ArrowArrayViewIsNull columnArray r = false →
          col.values.get? r = some (some (ArrowArrayViewGetIntUnsafe columnArray r / p)) := by
    intro p u hl hs6 hp
    refine convertTimeColumn_case field columnArray s _ u p (fun v => v / p) hl ?_
    intro r hr hnn
    obtain ⟨h0, -⟩ := hall r hr hnn
    rw [timeColumnRow_div columnArray s p r hs6 hnn, Int.tdiv_eq_ediv h0 (le_of_lt hp)]
  interval_cases s
  · obtain ⟨col, h1, h2, h3, h4, h5, h6⟩ := hmul32 1 NANOARROW_TIME_UNIT_SECOND (by decide)
      (by decide) (by decide)
      (fun r hr hnn => by have := (hall r hr hnn).2.1 rfl; omega)
    exact ⟨col, h1, h4, h5, fun _ => ⟨h2, h3, fun r hr hnn => by simpa using h6 r hr hnn⟩,
      by omega, by omega, by omega, harith, hday⟩
  · obtain ⟨col, h1, h2, h3, h4, h5, h6⟩ := hmul32 100 NANOARROW_TIME_UNIT_MILLI (by decide)
      (by decide) (by decide)
      (fun r hr hnn => by
        have := (hall r hr hnn).2.2.1 (by decide) (by decide)
        norm_num at this
        exact this)
    exact ⟨col, h1, h4, h5, by omega, fun _ _ => ⟨h2, h3, fun r hr hnn => by
      simpa using h6 r hr hnn⟩, by omega, by omega, harith, hday⟩
  · obtain ⟨col, h1, h2, h3, h4, h5, h6⟩ := hmul32 10 NANOARROW_TIME_UNIT_MILLI (by decide)
      (by decide) (by decide)
      (fun r hr hnn => by
        have := (hall r hr hnn).2.2.1 (by decide) (by decide)
        norm_num at this
        exact this)
    exact ⟨col, h1, h4, h5, by omega, fun _ _ => ⟨h2, h3, fun r hr hnn => by
      simpa using h6 r hr hnn⟩, by omega, by omega, harith, hday⟩
  · obtain ⟨col, h1, h2, h3, h4, h5, h6⟩ := hmul32 1 NANOARROW_TIME_UNIT_MILLI (by decide)
      (by decide) (by decide)
      (fun r hr hnn => by
        have := (hall r hr hnn).2.2.1 (by decide) (by decide)
        norm_num at this
        omega)
    exact ⟨col, h1, h4, h5, by omega, fun _ _ => ⟨h2, h3, fun r hr hnn => by
      simpa using h6 r hr hnn⟩, by omega, by omega, harith, hday⟩
  · obtain ⟨col, h1, h2, h3, h4, h5, h6⟩ := hmul64 100 NANOARROW_TIME_UNIT_MICRO (by decide)
      (by decide) (by decide)
      (fun r hr hnn => by
        have := (hall r hr hnn).2.2.2 (by decide) (by decide)
        norm_num at this
        exact this)
    exact ⟨col, h1, h4, h5, by omega, by omega, fun _ _ => ⟨h2, h3, fun r hr hnn => by
      simpa using h6 r hr hnn⟩, by omega, harith, hday⟩
  · obtain ⟨col, h1, h2, h3, h4, h5, h6⟩ := hmul64 10 NANOARROW_TIME_UNIT_MICRO (by decide)
      (by decide) (by decide)
      (fun r hr hnn => by
        have := (hall r hr hnn).2.2.2 (by decide) (by decide)
        norm_num at this
        exact this)
    exact ⟨col, h1, h4, h5, by omega, by omega, fun _ _ => ⟨h2, h3, fun r hr hnn => by
      simpa using h6 r hr hnn⟩, by omega, harith, hday⟩
  · obtain ⟨col, h1, h2, h3, h4, h5, h6⟩ := hmul64 1 NANOARROW_TIME_UNIT_MICRO (by decide)
      (by decide) (by decide)
      (fun r hr hnn => by
        have := (hall r hr hnn).2.2.2 (by decide) (by decide)
        norm_num at this
        omega)
    exact ⟨col, h1, h4, h5, by omega, by omega, fun _ _ => ⟨h2, h3, fun r hr hnn => by
      simpa using h6 r hr hnn⟩, by omega, harith, hday⟩
  · obtain ⟨col, h1, h2, h3, h4, h5, h6⟩ := hdiv 10 NANOARROW_TIME_UNIT_MICRO (by decide)
      (by decide) (by decide)
    exact ⟨col, h1, h4, h5, by omega, by omega, by omega, fun _ => ⟨h2, h3, fun r hr hnn => by
      simpa using h6 r hr hnn⟩, harith, hday⟩
  · obtain ⟨col, h1, h2, h3, h4, h5, h6⟩ := hdiv 100 NANOARROW_TIME_UNIT_MICRO (by decide)
      (by decide) (by decide)
    exact ⟨col, h1, h4, h5, by omega, by omega, by omega, fun _ => ⟨h2, h3, fun r hr hnn => by
      simpa using h6 r hr hnn⟩, harith, hday⟩
  · obtain ⟨col, h1, h2, h3, h4, h5, h6⟩ := hdiv 1000 NANOARROW_TIME_UNIT_MICRO (by decide)
      (by decide) (by decide)
    exact ⟨col, h1, h4, h5, by omega, by omega, by omega, fun _ => ⟨h2, h3, fun r hr hnn => by
      simpa using h6 r hr hnn⟩, harith, hday⟩

/-- An instance of `timeColumn_units`: a TIME column of scale 7 with the rows
12345678901 (1234.5678901 s) and null. -/
theorem timeColumn_units_witness :
    ∃ col, convertTimeColumn_nanoarrow (sampleSchema NANOARROW_TYPE_INT64 "TIME" "0" "7")
        (intColumn NANOARROW_TYPE_INT64 (some [true, false]) [12345678901, 0]) (7 : Nat) =
          Rewritten.ok col ∧
      col.type = NANOARROW_TYPE_TIME64 ∧ col.unit = NANOARROW_TIME_UNIT_MICRO ∧
      col.values.length = 2 ∧ col.values.get? 0 = some (some 1234567890) := by
  obtain ⟨col, h1, _, h3, _, _, _, h7, _⟩ :=
    timeColumn_units (sampleSchema NANOARROW_TYPE_INT64 "TIME" "0" "7")
      (intColumn NANOARROW_TYPE_INT64 (some [true, false]) [12345678901, 0]) 7 (by decide)
      (by
        intro r hr hnn
        have hr2 : r < 2 := hr
        interval_cases r
        · decide
        · exact absurd hnn (by decide))
  obtain ⟨h8, h9, h10⟩ := h7 (by decide)
  exact ⟨col, h1, h8, h9, h3, h10 0 (by decide) rfl⟩

/-! ### Scales outside [0, 9] -/

theorem powTenSB4_none (i : Int) (h : i < 0 ∨ 9 < i) : internal.powTenSB4 i = none := by
  unfold internal.powTenSB4
  split
  · rfl
  · rw [List.get?_eq_none]
    simp only [internal.powTenSB4Table, List.length_cons, List.length_nil]
    omega

/-- C30. The code departs from the claim: neither mode checks the scale of a
time-unit column.  For a column of physical type int64 whose metadata give a
scale outside [0, 9], `getConverterFromSchema` builds the `TimeConverter` (for
the logical type TIME) or the `OneFieldTimeStampNTZConverter` (for
TIMESTAMP_NTZ) with that scale and records no error; `powTenSB4[scale]` is
outside the table, and `TimeConverter::toPyObject` subscripts it on every
non-null row.  In table mode `convertIfNeeded` passes the scale to
`convertTimeColumn_nanoarrow`, which for 10 ≤ scale ≤ 15 rewrites the column
with the divisor `powTenSB4[scale - 6]` without an error and for scale > 15
subscripts the table out of bounds; `convertTimestampColumn_nanoarrow` with a
scale above 9 subscripts `powTenSB4[9 - scale]` as soon as a row is
non-null. -/
theorem scale_not_validated (schema : ArrowSchema) (array : ArrowArrayView) (scale : Int)
    (hscale : timeScale schema.metadata = Except.ok scale)
    (htype : schema.type = NANOARROW_TYPE_INT64)
    (hout : scale < 0 ∨ 9 < scale) :
    internal.powTenSB4 scale = none ∧
    (logicalTypeOf schema = Except.ok SnowflakeType.TIME →
      getConverterFromSchema schema array false =
        Built.returned (some (Converter.TimeConverter array scale)) none) ∧
    (logicalTypeOf schema = Except.ok SnowflakeType.TIMESTAMP_NTZ →
      getConverterFromSchema schema array false =
        Built.returned (some (Converter.OneFieldTimeStampNTZConverter array scale)) none) ∧
    (∀ r, ArrowArrayViewIsNull array r = false →
      TimeConverter.toPyObject array scale r = PyReturn.undefined) ∧
    convertIfNeeded_TIME schema array =
      Except.ok (convertTimeColumn_nanoarrow schema array scale) ∧
    (9 < scale → scale ≤ 15 →
      convertTimeColumn_nanoarrow schema array scale =
        Rewritten.ok
          { type := NANOARROW_TYPE_TIME64, unit := NANOARROW_TIME_UNIT_MICRO,
            name := schema.name,
            values := (List.range array.length).map fun r =>
              if ArrowArrayViewIsNull array r then none
              else some (Int.tdiv (ArrowArrayViewGetIntUnsafe array r)
                (10 ^ (scale - 6).toNat)) }) ∧
    (15 < scale → convertTimeColumn_nanoarrow schema array scale = Rewritten.undefined) ∧
    (9 < scale → (∃ r, r < array.length ∧ ArrowArrayViewIsNull array r = false) →
      ∀ timezone, convertTimestampColumn_nanoarrow schema array scale timezone =
        Outcome.undefined) := by
  have hp : internal.powTenSB4 scale = none := powTenSB4_none scale hout
  refine ⟨hp, ?_, ?_, ?_, ?_, ?_, ?_, ?_⟩
  · intro hlog
    rw [getConverterFromSchema_eq schema array false _ hlog]
    simp only [timeCase, hscale, htype]
  · intro hlog
    rw [getConverterFromSchema_eq schema array false _ hlog]
    simp [timestampNTZCase, hscale, htype]
  · intro r hnn
    simp [TimeConverter.toPyObject, hnn, internal.getHourFromSeconds, hp]
  · simp only [convertIfNeeded_TIME, hscale]
  · intro h9 h15
    have key : ∀ p : Int, timeColumnLayout scale =
        some (NANOARROW_TYPE_TIME64, NANOARROW_TIME_UNIT_MICRO, p) →
        convertTimeColumn_nanoarrow schema array scale =
          Rewritten.ok
            { type := NANOARROW_TYPE_TIME64, unit := NANOARROW_TIME_UNIT_MICRO,
              name := schema.name,
              values := (List.range array.length).map fun r =>
                if ArrowArrayViewIsNull array r then none
                else some (Int.tdiv (ArrowArrayViewGetIntUnsafe array r) p) } := by
      intro p hl
      exact convertTimeColumn_eq schema array scale _ _ p (fun v => Int.tdiv v p) hl
        (fun r _ hnn => timeColumnRow_div array scale p r (by omega) hnn)
    interval_cases scale
    · exact key 10000 (by decide)
    · exact key 100000 (by decide)
    · exact key 1000000 (by decide)
    · exact key 10000000 (by decide)
    · exact key 100000000 (by decide)
    · exact key 1000000000 (by decide)
  · intro h15
    have h0 : ¬ scale = 0 := by omega
    have h3 : ¬ scale ≤ 3 := by omega
    have h6 : ¬ scale ≤ 6 := by omega
    have hq : internal.powTenSB4 (scale - 6) = none := powTenSB4_none _ (Or.inr (by omega))
    simp [convertTimeColumn_nanoarrow, timeColumnLayout, h0, h3, h6, hq]
  · intro h9 hrow timezone
    have h6 : ¬ scale ≤ 6 := by omega
    have hq : internal.powTenSB4 (9 - scale) = none := powTenSB4_none _ (Or.inl (by omega))
    have hall : ((List.range array.length).all fun rowIdx => ArrowArrayViewIsNull array rowIdx)
        = false := by
      obtain ⟨r, hr, hnn⟩ := hrow
      rw [Bool.eq_false_iff]
      intro h
      rw [List.all_eq_true] at h
      have := h r (List.mem_range.mpr hr)
      rw [hnn] at this
      exact absurd this (by decide)
    simp [convertTimestampColumn_nanoarrow, computeHasOverflowToDownscale, htype, h6, hq, hall]

/-- An instance of `scale_not_validated`: a TIME column whose metadata give
the scale 10, with the one row 36000000000000. -/
theorem scale_not_validated_witness :
    timeScale (sampleSchema NANOARROW_TYPE_INT64 "TIME" "0" "10").metadata = Except.ok 10 ∧
    getConverterFromSchema (sampleSchema NANOARROW_TYPE_INT64 "TIME" "0" "10")
        (intColumn NANOARROW_TYPE_INT64 none [36000000000000]) false =
      Built.returned (some (Converter.TimeConverter
        (intColumn NANOARROW_TYPE_INT64 none [36000000000000]) 10)) none ∧
    TimeConverter.toPyObject (intColumn NANOARROW_TYPE_INT64 none [36000000000000]) 10 0 =
      PyReturn.undefined ∧
    convertIfNeeded_TIME (sampleSchema NANOARROW_TYPE_INT64 "TIME" "0" "10")
        (intColumn NANOARROW_TYPE_INT64 none [36000000000000]) =
      Except.ok (Rewritten.ok
        { type := NANOARROW_TYPE_TIME64, unit := NANOARROW_TIME_UNIT_MICRO, name := "c",
          values := [some 3600000000] }) :=
  have h := scale_not_validated (sampleSchema NANOARROW_TYPE_INT64 "TIME" "0" "10")
    (intColumn NANOARROW_TYPE_INT64 none [36000000000000]) 10 rfl rfl (Or.inr (by decide))
  ⟨rfl, h.2.1 rfl, h.2.2.2.1 0 rfl,
    h.2.2.2.2.1.trans (congrArg Except.ok (h.2.2.2.2.2.1 (by decide) (by decide)))⟩

/-! ### The TIMESTAMP_TZ rewrite -/

theorem tz16_sum (e f p q : Int) (hp0 : 0 < p) (hp : p ≤ 1000000000) (hq : 0 < q)
    (he0 : -9223372035 ≤ e) (he1 : e ≤ 9223372035) (hf0 : 0 ≤ f) (hf1 : f < 1000000000) :
    wrapInt64 (wrapInt64 (e * p) + Int.tdiv f q) = e * p + f / q := by
  have h1 : -9223372035000000000 ≤ e * p := by nlinarith
  have h2 : e * p ≤ 9223372035000000000 := by nlinarith
  have h3 : 0 ≤ f / q := Int.ediv_nonneg hf0 (le_of_lt hq)
  have h4 : f / q ≤ f := Int.ediv_le_self q hf0
  rw [Int.tdiv_eq_ediv hf0 (le_of_lt hq),
    wrapInt64_of_mem (e * p) (by unfold INT64_MIN; omega) (by unfold INT64_MAX; omega),
    wrapInt64_of_mem _ (by unfold INT64_MIN; omega) (by unfold INT64_MAX; omega)]

theorem timestampTZRow_16 (columnArray epochArray fractionArray : ArrowArrayView) (s : Nat)
    (r : Nat) (hs : s ≤ 9) (hnn : ArrowArrayViewIsNull columnArray r = false)
    (he0 : -9223372035 ≤ ArrowArrayViewGetIntUnsafe epochArray r)
    (he1 : ArrowArrayViewGetIntUnsafe epochArray r ≤ 9223372035)
    (hf0 : 0 ≤ ArrowArrayViewGetIntUnsafe fractionArray r)
    (hf1 : ArrowArrayViewGetIntUnsafe fractionArray r < 1000000000) :
    timestampTZRow columnArray (some epochArray) (some fractionArray) s 16 r =
      Appended.value (some (
        if s = 0 then ArrowArrayViewGetIntUnsafe epochArray r
        else if s ≤ 3 then
          ArrowArrayViewGetIntUnsafe epochArray r * 10 ^ (3 - s) +
            ArrowArrayViewGetIntUnsafe fractionArray r / 1000000
        else if s ≤ 6 then
          ArrowArrayViewGetIntUnsafe epochArray r * 1000000 +
            ArrowArrayViewGetIntUnsafe fractionArray r / 1000
        else
          ArrowArrayViewGetIntUnsafe epochArray r * 1000000000 +
            ArrowArrayViewGetIntUnsafe fractionArray r)) := by
  have hdiv1 : ∀ x : Int, Int.tdiv x 1 = x := fun x => Int.tdiv_one x
  have hsum := fun p q hp0 hp hq => tz16_sum (ArrowArrayViewGetIntUnsafe epochArray r)
    (ArrowArrayViewGetIntUnsafe fractionArray r) p q hp0 hp hq he0 he1 hf0 hf1
  have h9 := hsum 1000000000 1 (by norm_num) (by norm_num) (by norm_num)
  have h6 := hsum 1000000 1000 (by norm_num) (by norm_num) (by norm_num)
  have h3 := hsum 1 1000000 (by norm_num) (by norm_num) (by norm_num)
  have h2 := hsum 10 1000000 (by norm_num) (by norm_num) (by norm_num)
  have h1 := hsum 100 1000000 (by norm_num) (by norm_num) (by norm_num)
  rw [hdiv1, Int.ediv_one] at h9
  rw [mul_one] at h3
  have hty : ¬ (NANOARROW_TYPE_TIMESTAMP = NANOARROW_TYPE_TIME32) := by decide
  unfold timestampTZRow ArrowArrayAppendInt
  interval_cases s <;>
    simp [hnn, hty, internal.powTenSB4, internal.powTenSB4Table, h1, h2, h3, h6, h9]

theorem convertTimestampTZColumn_eq (field : ArrowSchema) (columnArray : ArrowArrayView)
    (scale byteLength : Int) (timezone : String) (out : Nat → Int)
    (hrows : ∀ r, r < columnArray.length → ArrowArrayViewIsNull columnArray r = false →
      timestampTZRow columnArray
        (bindEpochFraction field.children columnArray.children (none, none)).1
        (bindEpochFraction field.children columnArray.children (none, none)).2
        scale byteLength r = Appended.value (some (out r))) :
    convertTimestampTZColumn_nanoarrow field columnArray scale byteLength timezone =
      Rewritten.ok
        { unit :=
            if scale = 0 then NANOARROW_TIME_UNIT_SECOND
            else if scale ≤ 3 then NANOARROW_TIME_UNIT_MILLI
            else if scale ≤ 6 then NANOARROW_TIME_UNIT_MICRO
            else NANOARROW_TIME_UNIT_NANO,
          timezone := if timezone.isEmpty then none else some timezone,
          name := field.name,
          values := (List.range columnArray.length).map fun r =>
            if ArrowArrayViewIsNull columnArray r then none else some (out r) } := by
  unfold convertTimestampTZColumn_nanoarrow
  simp only
  rw [appendRows_values _
    (fun r => if ArrowArrayViewIsNull columnArray r then none else some (out r))]
  intro r hr
  cases hn : ArrowArrayViewIsNull columnArray r
  · simp only [Bool.false_eq_true, if_false]
    exact hrows r (List.mem_range.mp hr) hn
  · unfold timestampTZRow
    simp only [hn, Bool.not_true, Bool.false_eq_true, if_false, if_true]

/-- C22. The code departs from the claim for the scales 1, 2 and 3.  With
byteLength 16, both children bound, and every non-null row holding an epoch of
magnitude at most 9223372035 seconds and a fraction in [0, 10^9),
`convertTimestampTZColumn_nanoarrow` succeeds at every scale s in [0, 9] and
a non-null row holds: `epoch` for s = 0 (unit second); `epoch · 10^(3-s) +
fraction div 10^6` for 1 ≤ s ≤ 3 (unit millisecond); `epoch · 10^6 + fraction
div 10^3` for 4 ≤ s ≤ 6 (unit microsecond); `epoch · 10^9 + fraction` for
s ≥ 7 (unit nanosecond).  For s = 0 and s ≥ 4 this is the value
`epoch · 10^U + fraction div 10^(9-U)` of the claim; for 1 ≤ s ≤ 3 the epoch is
multiplied by `10^(3-s)` instead of `10^3`, and the value differs from the
claimed one as soon as the epoch is not 0. -/
theorem timestampTZ_byteLength16 (field : ArrowSchema)
    (columnArray epochArray fractionArray : ArrowArrayView) (s : Nat) (timezone : String)
    (hs : s ≤ 9)
    (hbind : bindEpochFraction field.children columnArray.children (none, none) =
      (some epochArray, some fractionArray))
    (hall : ∀ r, r < columnArray.length → ArrowArrayViewIsNull columnArray r = false →
      -9223372035 ≤ ArrowArrayViewGetIntUnsafe epochArray r ∧
      ArrowArrayViewGetIntUnsafe epochArray r ≤ 9223372035 ∧
      0 ≤ ArrowArrayViewGetIntUnsafe fractionArray r ∧
      ArrowArrayViewGetIntUnsafe fractionArray r < 1000000000) :
    ∃ col, convertTimestampTZColumn_nanoarrow field columnArray s 16 timezone =
        Rewritten.ok col ∧
      col.values.length = columnArray.length ∧
      (col.unit =
        if s = 0 then NANOARROW_TIME_UNIT_SECOND
        else if s ≤ 3 then NANOARROW_TIME_UNIT_MILLI
        else if s ≤ 6 then NANOARROW_TIME_UNIT_MICRO
        else NANOARROW_TIME_UNIT_NANO) ∧
      ∀ r, r < columnArray.length → ArrowArrayViewIsNull columnArray r = false →
        (s = 0 → col.values.get? r = some (some (ArrowArrayViewGetIntUnsafe epochArray r)) ∧
          ArrowArrayViewGetIntUnsafe epochArray r =
            ArrowArrayViewGetIntUnsafe epochArray r * 10 ^ 0 +
              ArrowArrayViewGetIntUnsafe fractionArray r / 10 ^ 9) ∧
        (1 ≤ s → s ≤ 3 →
          col.values.get? r = some (some (
            ArrowArrayViewGetIntUnsafe epochArray r * 10 ^ (3 - s) +
              ArrowArrayViewGetIntUnsafe fractionArray r / 10 ^ 6)) ∧
          (ArrowArrayViewGetIntUnsafe epochArray r ≠ 0 →
            col.values.get? r ≠ some (some (
              ArrowArrayViewGetIntUnsafe epochArray r * 10 ^ 3 +
                ArrowArrayViewGetIntUnsafe fractionArray r / 10 ^ 6)))) ∧
        (4 ≤ s → s ≤ 6 →
          col.values.get? r = some (some (
            ArrowArrayViewGetIntUnsafe epochArray r * 10 ^ 6 +
              ArrowArrayViewGetIntUnsafe fractionArray r / 10 ^ 3))) ∧
        (7 ≤ s →
          col.values.get? r = some (some (
            ArrowArrayViewGetIntUnsafe epochArray r * 10 ^ 9 +
              ArrowArrayViewGetIntUnsafe fractionArray r / 10 ^ 0))) := by
  have hcol := convertTimestampTZColumn_eq field columnArray s 16 timezone
    (fun r =>
      if s = 0 then ArrowArrayViewGetIntUnsafe epochArray r
      else if s ≤ 3 then
        ArrowArrayViewGetIntUnsafe epochArray r * 10 ^ (3 - s) +
          ArrowArrayViewGetIntUnsafe fractionArray r / 1000000
      else if s ≤ 6 then
        ArrowArrayViewGetIntUnsafe epochArray r * 1000000 +
          ArrowArrayViewGetIntUnsafe fractionArray r / 1000
      else
        ArrowArrayViewGetIntUnsafe epochArray r * 1000000000 +
          ArrowArrayViewGetIntUnsafe fractionArray r)
    (by
      intro r hr hnn
      obtain ⟨h1, h2, h3, h4⟩ := hall r hr hnn
      rw [hbind]
      exact timestampTZRow_16 columnArray epochArray fractionArray s r hs hnn h1 h2 h3 h4)
  refine ⟨_, hcol, by simp, ?_, ?_⟩
  · simp only [Nat.cast_eq_zero, Nat.cast_le_ofNat]
  · intro r hr hnn
    obtain ⟨h1, h2, h3, h4⟩ := hall r hr hnn
    simp only [List.get?_eq_getElem?, List.getElem?_map, List.getElem?_range hr,
      Option.map_some', hnn, Bool.false_eq_true, if_false]
    refine ⟨fun h0 => ?_, fun h1s h3s => ?_, fun h4s h6s => ?_, fun h7s => ?_⟩
    · refine ⟨by simp [h0], ?_⟩
      have : ArrowArrayViewGetIntUnsafe fractionArray r / 10 ^ 9 = 0 :=
        Int.ediv_eq_zero_of_lt h3 (by norm_num; exact h4)
      rw [this]; ring
    · have hne : ¬ s = 0 := by omega
      refine ⟨by simp [hne, h3s], fun he => ?_⟩
      simp only [hne, h3s, if_false, if_true]
      intro heq
      have heq2 := Option.some.inj (Option.some.inj heq)
      have h5 := mul_left_cancel₀ he (add_right_cancel heq2)
      have h6 : (10 : Nat) ^ (3 - s) = 10 ^ 3 := by exact_mod_cast h5
      have h7 : 3 - s = 3 := Nat.pow_right_injective (by norm_num : 2 ≤ 10) h6
      omega
    · have hne : ¬ s = 0 := by omega
      have h3n : ¬ s ≤ 3 := by omega
      simp [hne, h3n, h6s]
    · have hne : ¬ s = 0 := by omega
      have h3n : ¬ s ≤ 3 := by omega
      have h6n : ¬ s ≤ 6 := by omega
      simp [hne, h3n, h6n]

/-- An instance of `timestampTZ_byteLength16`: scale 3, one row with epoch 1
and fraction 500000000, the instant 1.5 s: the rewritten row holds 501
milliseconds, not 1500. -/
theorem timestampTZ_byteLength16_witness :
    ∃ col, convertTimestampTZColumn_nanoarrow
        (sampleNestedSchema NANOARROW_TYPE_STRUCT
          [("logicalType", "TIMESTAMP_TZ"), ("scale", "3"), ("byteLength", "16")]
          ["epoch", "timezone", "fraction"])
        (sampleStructColumn 1 [intColumn NANOARROW_TYPE_INT64 none [1],
          intColumn NANOARROW_TYPE_INT32 none [0], intColumn NANOARROW_TYPE_INT32 none [500000000]])
        (3 : Nat) 16 "UTC" = Rewritten.ok col ∧
      col.unit = NANOARROW_TIME_UNIT_MILLI ∧
      col.values.get? 0 = some (some 501) ∧
      col.values.get? 0 ≠ some (some 1500) := by
  obtain ⟨col, h1, _, h3, h4⟩ := timestampTZ_byteLength16
    (sampleNestedSchema NANOARROW_TYPE_STRUCT
      [("logicalType", "TIMESTAMP_TZ"), ("scale", "3"), ("byteLength", "16")]
      ["epoch", "timezone", "fraction"])
    (sampleStructColumn 1 [intColumn NANOARROW_TYPE_INT64 none [1],
      intColumn NANOARROW_TYPE_INT32 none [0], intColumn NANOARROW_TYPE_INT32 none [500000000]])
    (intColumn NANOARROW_TYPE_INT64 none [1]) (intColumn NANOARROW_TYPE_INT32 none [500000000])
    3 "UTC" (by decide) rfl
    (by
      intro r hr _
      have hr1 : r < 1 := hr
      interval_cases r
      decide)
  obtain ⟨h5, h6⟩ := (h4 0 (by decide) rfl).2.1 (by decide) (by decide)
  exact ⟨col, h1, h3, h5, h6 (by decide)⟩

/-! ### Rows and nulls of the rewritten columns -/

theorem appendRows_nulls {α : Type} (body : Nat → Appended α) (isNull : Nat → Bool)
    (hbody : ∀ r v, body r = Appended.value v → (v = none ↔ isNull r = true)) :
    ∀ (rows : List Nat) (values : List (Option α)),
      appendRows body rows = Rewritten.ok values →
      values.length = rows.length ∧
      ∀ i, i < rows.length →
        (values.get? i = some none ↔ (rows.get? i).map isNull = some true) := by
  intro rows
  induction rows with
  | nil =>
    intro values h
    simp only [appendRows, Rewritten.ok.injEq] at h
    subst h
    exact ⟨rfl, fun i hi => absurd hi (Nat.not_lt_zero i)⟩
  | cons a rest ih =>
    intro values h
    rw [appendRows] at h
    cases hb : body a with
    | value v =>
      rw [hb] at h
      cases hr : appendRows body rest with
      | ok vs =>
        rw [hr] at h
        simp only [Rewritten.ok.injEq] at h
        subst h
        obtain ⟨hlen, hget⟩ := ih vs hr
        refine ⟨by simp [hlen], ?_⟩
        intro i hi
        cases i with
        | zero =>
          simp only [List.get?_cons_zero, Option.some.injEq, Option.map_some']
          exact hbody a v hb
        | succ j =>
          simp only [List.get?_cons_succ]
          exact hget j (Nat.lt_of_succ_lt_succ hi)
      | error m => rw [hr] at h; exact absurd h (by simp)
      | thrown => rw [hr] at h; exact absurd h (by simp)
      | undefined => rw [hr] at h; exact absurd h (by simp)
    | error m => rw [hb] at h; exact absurd h (by simp)
    | thrown => rw [hb] at h; exact absurd h (by simp)
    | undefined => rw [hb] at h; exact absurd h (by simp)

theorem appendRows_range_nulls {α : Type} (body : Nat → Appended α) (isNull : Nat → Bool)
    (hbody : ∀ r v, body r = Appended.value v → (v = none ↔ isNull r = true))
    (n : Nat) (values : List (Option α))
    (h : appendRows body (List.range n) = Rewritten.ok values) :
    values.length = n ∧
    ∀ i, i < n → (values.get? i = some none ↔ isNull i = true) := by
  obtain ⟨hlen, hget⟩ := appendRows_nulls body isNull hbody (List.range n) values h
  rw [List.length_range] at hlen hget
  refine ⟨hlen, fun i hi => ?_⟩
  have := hget i hi
  rw [List.get?_eq_getElem?, List.get?_eq_getElem?, List.getElem?_range hi] at this
  rw [List.get?_eq_getElem?]
  simpa using this

theorem map_range_nulls {α : Type} (isNull : Nat → Bool) (f : Nat → α) (n : Nat) :
    ((List.range n).map fun r => if isNull r then none else some (f r)).length = n ∧
    ∀ i, i < n →
      (((List.range n).map fun r => if isNull r then none else some (f r)).get? i = some none ↔
        isNull i = true) := by
  refine ⟨by simp, fun i hi => ?_⟩
  simp only [List.get?_eq_getElem?, List.getElem?_map, List.getElem?_range hi, Option.map_some',
    Option.some.injEq]
  cases isNull i <;> simp

theorem ArrowArrayAppendInt_value (type : ArrowType) (x : Int) (v : Option Int)
    (h : ArrowArrayAppendInt type x = Appended.value v) : v ≠ none := by
  unfold ArrowArrayAppendInt at h
  split at h
  · exact absurd h (by simp)
  · simp only [Appended.value.injEq] at h
    subst h
    simp

theorem timeColumnRow_nulls (columnArray : ArrowArrayView) (scale : Int) (type : ArrowType)
    (p : Int) (r : Nat) (v : Option Int)
    (h : timeColumnRow columnArray scale type p r = Appended.value v) :
    v = none ↔ ArrowArrayViewIsNull columnArray r = true := by
  unfold timeColumnRow at h
  cases hn : ArrowArrayViewIsNull columnArray r
  · simp only [hn, Bool.false_eq_true, if_false] at h
    simpa using ArrowArrayAppendInt_value _ _ v h
  · simp only [hn, if_true, Appended.value.injEq] at h
    simp [← h]

theorem doubleColumnRow_nulls (columnArray : ArrowArrayView) (scale : Nat)
    (r : Nat) (v : Option DoubleExpr)
    (h : doubleColumnRow columnArray scale r = Appended.value v) :
    v = none ↔ ArrowArrayViewIsNull columnArray r = true := by
  unfold doubleColumnRow at h
  cases hn : ArrowArrayViewIsNull columnArray r
  · simp only [hn, Bool.false_eq_true, if_false] at h
    cases hc : convertScaledFixedNumberToDouble scale (ArrowArrayViewGetIntUnsafe columnArray r)
      <;> rw [hc] at h <;> simp at h
    simp [← h]
  · simp only [hn, if_true, Appended.value.injEq] at h
    simp [← h]

theorem timestampTZRow_nulls (columnArray : ArrowArrayView)
    (epochArray fractionArray : Option ArrowArrayView) (scale byteLength : Int)
    (r : Nat) (v : Option Int)
    (h : timestampTZRow columnArray epochArray fractionArray scale byteLength r =
      Appended.value v) :
    v = none ↔ ArrowArrayViewIsNull columnArray r = true := by
  unfold timestampTZRow at h
  cases hn : ArrowArrayViewIsNull columnArray r
  · simp only [hn, Bool.not_false, if_true] at h
    have hv : v ≠ none := by
      repeat' split at h
      all_goals first
        | exact ArrowArrayAppendInt_value _ _ v h
        | exact absurd h (by simp)
    simpa using hv
  · simp only [hn, Bool.not_true, Bool.false_eq_true, if_false, Appended.value.injEq] at h
    simp [← h]

theorem appendStructRows_nulls (columnArray epochArray fractionArray : ArrowArrayView)
    (flag : Bool) (p6 p9 : Int) :
    (appendStructRows columnArray epochArray fractionArray flag p6 p9).length =
      columnArray.length ∧
    ∀ i, i < columnArray.length →
      ((appendStructRows columnArray epochArray fractionArray flag p6 p9).get? i = some none ↔
        ArrowArrayViewIsNull columnArray i = true) := by
  unfold appendStructRows
  refine ⟨by simp, fun i hi => ?_⟩
  simp only [List.get?_eq_getElem?, List.getElem?_map, List.getElem?_range hi, Option.map_some',
    Option.some.injEq]
  cases ArrowArrayViewIsNull columnArray i <;> cases flag <;> simp

theorem allNull_nulls (columnArray : ArrowArrayView)
    (hall : ((List.range columnArray.length).all fun rowIdx =>
      ArrowArrayViewIsNull columnArray rowIdx) = true) :
    ((List.range columnArray.length).map fun _ => (none : Option Int)).length =
      columnArray.length ∧
    ∀ i, i < columnArray.length →
      (((List.range columnArray.length).map fun _ => (none : Option Int)).get? i = some none ↔
        ArrowArrayViewIsNull columnArray i = true) := by
  refine ⟨by simp, fun i hi => ?_⟩
  rw [List.all_eq_true] at hall
  have hn := hall i (List.mem_range.mpr hi)
  simp only [List.get?_eq_getElem?, List.getElem?_map, List.getElem?_range hi, Option.map_some',
    hn]

theorem convertTimestampColumn_nulls (field : ArrowSchema) (columnArray : ArrowArrayView)
    (scale : Int) (timezone : String) (col : TimestampColumn)
    (h : convertTimestampColumn_nanoarrow field columnArray scale timezone = Outcome.ok col) :
    col.values.length = columnArray.length ∧
    ∀ i, i < columnArray.length →
      (col.values.get? i = some none ↔ ArrowArrayViewIsNull columnArray i = true) := by
  have hs := fun p => map_range_nulls (fun r => ArrowArrayViewIsNull columnArray r)
    (fun r => wrapInt64 (ArrowArrayViewGetIntUnsafe columnArray r * p)) columnArray.length
  have hst := appendStructRows_nulls columnArray
  have hnull := allNull_nulls columnArray
  unfold convertTimestampColumn_nanoarrow at h
  simp only at h
  repeat' split at h
  all_goals cases h
  all_goals first
    | exact hs _
    | exact hst _ _ _ _ _
    | exact hnull (by assumption)

/-- C28. Each column rewrite of the table reconstruction that returns a
column (fixed to decimal, fixed to double, TIME, TIMESTAMP_NTZ/LTZ,
TIMESTAMP_TZ) returns one with as many rows as the input column, and row `i`
of it is null exactly when row `i` of the input is null. -/
theorem rewrites_preserve_rows (field : ArrowSchema) (columnArray : ArrowArrayView) :
    (∀ (scale : Nat) (col : DecimalColumn),
      convertScaledFixedNumberColumnToDecimalColumn_nanoarrow field columnArray scale =
        Rewritten.ok col →
      col.values.length = columnArray.length ∧
      ∀ i, i < columnArray.length →
        (col.values.get? i = some none ↔ ArrowArrayViewIsNull columnArray i = true)) ∧
    (∀ (scale : Nat) (col : DoubleColumn),
      convertScaledFixedNumberColumnToDoubleColumn_nanoarrow field columnArray scale =
        Rewritten.ok col →
      col.values.length = columnArray.length ∧
      ∀ i, i < columnArray.length →
        (col.values.get? i = some none ↔ ArrowArrayViewIsNull columnArray i = true)) ∧
    (∀ (scale : Int) (col : TimeColumn),
      convertTimeColumn_nanoarrow field columnArray scale = Rewritten.ok col →
      col.values.length = columnArray.length ∧
      ∀ i, i < columnArray.length →
        (col.values.get? i = some none ↔ ArrowArrayViewIsNull columnArray i = true)) ∧
    (∀ (scale : Int) (timezone : String) (col : TimestampColumn),
      convertTimestampColumn_nanoarrow field columnArray scale timezone = Outcome.ok col →
      col.values.length = columnArray.length ∧
      ∀ i, i < columnArray.length →
        (col.values.get? i = some none ↔ ArrowArrayViewIsNull columnArray i = true)) ∧
    (∀ (scale byteLength : Int) (timezone : String) (col : TimestampColumn),
      convertTimestampTZColumn_nanoarrow field columnArray scale byteLength timezone =
        Rewritten.ok col →
      col.values.length = columnArray.length ∧
      ∀ i, i < columnArray.length →
        (col.values.get? i = some none ↔ ArrowArrayViewIsNull columnArray i = true)) := by
  refine ⟨?_, ?_, ?_, ?_, ?_⟩
  · intro scale col h
    unfold convertScaledFixedNumberColumnToDecimalColumn_nanoarrow at h
    split at h <;> cases h
    next values hv =>
    refine appendRows_range_nulls _ (fun r => ArrowArrayViewIsNull columnArray r) ?_ _ values hv
    intro r v hb
    cases hn : ArrowArrayViewIsNull columnArray r
    · simp only [hn, Bool.false_eq_true, if_false, Appended.value.injEq] at hb
      simp [← hb, hn]
    · simp only [hn, if_true, Appended.value.injEq] at hb
      simp [← hb, hn]
  · intro scale col h
    unfold convertScaledFixedNumberColumnToDoubleColumn_nanoarrow at h
    split at h <;> cases h
    next values hv =>
    exact appendRows_range_nulls _ (fun r => ArrowArrayViewIsNull columnArray r)
      (doubleColumnRow_nulls columnArray scale) _ values hv
  · intro scale col h
    unfold convertTimeColumn_nanoarrow at h
    split at h
    · cases h
    · split at h <;> cases h
      next values hv =>
      exact appendRows_range_nulls _ (fun r => ArrowArrayViewIsNull columnArray r)
        (timeColumnRow_nulls columnArray scale _ _) _ values hv
  · intro scale timezone col h
    exact convertTimestampColumn_nulls field columnArray scale timezone col h
  · intro scale byteLength timezone col h
    unfold convertTimestampTZColumn_nanoarrow at h
    simp only at h
    split at h <;> cases h
    next values hv =>
    exact appendRows_range_nulls _ (fun r => ArrowArrayViewIsNull columnArray r)
      (timestampTZRow_nulls columnArray _ _ scale byteLength) _ values hv

/-- An instance of `rewrites_preserve_rows`: the fixed-to-decimal rewrite of a
column of scale 2 with the rows 5 and null. -/
theorem rewrites_preserve_rows_witness :
    convertScaledFixedNumberColumnToDecimalColumn_nanoarrow
        (sampleSchema NANOARROW_TYPE_INT64 "FIXED" "10" "2")
        (intColumn NANOARROW_TYPE_INT64 (some [true, false]) [5, 0]) 2 =
      Rewritten.ok { precision := 38, scale := 2, name := "c", values := [some 5, none] } ∧
    ([some 5, none] : List (Option Int)).length =
      (intColumn NANOARROW_TYPE_INT64 (some [true, false]) [5, 0]).length ∧
    ∀ i, i < (intColumn NANOARROW_TYPE_INT64 (some [true, false]) [5, 0]).length →
      (([some 5, none] : List (Option Int)).get? i = some none ↔
        ArrowArrayViewIsNull (intColumn NANOARROW_TYPE_INT64 (some [true, false]) [5, 0]) i
          = true) :=
  ⟨rfl, (rewrites_preserve_rows (sampleSchema NANOARROW_TYPE_INT64 "FIXED" "10" "2")
    (intColumn NANOARROW_TYPE_INT64 (some [true, false]) [5, 0])).1 2
    { precision := 38, scale := 2, name := "c", values := [some 5, none] } rfl⟩

/-! ### The text of convertScaledFixedNumberToDouble -/

theorem digitChar_spec (d : Nat) (hd : d < 10) :
    (digitChar d).isDigit = true ∧ ((digitChar d).toNat : Int) - 48 = d ∧ digitChar d ≠ '-' := by
  interval_cases d <;> decide

theorem digitsValue_foldl (ds : List Char) (init : Int) :
    ds.foldl (fun acc c => acc * 10 + ((c.toNat : Int) - 48)) init =
      init * 10 ^ ds.length + digitsValue ds := by
  unfold digitsValue
  induction ds generalizing init with
  | nil => simp
  | cons c cs ih =>
    simp only [List.foldl_cons, List.length_cons]
    rw [ih, ih (0 * 10 + ((c.toNat : Int) - 48))]
    ring

theorem digitsValue_append (a b : List Char) :
    digitsValue (a ++ b) = digitsValue a * 10 ^ b.length + digitsValue b := by
  unfold digitsValue
  rw [List.foldl_append, digitsValue_foldl]
  rfl

theorem decimalDigits_spec (fuel : Nat) :
    ∀ (n : Nat) (acc : List Char), n < 10 ^ (fuel + 1) →
      ∃ ds : List Char, decimalDigits (fuel + 1) n acc = ds ++ acc ∧ ds ≠ [] ∧
        (∀ c ∈ ds, c.isDigit = true) ∧ digitsValue ds = n := by
  have hone : ∀ (n : Nat), n / 10 = 0 →
      [digitChar (n % 10)] ≠ [] ∧ (∀ c ∈ [digitChar (n % 10)], c.isDigit = true) ∧
        digitsValue [digitChar (n % 10)] = n := by
    intro n hq
    have hmod := digitChar_spec (n % 10) (Nat.mod_lt n (by norm_num))
    refine ⟨by simp, ?_, ?_⟩
    · intro c hc
      rw [List.mem_singleton] at hc
      rw [hc]
      exact hmod.1
    · have : digitsValue [digitChar (n % 10)] = ((digitChar (n % 10)).toNat : Int) - 48 := by
        simp [digitsValue]
      rw [this, hmod.2.1]
      have hn : n % 10 = n := by omega
      rw [hn]
  induction fuel with
  | zero =>
    intro n acc h
    have hq : n / 10 = 0 := by omega
    unfold decimalDigits
    rw [if_pos hq]
    exact ⟨[digitChar (n % 10)], rfl, hone n hq⟩
  | succ fuel ih =>
    intro n acc h
    unfold decimalDigits
    have hmod := digitChar_spec (n % 10) (Nat.mod_lt n (by norm_num))
    by_cases hq : n / 10 = 0
    · rw [if_pos hq]
      exact ⟨[digitChar (n % 10)], rfl, hone n hq⟩
    · rw [if_neg hq]
      have hlt : n / 10 < 10 ^ (fuel + 1) := by
        rw [pow_succ] at h
        exact Nat.div_lt_of_lt_mul (by rw [mul_comm]; exact h)
      obtain ⟨ds, h1, h2, h3, h4⟩ := ih (n / 10) (digitChar (n % 10) :: acc) hlt
      refine ⟨ds ++ [digitChar (n % 10)], by rw [h1]; simp, by simp, ?_, ?_⟩
      · intro c hc
        rw [List.mem_append, List.mem_singleton] at hc
        rcases hc with hc | hc
        · exact h3 c hc
        · rw [hc]; exact hmod.1
      · rw [digitsValue_append, h4]
        have : digitsValue [digitChar (n % 10)] = ((digitChar (n % 10)).toNat : Int) - 48 := by
          simp [digitsValue]
        rw [this, hmod.2.1]
        simp only [List.length_singleton, pow_one]
        have := Nat.div_add_mod n 10
        push_cast
        omega

theorem to_string_spec (v : Int) :
    ∃ ds : List Char, to_string v = (if v < 0 then ['-'] else []) ++ ds ∧ ds ≠ [] ∧
      (∀ c ∈ ds, c.isDigit = true) ∧ digitsValue ds = |v| := by
  have hlt : v.natAbs < 10 ^ (v.natAbs + 1) :=
    lt_trans (Nat.lt_pow_self (by norm_num : 1 < 10) v.natAbs)
      (Nat.pow_lt_pow_right (by norm_num) (Nat.lt_succ_self _))
  obtain ⟨ds, h1, h2, h3, h4⟩ := decimalDigits_spec v.natAbs v.natAbs [] hlt
  rw [List.append_nil] at h1
  refine ⟨ds, ?_, h2, h3, by rw [h4, Int.natCast_natAbs]⟩
  unfold to_string
  rw [h1]
  split <;> rfl

theorem string_insert_eq (pre post str : List Char) :
    string_insert (pre ++ post) (pre.length : Int) str = some (pre ++ str ++ post) := by
  unfold string_insert
  have h : ¬ (((pre.length : Nat) : Int) < 0 ∨
      ((pre.length : Nat) : Int) > ((pre ++ post).length : Nat)) := by
    rw [List.length_append]
    push_cast
    omega
  rw [if_neg h, Int.toNat_ofNat, List.take_left, List.drop_left]

theorem digitsValue_zeros (k : Nat) : digitsValue (List.replicate k '0') = 0 := by
  induction k with
  | zero => rfl
  | succ k ih =>
    rw [List.replicate_succ]
    have := digitsValue_append ['0'] (List.replicate k '0')
    simp only [List.singleton_append] at this
    rw [this, ih]
    simp [digitsValue]

theorem padded_eq (sign ds : List Char) (s : Nat) (hs : s ≤ 2147483647) (hne : ds ≠ []) :
    (if (((sign ++ ds).length : Nat) : Int) - ((sign.length : Nat) : Int) ≤ (s : Int) then
        if wrapInt32 ((s : Int) - ((((sign ++ ds).length : Nat) : Int) - ((sign.length : Nat) : Int)) + 1) < 0
          then none
        else
          string_insert (sign ++ ds) ((sign.length : Nat) : Int)
            (List.replicate
              (wrapInt32 ((s : Int) - ((((sign ++ ds).length : Nat) : Int) - ((sign.length : Nat) : Int)) + 1)).toNat
              '0')
      else some (sign ++ ds)) =
      some (sign ++ (List.replicate (s + 1 - ds.length) '0' ++ ds)) := by
  have hlen : (((sign ++ ds).length : Nat) : Int) - ((sign.length : Nat) : Int) = (ds.length : Int) := by
    rw [List.length_append]
    push_cast
    ring
  have hpos : 0 < ds.length := List.length_pos.mpr hne
  rw [hlen]
  by_cases hL : ds.length ≤ s
  · have h1 : ((ds.length : Nat) : Int) ≤ (s : Int) := by exact_mod_cast hL
    have hw : wrapInt32 ((s : Int) - (ds.length : Int) + 1) = ((s + 1 - ds.length : Nat) : Int) := by
      unfold wrapInt32
      omega
    rw [if_pos h1, hw, if_neg (by omega), Int.toNat_ofNat, string_insert_eq, List.append_assoc]
  · have h1 : ¬ ((ds.length : Nat) : Int) ≤ (s : Int) := by
      intro h
      exact hL (by exact_mod_cast h)
    have h0 : s + 1 - ds.length = 0 := by omega
    rw [if_neg h1, h0]
    rfl

/-- C26. For a scale `s` with 9 ≤ s ≤ 2147483647 (the caller passes a positive
`int`) and every integer `v`, `convertScaledFixedNumberToDouble` hands
`std::stod` the text built by `scaledFixedNumberText`: a '-' exactly when
`v < 0`, then an integer part of at least one digit, a '.', and a fraction
part of exactly `s` digits.  The digits of the two parts read as one number
give `|v|`, so the numeral denotes `v · 10^-s` exactly. -/
theorem scaledFixedNumberText_shape (s : Nat) (v : Int) (hs9 : 9 ≤ s) (hs : s ≤ 2147483647) :
    ∃ intPart fracPart : List Char,
      scaledFixedNumberText s v =
        Rewritten.ok (String.mk ((if v < 0 then ['-'] else []) ++ intPart ++ '.' :: fracPart)) ∧
      convertScaledFixedNumberToDouble s v =
        Rewritten.ok (DoubleExpr.stod
          (String.mk ((if v < 0 then ['-'] else []) ++ intPart ++ '.' :: fracPart))) ∧
      intPart ≠ [] ∧ (∀ c ∈ intPart, c.isDigit = true) ∧
      (∀ c ∈ fracPart, c.isDigit = true) ∧ fracPart.length = s ∧
      digitsValue intPart * 10 ^ s + digitsValue fracPart = |v| ∧
      (if v < 0 then (-1 : ℚ) else 1) *
        ((digitsValue intPart : ℚ) + (digitsValue fracPart : ℚ) / 10 ^ s) = (v : ℚ) / 10 ^ s := by
  obtain ⟨ds, hts, hne, hdig, hval⟩ := to_string_spec v
  have hhead : ((if v < 0 then ['-'] else []) ++ ds).head? = some '-' ↔ v < 0 := by
    by_cases hv : v < 0
    · simp [hv]
    · simp only [hv, if_false, List.nil_append, iff_false]
      cases ds with
      | nil => exact absurd rfl hne
      | cons c cs =>
        simp only [List.head?_cons, Option.some.injEq]
        intro hc
        have := hdig c (List.mem_cons_self c cs)
        rw [hc] at this
        exact absurd this (by decide)
  have hneg : (if v < 0 then (1 : Int) else 0) =
      (((if v < 0 then ['-'] else [] : List Char).length : Nat) : Int) := by
    split <;> rfl
  have hpos : 0 < ds.length := List.length_pos.mpr hne
  -- the padded digits
  obtain ⟨w, hw⟩ : ∃ w, w = List.replicate (s + 1 - ds.length) '0' ++ ds := ⟨_, rfl⟩
  have hwlen : s + 1 ≤ w.length := by
    rw [hw, List.length_append, List.length_replicate]
    omega
  have hwdig : ∀ c ∈ w, c.isDigit = true := by
    intro c hc
    rw [hw, List.mem_append] at hc
    rcases hc with hc | hc
    · rw [(List.mem_replicate.mp hc).2]; decide
    · exact hdig c hc
  have hwval : digitsValue w = |v| := by
    rw [hw, digitsValue_append, digitsValue_zeros, hval]
    ring
  have hsplit : w = w.take (w.length - s) ++ w.drop (w.length - s) :=
    (List.take_append_drop _ w).symm
  have htext : scaledFixedNumberText s v =
      Rewritten.ok (String.mk ((if v < 0 then ['-'] else []) ++ w.take (w.length - s) ++
        '.' :: w.drop (w.length - s))) := by
    unfold scaledFixedNumberText
    simp only [hts, hhead]
    rw [hneg, padded_eq _ ds s hs hne, ← hw]
    simp only
    have hp : ((((if v < 0 then ['-'] else []) ++ w).length : Nat) : Int) - (s : Int) =
        ((((if v < 0 then ['-'] else []) ++ w.take (w.length - s)).length : Nat) : Int) := by
      rw [List.length_append, List.length_append, List.length_take]
      push_cast
      omega
    have hq : (if v < 0 then ['-'] else []) ++ w =
        ((if v < 0 then ['-'] else []) ++ w.take (w.length - s)) ++ w.drop (w.length - s) := by
      rw [List.append_assoc, List.take_append_drop]
    rw [hp]
    nth_rewrite 1 [hq]
    rw [string_insert_eq]
    simp
  have hint : digitsValue (w.take (w.length - s)) * 10 ^ s + digitsValue (w.drop (w.length - s))
      = |v| := by
    have h := digitsValue_append (w.take (w.length - s)) (w.drop (w.length - s))
    rw [List.take_append_drop, hwval, List.length_drop] at h
    have hk : w.length - (w.length - s) = s := by omega
    rw [hk] at h
    exact h.symm
  refine ⟨w.take (w.length - s), w.drop (w.length - s), htext, ?_, ?_, ?_, ?_, ?_, hint, ?_⟩
  · unfold convertScaledFixedNumberToDouble
    rw [if_neg (by omega), htext]
  · intro h
    have := congrArg List.length h
    rw [List.length_take] at this
    simp only [List.length_nil] at this
    omega
  · exact fun c hc => hwdig c (List.mem_of_mem_take hc)
  · exact fun c hc => hwdig c (List.mem_of_mem_drop hc)
  · rw [List.length_drop]
    omega
  · have hq : ((digitsValue (w.take (w.length - s)) : Int) : ℚ) * 10 ^ s +
        ((digitsValue (w.drop (w.length - s)) : Int) : ℚ) = ((|v| : Int) : ℚ) := by
      exact_mod_cast hint
    have h10 : (10 : ℚ) ^ s ≠ 0 := by positivity
    by_cases hv : v < 0
    · rw [if_pos hv]
      rw [abs_of_neg hv] at hq
      field_simp
      push_cast at hq
      linarith
    · rw [if_neg hv]
      rw [abs_of_nonneg (not_lt.mp hv)] at hq
      field_simp
      linarith

/-- An instance of `scaledFixedNumberText_shape`: scale 9 with the values -5
and 12345678901. -/
theorem scaledFixedNumberText_shape_witness :
    scaledFixedNumberText 9 (-5) = Rewritten.ok "-0.000000005" ∧
    scaledFixedNumberText 9 12345678901 = Rewritten.ok "12.345678901" ∧
    ∃ intPart fracPart : List Char,
      scaledFixedNumberText 9 (-5) =
        Rewritten.ok (String.mk (['-'] ++ intPart ++ '.' :: fracPart)) ∧
      intPart ≠ [] ∧ fracPart.length = 9 ∧
      digitsValue intPart * 10 ^ 9 + digitsValue fracPart = 5 := by
  obtain ⟨intPart, fracPart, h1, _, h3, _, _, h6, h7, _⟩ :=
    scaledFixedNumberText_shape 9 (-5) (by decide) (by decide)
  exact ⟨rfl, rfl, intPart, fracPart, h1, h3, h6, h7⟩

end sf
